import Mathlib

/-!
# EKF failsafe monitor (APMrover2/ekf_check.cpp), MicroStrain7 backend
# (libraries/AP_ExternalAHRS/AP_ExternalAHRS_MicroStrain7.cpp) and remote
# logging (libraries/DataFlash/DataFlash_MAVLink.cpp)

Shallow embedding of the C++ code.  Stateful code is written as explicit
state passing; every call to an external collaborator that produces an
observable effect (event log, operator text, mode change) is recorded in a
list of effects, in program order.  Values the code reads from collaborators
that are not part of these files (arming state, EKF origin, variances, the
millisecond clock, the control mode) are the fields of a per-tick environment.
-/

/-! ## Machine arithmetic -/

/-- Subtraction of two `uint32_t` values, wrapping modulo 2^32. -/
def u32_sub (a b : Nat) : Nat :=
  (a % 4294967296 + 4294967296 - b % 4294967296) % 4294967296

/-- Post-increment of a `uint8_t`, wrapping modulo 2^8. -/
def u8_inc (a : Nat) : Nat :=
  (a + 1) % 256

/-- A C `float` as far as the ordered comparisons of the code can observe it:
either a NaN (every comparison with it is false) or an ordered value.
Infinities compare like very large values and need no separate case. -/
inductive CFloat where
  | nan : CFloat
  | val (q : ℚ) : CFloat
deriving DecidableEq

namespace CFloat

/-- The C comparison `a <= b`. -/
def le : CFloat → CFloat → Bool
  | val a, val b => decide (a ≤ b)
  | _, _ => false

/-- The C comparison `a >= b`. -/
def ge (a b : CFloat) : Bool :=
  le b a

/-- The C comparison `a > b`. -/
def gt : CFloat → CFloat → Bool
  | val a, val b => decide (b < a)
  | _, _ => false

end CFloat

/-! ## APMrover2/ekf_check.cpp -/

namespace Rover

/-- The macro `EKF_CHECK_ITERATIONS_MAX`. -/
def EKF_CHECK_ITERATIONS_MAX : Nat := 10

/-- The macro `EKF_CHECK_WARNING_TIME`, `(30*1000)`. -/
def EKF_CHECK_WARNING_TIME : Nat := 30 * 1000

/-- Error subsystems passed to `Log_Write_Error` by this file. -/
inductive ErrorSubsystem where
  | EKFCHECK
  | FAILSAFE_EKFINAV
deriving DecidableEq, Repr

/-- Error codes passed to `Log_Write_Error` by this file. -/
inductive ErrorCode where
  | EKFCHECK_BAD_VARIANCE
  | EKFCHECK_VARIANCE_CLEARED
  | FAILSAFE_OCCURRED
  | FAILSAFE_RESOLVED
deriving DecidableEq, Repr

/-- Observable calls made by the monitor, one constructor per callee:
`Log_Write_Error(sub, code)`, `gcs().send_text(MAV_SEVERITY_CRITICAL, text)`
and `set_mode(mode_hold, MODE_REASON_FAILSAFE)`. -/
inductive Effect where
  | Log_Write_Error (sub : ErrorSubsystem) (code : ErrorCode)
  | send_text (text : String)
  | set_mode_hold
deriving DecidableEq, Repr

/-- The static struct `ekf_check_state`. -/
structure ekf_check_state_t where
  /-- Field `uint8_t fail_count`. -/
  fail_count : Nat
  /-- Field `uint8_t bad_variance : 1`. -/
  bad_variance : Bool
  /-- Field `uint32_t last_warn_time`. -/
  last_warn_time : Nat
deriving DecidableEq, Repr

/-- The part of the vehicle state that `ekf_check` reads and writes. -/
structure State where
  ekf_check_state : ekf_check_state_t
  /-- The flag `AP_Notify::flags.ekf_bad`. -/
  ekf_bad : Bool
  /-- The flag `failsafe.ekf`. -/
  failsafe_ekf : Bool
deriving DecidableEq, Repr

/-- What one call of `ekf_check` reads from its collaborators. -/
structure TickEnv where
  /-- Result of `ahrs.get_origin(temp_loc)`. -/
  have_origin : Bool
  /-- Result of `arming.is_armed()`. -/
  is_armed : Bool
  /-- Parameter `g.fs_ekf_thresh`. -/
  fs_ekf_thresh : CFloat
  /-- Out-parameter `vel_variance` of `ahrs.get_variances`. -/
  vel_variance : CFloat
  /-- Out-parameter `position_variance` of `ahrs.get_variances`. -/
  position_variance : CFloat
  /-- Value of `mag_variance.length()`. -/
  mag_variance_length : CFloat
  /-- Result of `ekf_position_ok()`. -/
  position_ok : Bool
  /-- Value of `AP_HAL::millis()` read by the throttle test. -/
  millis : Nat
  /-- Value of `AP_HAL::millis()` read when `last_warn_time` is stored. -/
  millis_at_store : Nat
  /-- Result of `rover.control_mode->requires_position()`. -/
  requires_position : Bool
  /-- Result of `rover.control_mode->requires_velocity()`. -/
  requires_velocity : Bool

/-- The zero-initialised static state at start-up, no failsafe active. -/
def init : State :=
  { ekf_check_state := { fail_count := 0, bad_variance := false, last_warn_time := 0 },
    ekf_bad := false,
    failsafe_ekf := false }

/-- Function `Rover::ekf_over_threshold`. -/
def ekf_over_threshold (env : TickEnv) : Bool :=
  if CFloat.le env.fs_ekf_thresh (CFloat.val 0) then
    false
  else
    let over_thresh_count : Nat := 0
    let over_thresh_count :=
      if CFloat.ge env.mag_variance_length env.fs_ekf_thresh then u8_inc over_thresh_count
      else over_thresh_count
    let over_thresh_count :=
      if CFloat.ge env.vel_variance env.fs_ekf_thresh then u8_inc over_thresh_count
      else over_thresh_count
    let over_thresh_count :=
      if CFloat.ge env.position_variance env.fs_ekf_thresh then u8_inc over_thresh_count
      else over_thresh_count
    if over_thresh_count ≥ 2 then
      true
    else if env.position_ok then
      false
    else
      true

/-- Function `Rover::failsafe_ekf_event`. -/
def failsafe_ekf_event (env : TickEnv) (s : State) : State × List Effect :=
  if s.failsafe_ekf then
    (s, [])
  else
    let s := { s with failsafe_ekf := true }
    let log := [Effect.Log_Write_Error ErrorSubsystem.FAILSAFE_EKFINAV ErrorCode.FAILSAFE_OCCURRED]
    if !env.requires_position && !env.requires_velocity then
      (s, log)
    else
      (s, log ++ [Effect.set_mode_hold])

/-- Function `Rover::failsafe_ekf_off_event`. -/
def failsafe_ekf_off_event (s : State) : State × List Effect :=
  if !s.failsafe_ekf then
    (s, [])
  else
    ({ s with failsafe_ekf := false },
      [Effect.Log_Write_Error ErrorSubsystem.FAILSAFE_EKFINAV ErrorCode.FAILSAFE_RESOLVED])

/-- Function `Rover::ekf_check`: one tick of the monitor. -/
def ekf_check (env : TickEnv) (s : State) : State × List Effect :=
  if !env.have_origin then
    (s, [])
  else if !env.is_armed || CFloat.le env.fs_ekf_thresh (CFloat.val 0) then
    let st := { s.ekf_check_state with fail_count := 0, bad_variance := false }
    let s := { s with ekf_check_state := st, ekf_bad := st.bad_variance }
    failsafe_ekf_off_event s
  else
    let r : State × List Effect :=
      if ekf_over_threshold env then
        if !s.ekf_check_state.bad_variance then
          let st := { s.ekf_check_state with fail_count := u8_inc s.ekf_check_state.fail_count }
          if st.fail_count ≥ EKF_CHECK_ITERATIONS_MAX then
            let st := { st with fail_count := EKF_CHECK_ITERATIONS_MAX, bad_variance := true }
            let log := [Effect.Log_Write_Error ErrorSubsystem.EKFCHECK
              ErrorCode.EKFCHECK_BAD_VARIANCE]
            let warn : ekf_check_state_t × List Effect :=
              if u32_sub env.millis st.last_warn_time > EKF_CHECK_WARNING_TIME then
                ({ st with last_warn_time := env.millis_at_store },
                  [Effect.send_text "EKF variance"])
              else
                (st, [])
            let ev := failsafe_ekf_event env { s with ekf_check_state := warn.1 }
            (ev.1, log ++ warn.2 ++ ev.2)
          else
            ({ s with ekf_check_state := st }, [])
        else
          (s, [])
      else
        if s.ekf_check_state.fail_count > 0 then
          let st := { s.ekf_check_state with fail_count := s.ekf_check_state.fail_count - 1 }
          if st.bad_variance && st.fail_count == 0 then
            let st := { st with bad_variance := false }
            let log := [Effect.Log_Write_Error ErrorSubsystem.EKFCHECK
              ErrorCode.EKFCHECK_VARIANCE_CLEARED]
            let ev := failsafe_ekf_off_event { s with ekf_check_state := st }
            (ev.1, log ++ ev.2)
          else
            ({ s with ekf_check_state := st }, [])
        else
          (s, [])
    ({ r.1 with ekf_bad := r.1.ekf_check_state.bad_variance }, r.2)

/-- The state after calling `ekf_check` once per environment, in order. -/
def run (s : State) : List TickEnv → State
  | [] => s
  | env :: envs => run (ekf_check env s).1 envs

/-- The effects of each call of `ekf_check` in a run, one list per tick. -/
def trace (s : State) : List TickEnv → List (List Effect)
  | [] => []
  | env :: envs => (ekf_check env s).2 :: trace (ekf_check env s).1 envs

/-- A tick on which the vehicle has an origin, is armed, the check is enabled
with a positive threshold, and `ekf_over_threshold` has the given value. -/
def active_tick (over : Bool) (env : TickEnv) : Prop :=
  env.have_origin = true ∧ env.is_armed = true ∧
    CFloat.gt env.fs_ekf_thresh (CFloat.val 0) = true ∧ ekf_over_threshold env = over

/-- Effect predicate: an event-log entry. -/
def Effect.is_log : Effect → Bool
  | Effect.Log_Write_Error _ _ => true
  | _ => false

/-- Effect predicate: an operator text alert. -/
def Effect.is_alert : Effect → Bool
  | Effect.send_text _ => true
  | _ => false

/-- Effect predicate: a mode-change request. -/
def Effect.is_mode_request : Effect → Bool
  | Effect.set_mode_hold => true
  | _ => false

/-- The sample of the trip-timing scenario: threshold 1.0, magnetic and
velocity variance 1.5, position variance 0.0, read at clock value `t`. -/
def bad_sample (t : Nat) : TickEnv :=
  { have_origin := true, is_armed := true,
    fs_ekf_thresh := CFloat.val 1,
    vel_variance := CFloat.val (3 / 2),
    position_variance := CFloat.val 0,
    mag_variance_length := CFloat.val (3 / 2),
    position_ok := true,
    millis := t, millis_at_store := t,
    requires_position := false, requires_velocity := false }

/-- The sample of the recovery scenario: threshold 1.0, all three variances
0.2, position estimate ok, read at clock value `t`. -/
def good_sample (t : Nat) : TickEnv :=
  { have_origin := true, is_armed := true,
    fs_ekf_thresh := CFloat.val 1,
    vel_variance := CFloat.val (1 / 5),
    position_variance := CFloat.val (1 / 5),
    mag_variance_length := CFloat.val (1 / 5),
    position_ok := true,
    millis := t, millis_at_store := t,
    requires_position := false, requires_velocity := false }

/-- The operator alert sent on a trip: `gcs().send_text(MAV_SEVERITY_CRITICAL,"EKF variance")`. -/
def variance_alert : Effect :=
  Effect.send_text "EKF variance"

/-- The values returned by the successive calls of `AP_HAL::millis()` that a
run may make, in program order: two per tick. -/
def clock_readings : List TickEnv → List Nat
  | [] => []
  | env :: envs => env.millis :: env.millis_at_store :: clock_readings envs

/-- The clock is a `uint32_t` that has not wrapped and never goes backwards
over the run. -/
def clock_ok (envs : List TickEnv) : Prop :=
  List.Pairwise (fun a b => a ≤ b) (clock_readings envs) ∧
    ∀ t ∈ clock_readings envs, t < 4294967296

/-- The ticks of a run that send the operator alert, each with the clock value
read by its throttle test and the clock value it stored, in order. -/
def alert_ticks (s : State) : List TickEnv → List (Nat × Nat)
  | [] => []
  | env :: envs =>
    (if variance_alert ∈ (ekf_check env s).2 then [(env.millis, env.millis_at_store)] else [])
      ++ alert_ticks (ekf_check env s).1 envs

/-- The sample of the trip-timing scenario with the check disabled
(threshold 0). -/
def disabled_sample (t : Nat) : TickEnv :=
  { bad_sample t with fs_ekf_thresh := CFloat.val 0 }

/-- A sample with only the velocity variance (1.5) over the threshold 1.0,
with the given result of the position-quality check. -/
def one_high_sample (position_ok : Bool) : TickEnv :=
  { bad_sample 0 with
    mag_variance_length := CFloat.val 0, position_ok := position_ok }

/-- The sample of the trip-timing scenario on a tick without origin. -/
def no_origin_sample (t : Nat) : TickEnv :=
  { bad_sample t with have_origin := false }

/-- The event-log entry written when the variance flag is cleared. -/
def recovery_entry : Effect :=
  Effect.Log_Write_Error ErrorSubsystem.EKFCHECK ErrorCode.EKFCHECK_VARIANCE_CLEARED

/-- The event-log entry written when the variance flag is set. -/
def trip_entry : Effect :=
  Effect.Log_Write_Error ErrorSubsystem.EKFCHECK ErrorCode.EKFCHECK_BAD_VARIANCE

/-- A tripped state: counter at the maximum, variance flag and failsafe set. -/
def tripped (last_warn_time : Nat) : State :=
  { ekf_check_state :=
      { fail_count := 10, bad_variance := true, last_warn_time := last_warn_time },
    ekf_bad := true,
    failsafe_ekf := true }

/-- The event-log entry written when the EKF failsafe is triggered. -/
def failsafe_entry : Effect :=
  Effect.Log_Write_Error ErrorSubsystem.FAILSAFE_EKFINAV ErrorCode.FAILSAFE_OCCURRED

/-- Ten ticks of the trip-timing sample at 10 Hz, starting 100 ms after boot. -/
def ten_bad_ticks : List TickEnv :=
  [bad_sample 100, bad_sample 200, bad_sample 300, bad_sample 400, bad_sample 500,
    bad_sample 600, bad_sample 700, bad_sample 800, bad_sample 900, bad_sample 1000]

/-- A state one bad tick away from a trip, with the given time of the last
alert and no failsafe active. -/
def near_trip (last_warn_time : Nat) : State :=
  { ekf_check_state :=
      { fail_count := 9, bad_variance := false, last_warn_time := last_warn_time },
    ekf_bad := false,
    failsafe_ekf := false }

/-- A run with two trips: ten bad ticks at clock 40000, ten good ticks at clock
50000, ten bad ticks at clock 71000. -/
def two_trip_run : List TickEnv :=
  List.replicate 10 (bad_sample 40000) ++ List.replicate 10 (good_sample 50000) ++
    List.replicate 10 (bad_sample 71000)

end Rover

namespace Rover

/-- The invariant of the states the monitor can reach from start-up: the
counter is at most the maximum, it is below the maximum while the variance
flag is clear and above zero while it is set, and the notify flag and the
failsafe flag both equal the variance flag. -/
def reach_inv (s : State) : Prop :=
  s.ekf_check_state.fail_count ≤ EKF_CHECK_ITERATIONS_MAX ∧
    (s.ekf_check_state.bad_variance = false → s.ekf_check_state.fail_count ≤ 9) ∧
    (s.ekf_check_state.bad_variance = true → 1 ≤ s.ekf_check_state.fail_count) ∧
    s.ekf_bad = s.ekf_check_state.bad_variance ∧
    s.failsafe_ekf = s.ekf_check_state.bad_variance

/-- The origin, once available on a tick, is available on every later tick. -/
def origin_latched (envs : List TickEnv) : Prop :=
  List.Pairwise (fun a b => a.have_origin = true → b.have_origin = true) envs

/-- The trip-timing sample with the vehicle disarmed. -/
def disarmed_sample (t : Nat) : TickEnv :=
  { bad_sample t with is_armed := false }

/-- The trip-timing sample read while the control mode requires position. -/
def position_mode_sample (t : Nat) : TickEnv :=
  { bad_sample t with requires_position := true }

end Rover

namespace Rover

/-- The number of good ticks (ekf_over_threshold false) in a list of ticks. -/
def good_count (envs : List TickEnv) : Nat :=
  envs.countP (fun env => !ekf_over_threshold env)

end Rover

/-! ## libraries/AP_ExternalAHRS/AP_ExternalAHRS_MicroStrain7.cpp -/

namespace AP_ExternalAHRS_MicroStrain7

/-- Enumerator `FilterState::GQ7_INIT`. -/
def GQ7_INIT : Nat := 0x01

/-- Enumerator `FilterState::GQ7_VERT_GYRO`. -/
def GQ7_VERT_GYRO : Nat := 0x02

/-- Enumerator `FilterState::GQ7_AHRS`. -/
def GQ7_AHRS : Nat := 0x03

/-- Enumerator `FilterState::GQ7_FULL_NAV`. -/
def GQ7_FULL_NAV : Nat := 0x04

/-- One element of the member array `gnss_data`, with the fields this file
reads.  The member declarations are in a header outside these files; the
altitude is an `int32_t` (it initialises a `Location` in a braced list without
a narrowing cast). -/
structure gnss_data_t where
  fix_type : Nat
  satellites : Nat := 0
  horizontal_position_accuracy : CFloat := CFloat.val 0
  vertical_position_accuracy : CFloat := CFloat.val 0
  speed_accuracy : CFloat := CFloat.val 0
  hdop : CFloat := CFloat.val 0
  vdop : CFloat := CFloat.val 0
  msl_altitude : Int := 0

/-- The members of the backend object that the health checks read. -/
structure Backend where
  /-- Member `uint32_t last_ins_pkt`. -/
  last_ins_pkt : Nat
  /-- Member `uint32_t last_gps_pkt`. -/
  last_gps_pkt : Nat
  /-- Member `uint32_t last_filter_pkt`. -/
  last_filter_pkt : Nat
  /-- Member `filter_status.state`. -/
  filter_status_state : Nat
  /-- Member array `gnss_data`, by instance index. -/
  gnss_data : Nat → gnss_data_t

/-- Function `AP_ExternalAHRS_MicroStrain7::healthy`; `now` is the value
returned by `AP_HAL::millis()`. -/
def healthy (now : Nat) (b : Backend) : Bool :=
  let times_healthy : Bool :=
    decide (u32_sub now b.last_ins_pkt < 40) && decide (u32_sub now b.last_gps_pkt < 500) &&
      decide (u32_sub now b.last_filter_pkt < 500)
  let filter_state := b.filter_status_state
  let filter_healthy : Bool := (filter_state == GQ7_FULL_NAV || filter_state == GQ7_AHRS)
  times_healthy && filter_healthy

/-- Function `AP_ExternalAHRS_MicroStrain7::initialised`. -/
def initialised (b : Backend) : Bool :=
  let got_packets : Bool :=
    b.last_ins_pkt != 0 && b.last_gps_pkt != 0 && b.last_filter_pkt != 0
  let filter_state := b.filter_status_state
  let filter_healthy : Bool := (filter_state == GQ7_FULL_NAV || filter_state == GQ7_AHRS)
  got_packets && filter_healthy

/-- Function `AP_ExternalAHRS_MicroStrain7::pre_arm_check`: the returned flag
and the text handed to `snprintf` for `failure_msg` (none when nothing is
written). -/
def pre_arm_check (now : Nat) (b : Backend) : Bool × Option String :=
  if !healthy now b then
    (false, some "MicroStrain7 unhealthy")
  else if (b.gnss_data 0).fix_type < 3 then
    (false, some "MicroStrain7 no GPS lock")
  else if b.filter_status_state != 0x02 then
    (false, some "MicroStrain7 filter not running")
  else
    (true, none)

/-- A backend whose three packet timestamps, filter state and primary fix type
are the given values (every GNSS instance carries the same fix type). -/
def sample_backend (ins gps filter state fix : Nat) : Backend :=
  { last_ins_pkt := ins, last_gps_pkt := gps, last_filter_pkt := filter,
    filter_status_state := state, gnss_data := fun _ => { fix_type := fix } }

end AP_ExternalAHRS_MicroStrain7

/-! ### The ingestion path: constructor, `build_packet`, `post_imu`, `post_filter` -/

namespace AP_ExternalAHRS_MicroStrain7

/-- Type `Vector3f`. -/
structure Vector3f where
  x : CFloat
  y : CFloat
  z : CFloat
deriving DecidableEq

/-- Type `Quaternion`. -/
structure Quaternion where
  q1 : CFloat
  q2 : CFloat
  q3 : CFloat
  q4 : CFloat
deriving DecidableEq

/-- Enumeration `Location::AltFrame`. -/
inductive AltFrame where
  | ABSOLUTE
  | ABOVE_HOME
  | ABOVE_ORIGIN
  | ABOVE_TERRAIN
deriving DecidableEq, Repr

/-- A `Location` as built by `Location{lat, lng, alt, frame}`. -/
structure Location where
  lat : Int
  lng : Int
  alt : Int
  frame : AltFrame
deriving DecidableEq, Repr

/-- The shared navigation state `AP_ExternalAHRS::state_t`, with the fields the
backend writes. -/
structure state_t where
  accel : Vector3f
  gyro : Vector3f
  quat : Quaternion
  have_quaternion : Bool
  velocity : Vector3f
  have_velocity : Bool
  location : Location
  have_location : Bool
  origin : Location
  have_origin : Bool
deriving DecidableEq

/-- Member `imu_data`. -/
structure imu_data_t where
  accel : Vector3f
  gyro : Vector3f
  mag : Vector3f
  quat : Quaternion
  pressure : CFloat

/-- Member `filter_data`, with the fields this file reads. -/
structure filter_data_t where
  week : Nat
  tow_ms : Nat
  lat : Int
  lon : Int
  ned_velocity_north : CFloat
  ned_velocity_east : CFloat
  ned_velocity_down : CFloat

/-- The enumeration `DescriptorSet` as named by the `switch` of `build_packet`;
`unlisted` stands for a descriptor value that is none of the enumerators. -/
inductive DescriptorSet where
  | BaseCommand
  | DMCommand
  | SystemCommand
  | IMUData
  | GNSSData
  | FilterData
  | GNSSRecv1
  | GNSSRecv2
  | unlisted (raw : Nat)
deriving DecidableEq, Repr

/-- Type `AP_ExternalAHRS::gps_data_message_t`. -/
structure gps_data_message_t where
  gps_week : Nat
  ms_tow : Nat
  fix_type : Nat
  satellites_in_view : Nat
  horizontal_pos_accuracy : CFloat
  vertical_pos_accuracy : CFloat
  horizontal_vel_accuracy : CFloat
  hdop : CFloat
  vdop : CFloat
  longitude : Int
  latitude : Int
  msl_altitude : Int
  ned_vel_north : CFloat
  ned_vel_east : CFloat
  ned_vel_down : CFloat
deriving DecidableEq

/-- Calls to the downstream publishers, one constructor per callee:
`AP::ins().handle_external`, `AP::compass().handle_external`,
`AP::baro().handle_external` and `AP::gps().handle_external`. -/
inductive Publish where
  | ins_handle_external (accel gyro : Vector3f) (temperature : CFloat)
  | compass_handle_external (field : Vector3f)
  | baro_handle_external (inst : Nat) (pressure_pa temperature : CFloat)
  | gps_handle_external (gps : gps_data_message_t) (inst : Nat)
deriving DecidableEq

/-- Build-time configuration read by this file from headers outside it. -/
structure Config where
  /-- Macro `AP_COMPASS_EXTERNALAHRS_ENABLED`. -/
  compass_enabled : Bool
  /-- Macro `AP_BARO_EXTERNALAHRS_ENABLED`. -/
  baro_enabled : Bool
  /-- Macro `NUM_GNSS_INSTANCES`. -/
  NUM_GNSS_INSTANCES : Nat

/-- Modelled from the spec: the frame decoder of the base class
(`handle_byte` and the members it fills, declared and defined outside these
files), as the contract of section 4.1: `feed(byte)` returns an optional frame
and keeps its parse state in the object between calls.  The type `σ` is the
state of the base-class part of the object; the other fields read from it the
members used by this file.  Clock reads made inside the decoder are not
represented. -/
structure Decoder (σ : Type) where
  /-- Member function `handle_byte(b, descriptor)`: the new object state and
  the descriptor when it returns true. -/
  handle_byte : σ → Nat → σ × Option DescriptorSet
  /-- The members read by `healthy`, `initialised`, `pre_arm_check` and
  `post_filter`. -/
  members : σ → Backend
  /-- Member `imu_data`. -/
  imu_data : σ → imu_data_t
  /-- Member `filter_data`. -/
  filter_data : σ → filter_data_t

/-- The backend object: the serial port pointer `uart` (none for `nullptr`,
otherwise the bytes received and not yet read, oldest first), the flag
`port_open`, the base-class part and the shared navigation state `state`. -/
structure Driver (σ : Type) where
  uart : Option (List Nat)
  port_open : Bool
  base : σ
  state : state_t

/-- Observable calls made by the constructor, in program order. -/
inductive InitEffect where
  | send_text_error (text : String)
  | send_text_info (text : String)
  | thread_create
  | allocation_error (text : String)
  | delay (ms : Nat)
deriving DecidableEq, Repr

/-- The constructor `AP_ExternalAHRS_MicroStrain7::AP_ExternalAHRS_MicroStrain7`:
`found` is the result of `sm.find_serial`, `thread_ok` the result of
`thread_create`, `base0` and `state0` the members as initialised before the
body runs.  `allocation_error` does not return, so nothing follows it. -/
def construct {σ : Type} (found : Option (List Nat)) (thread_ok : Bool) (base0 : σ)
    (state0 : state_t) : Driver σ × List InitEffect :=
  let drv : Driver σ := { uart := found, port_open := false, base := base0, state := state0 }
  match found with
  | none => (drv, [InitEffect.send_text_error "MicroStrain7 ExternalAHRS no UART"])
  | some _ =>
    if !thread_ok then
      (drv, [InitEffect.thread_create,
        InitEffect.allocation_error
          "MicroStrain7 failed to allocate ExternalAHRS update thread"])
    else
      (drv, [InitEffect.thread_create, InitEffect.delay 5000,
        InitEffect.send_text_info "MicroStrain7 ExternalAHRS initialised"])

/-- Function `AP_ExternalAHRS_MicroStrain7::post_imu`. -/
def post_imu {σ : Type} (cfg : Config) (D : Decoder σ) (drv : Driver σ) :
    Driver σ × List Publish :=
  let imu := D.imu_data drv.base
  let st := { drv.state with
    accel := imu.accel, gyro := imu.gyro, quat := imu.quat, have_quaternion := true }
  let ins := [Publish.ins_handle_external imu.accel imu.gyro (CFloat.val (-300))]
  let mag := if cfg.compass_enabled then [Publish.compass_handle_external imu.mag] else []
  let baro :=
    if cfg.baro_enabled then
      [Publish.baro_handle_external 0 imu.pressure (CFloat.val 25)]
    else []
  ({ drv with state := st }, ins ++ mag ++ baro)

/-- The message `gps` built by `post_filter` for one instance. -/
def gps_message (f : filter_data_t) (g : gnss_data_t) : gps_data_message_t :=
  { gps_week := f.week,
    ms_tow := f.tow_ms,
    fix_type := g.fix_type % 256,
    satellites_in_view := g.satellites,
    horizontal_pos_accuracy := g.horizontal_position_accuracy,
    vertical_pos_accuracy := g.vertical_position_accuracy,
    horizontal_vel_accuracy := g.speed_accuracy,
    hdop := g.hdop,
    vdop := g.vdop,
    longitude := f.lon,
    latitude := f.lat,
    msl_altitude := g.msl_altitude,
    ned_vel_north := f.ned_velocity_north,
    ned_vel_east := f.ned_velocity_east,
    ned_vel_down := f.ned_velocity_down }

/-- One iteration of the `for` loop of `post_filter`, for instance `inst`. -/
def post_filter_instance (f : filter_data_t) (gnss : Nat → gnss_data_t) (inst : Nat)
    (st : state_t) : state_t × List Publish :=
  let gps := gps_message f (gnss inst)
  let st :=
    if gps.fix_type ≥ 3 && !st.have_origin then
      { st with
        origin := { lat := f.lat, lng := f.lon, alt := (gnss inst).msl_altitude,
                    frame := AltFrame.ABSOLUTE },
        have_origin := true }
    else st
  (st, [Publish.gps_handle_external gps inst])

/-- The `for` loop of `post_filter` over the instances `inst, inst + 1, ...`,
`count` of them. -/
def post_filter_loop (f : filter_data_t) (gnss : Nat → gnss_data_t) :
    Nat → Nat → state_t → state_t × List Publish
  | 0, _, st => (st, [])
  | count + 1, inst, st =>
    let r := post_filter_instance f gnss inst st
    let rest := post_filter_loop f gnss count (inst + 1) r.1
    (rest.1, r.2 ++ rest.2)

/-- Function `AP_ExternalAHRS_MicroStrain7::post_filter`. -/
def post_filter {σ : Type} (cfg : Config) (D : Decoder σ) (drv : Driver σ) :
    Driver σ × List Publish :=
  let f := D.filter_data drv.base
  let gnss := (D.members drv.base).gnss_data
  let st := { drv.state with
    velocity := { x := f.ned_velocity_north, y := f.ned_velocity_east,
                  z := f.ned_velocity_down },
    have_velocity := true,
    location := { lat := f.lat, lng := f.lon, alt := (gnss 0).msl_altitude,
                  frame := AltFrame.ABSOLUTE },
    have_location := true }
  let r := post_filter_loop f gnss cfg.NUM_GNSS_INSTANCES 0 st
  ({ drv with state := r.1 }, r.2)

/-- The `switch (descriptor)` of `build_packet`. -/
def dispatch {σ : Type} (cfg : Config) (D : Decoder σ) (descriptor : DescriptorSet)
    (drv : Driver σ) : Driver σ × List Publish :=
  match descriptor with
  | DescriptorSet.IMUData => post_imu cfg D drv
  | DescriptorSet.GNSSData => (drv, [])
  | DescriptorSet.GNSSRecv1 => (drv, [])
  | DescriptorSet.GNSSRecv2 => (drv, [])
  | DescriptorSet.FilterData => post_filter cfg D drv
  | DescriptorSet.BaseCommand => (drv, [])
  | DescriptorSet.DMCommand => (drv, [])
  | DescriptorSet.SystemCommand => (drv, [])
  | DescriptorSet.unlisted _ => (drv, [])

/-- One byte through `handle_byte` and, when it completes a frame, the
`switch`: the body of the `while` loop of `build_packet` after a successful
`uart->read(b)`.  The result lists the dispatched descriptor, if any, and the
publisher calls. -/
def feed_byte {σ : Type} (cfg : Config) (D : Decoder σ) (b : Nat) (drv : Driver σ) :
    Driver σ × List DescriptorSet × List Publish :=
  let r := D.handle_byte drv.base b
  let drv := { drv with base := r.1 }
  match r.2 with
  | none => (drv, [], [])
  | some descriptor =>
    let d := dispatch cfg D descriptor drv
    (d.1, [descriptor], d.2)

/-- The `while (nbytes-- > 0)` loop of `build_packet`: `rx` is the receive
buffer of the port, and `uart->read(b)` fails when it is empty. -/
def build_packet_loop {σ : Type} (cfg : Config) (D : Decoder σ) :
    Nat → List Nat → Driver σ → List Nat × Driver σ × List DescriptorSet × List Publish
  | 0, rx, drv => (rx, drv, [], [])
  | _ + 1, [], drv => ([], drv, [], [])
  | nbytes + 1, b :: rx, drv =>
    let r := feed_byte cfg D b drv
    let rest := build_packet_loop cfg D nbytes rx r.1
    (rest.1, rest.2.1, r.2.1 ++ rest.2.2.1, r.2.2 ++ rest.2.2.2)

/-- Function `AP_ExternalAHRS_MicroStrain7::build_packet`: one pass.  The
result lists the descriptors dispatched and the publisher calls made. -/
def build_packet {σ : Type} (cfg : Config) (D : Decoder σ) (drv : Driver σ) :
    Driver σ × List DescriptorSet × List Publish :=
  match drv.uart with
  | none => (drv, [], [])
  | some rx =>
    let nbytes := min (rx.length % 4294967296) 2048
    let r := build_packet_loop cfg D nbytes rx drv
    ({ r.2.1 with uart := some r.1 }, r.2.2.1, r.2.2.2)

/-- Bytes arriving on the serial port between two passes: appended to the
receive buffer when there is a port. -/
def receive {σ : Type} (chunk : List Nat) (drv : Driver σ) : Driver σ :=
  match drv.uart with
  | none => drv
  | some rx => { drv with uart := some (rx ++ chunk) }

/-- A session of the ingestion loop: for each chunk of bytes in turn, the
chunk arrives and `build_packet` makes one pass (an empty chunk is a pass with
nothing new).  The result is the final object with the descriptors dispatched
and the publisher calls made over all passes, in order. -/
def passes {σ : Type} (cfg : Config) (D : Decoder σ) :
    List (List Nat) → Driver σ → Driver σ × List DescriptorSet × List Publish
  | [], drv => (drv, [], [])
  | chunk :: chunks, drv =>
    let r := build_packet cfg D (receive chunk drv)
    let rest := passes cfg D chunks r.1
    (rest.1, r.2.1 ++ rest.2.1, r.2.2 ++ rest.2.2)

/-- The decoder fed a whole byte sequence in one go, byte after byte, with the
dispatch of each completed frame. -/
def feed_all {σ : Type} (cfg : Config) (D : Decoder σ) :
    List Nat → Driver σ → Driver σ × List DescriptorSet × List Publish
  | [], drv => (drv, [], [])
  | b :: bytes, drv =>
    let r := feed_byte cfg D b drv
    let rest := feed_all cfg D bytes r.1
    (rest.1, r.2.1 ++ rest.2.1, r.2.2 ++ rest.2.2)

end AP_ExternalAHRS_MicroStrain7

namespace AP_ExternalAHRS_MicroStrain7

/-- The members read by the health checks as they are before the first packet:
no packet time recorded and the filter state zero (the object is zero-filled
when allocated and the constructor body does not write these members). -/
def unset_members (b : Backend) : Prop :=
  b.last_ins_pkt = 0 ∧ b.last_gps_pkt = 0 ∧ b.last_filter_pkt = 0 ∧
    b.filter_status_state = 0

/-- The all-zero navigation state. -/
def zero_state : state_t :=
  { accel := { x := CFloat.val 0, y := CFloat.val 0, z := CFloat.val 0 },
    gyro := { x := CFloat.val 0, y := CFloat.val 0, z := CFloat.val 0 },
    quat := { q1 := CFloat.val 0, q2 := CFloat.val 0, q3 := CFloat.val 0,
              q4 := CFloat.val 0 },
    have_quaternion := false,
    velocity := { x := CFloat.val 0, y := CFloat.val 0, z := CFloat.val 0 },
    have_velocity := false,
    location := { lat := 0, lng := 0, alt := 0, frame := AltFrame.ABSOLUTE },
    have_location := false,
    origin := { lat := 0, lng := 0, alt := 0, frame := AltFrame.ABSOLUTE },
    have_origin := false }

/-- A small decoder used to instantiate the decoder contract in examples: a
frame is the sync byte 0x75 followed by one descriptor byte (0x80 inertial,
0x82 filter, anything else unlisted); the object state records whether the
sync byte has been seen.  Every frame carries the same data: position
(lat, lon) and a 3D fix with altitude 12300 on both GNSS instances. -/
def pair_decoder (lat lon : Int) : Decoder Bool :=
  { handle_byte := fun seen b =>
      if seen then
        (false, some (if b = 0x80 then DescriptorSet.IMUData
          else if b = 0x82 then DescriptorSet.FilterData
          else DescriptorSet.unlisted b))
      else (decide (b = 0x75), none),
    members := fun _ =>
      { last_ins_pkt := 0, last_gps_pkt := 0, last_filter_pkt := 0,
        filter_status_state := 0,
        gnss_data := fun _ => { fix_type := 3, msl_altitude := 12300 } },
    imu_data := fun _ =>
      { accel := { x := CFloat.val 0, y := CFloat.val 0, z := CFloat.val 1 },
        gyro := { x := CFloat.val 0, y := CFloat.val 0, z := CFloat.val 0 },
        mag := { x := CFloat.val 0, y := CFloat.val 0, z := CFloat.val 0 },
        quat := { q1 := CFloat.val 1, q2 := CFloat.val 0, q3 := CFloat.val 0,
                  q4 := CFloat.val 0 },
        pressure := CFloat.val 101325 },
    filter_data := fun _ =>
      { week := 2200, tow_ms := 1000, lat := lat, lon := lon,
        ned_velocity_north := CFloat.val 0, ned_velocity_east := CFloat.val 0,
        ned_velocity_down := CFloat.val 0 } }

/-- The build configuration with both optional publishers and two GNSS
instances. -/
def sample_config : Config :=
  { compass_enabled := true, baro_enabled := true, NUM_GNSS_INSTANCES := 2 }

/-- A backend object with an open port, an empty receive buffer, the decoder
waiting for a sync byte, and the all-zero navigation state. -/
def sample_driver : Driver Bool :=
  { uart := some [], port_open := true, base := false, state := zero_state }

/-- The sample backend object with an origin already set at (1, 2, 3). -/
def sample_driver_with_origin : Driver Bool :=
  { sample_driver with
    state := { zero_state with
      origin := { lat := 1, lng := 2, alt := 3, frame := AltFrame.ABSOLUTE },
      have_origin := true } }

end AP_ExternalAHRS_MicroStrain7

namespace AP_ExternalAHRS_MicroStrain7

/-- Two backend objects with the same base-class part and the same navigation
state (they may differ in the port and its receive buffer). -/
def agree {σ : Type} (d1 d2 : Driver σ) : Prop :=
  d1.base = d2.base ∧ d1.state = d2.state

end AP_ExternalAHRS_MicroStrain7

namespace AP_ExternalAHRS_MicroStrain7

/-- The example decoder with chosen GNSS data: instance 0 has fix type `fix0`
and MSL altitude 100, every other instance fix type `fix1` and MSL altitude
200; the filter position is (50, 60). -/
def gnss_decoder (fix0 fix1 : Nat) : Decoder Bool :=
  { pair_decoder 50 60 with
    members := fun _ =>
      { last_ins_pkt := 0, last_gps_pkt := 0, last_filter_pkt := 0,
        filter_status_state := 0,
        gnss_data := fun i =>
          if i = 0 then { fix_type := fix0, msl_altitude := 100 }
          else { fix_type := fix1, msl_altitude := 200 } } }

end AP_ExternalAHRS_MicroStrain7

/-! ## libraries/DataFlash/DataFlash_MAVLink.cpp -/

/-- Subtraction of two values stored into a `uint16_t`, wrapping modulo 2^16. -/
def u16_sub (a b : Nat) : Nat :=
  (a % 65536 + 65536 - b % 65536) % 65536

/-- Conversion of a `uint8_t` value to the `int8_t` return type. -/
def to_int8 (n : Nat) : Int :=
  if n % 256 < 128 then (n % 256 : Nat) else ((n % 256 : Nat) : Int) - 256

/-- Conversion of an `int8_t` value to `uint8_t`. -/
def to_uint8 (i : Int) : Nat :=
  (i % 256).toNat

namespace DataFlash_MAVLink

/-- Constants read by this file from headers outside it. -/
structure Params where
  /-- Constant `_total_blocks`; the loops over it use a `uint8_t` index, so
  it is at most 255. -/
  total_blocks : Nat
  /-- Constant `_block_max_size`. -/
  block_max_size : Nat
  /-- Macro `MAV_REMOTE_LOG_DATA_BLOCK_STOP`. -/
  BLOCK_STOP : Nat
  /-- Macro `MAV_REMOTE_LOG_DATA_BLOCK_START`. -/
  BLOCK_START : Nat

/-- The members of the backend object used by this file.  Their declarations
are in a header outside these files: `_latest_block_len` is taken as a
`uint16_t` like the locals it is combined with, `_latest_block_num` and the
elements of `_block_num` as `uint32_t` like the block number of `handle_ack`,
`_cur_block_address` as a `uint8_t` like the index it is assigned from. -/
structure State where
  _initialised : Bool
  _logging_started : Bool
  _sending_to_client : Bool
  _writes_enabled : Bool
  /-- Array `_block_num`, by slot. -/
  _block_num : Nat → Nat
  /-- Array `_buf`, by slot and offset. -/
  _buf : Nat → Nat → Nat
  _latest_block_num : Nat
  _latest_block_len : Nat
  _cur_block_address : Nat
  _chan : Nat
  /-- Number of calls of `perf_count(_perf_overruns)`. -/
  overruns : Nat

/-- Observable calls and stores, in program order: the call
`send_log_block(address)` made when a block is full, with the number just
stored in `_block_num[address]`; the message sent by
`mavlink_msg_remote_log_data_block_send`; `_front.StartNewLog()`; and
`DataFlash_Backend::Init`. -/
inductive Event where
  | send_log_block (address block_num : Nat)
  | data_block_send (chan block_max_size block_num : Nat) (data : List Nat)
  | StartNewLog
  | Backend_Init
deriving DecidableEq, Repr

/-- The blocks completed in a list of events: slot and block number. -/
def completed : List Event → List (Nat × Nat)
  | [] => []
  | Event.send_log_block a n :: evs => (a, n) :: completed evs
  | _ :: evs => completed evs

/-- Function `DataFlash_MAVLink::Init`. -/
def Init (s : State) : State × List Event :=
  ({ s with _block_num := fun _ => 0, _initialised := true, _logging_started := true },
    [Event.Backend_Init])

/-- The body of `DataFlash_MAVLink::send_log_block`; `txspace` is the value of
`comm_get_txspace(_chan)`. -/
def send_log_block (p : Params) (txspace : Nat) (block_address : Nat) (s : State) :
    List Event :=
  if !s._initialised || txspace < 255 then
    []
  else
    [Event.data_block_send s._chan p.block_max_size (s._block_num block_address)
      ((List.range p.block_max_size).map (s._buf block_address))]

/-- The `for` loop of `next_block_address` from index `block`, with `count`
indices left: the value of `oldest_block_address` when the loop ends. -/
def oldest_scan (num : Nat → Nat) : Nat → Nat → Nat → Nat
  | 0, _, oldest => oldest
  | count + 1, block, oldest =>
    if num oldest > num block then
      if num block == 0 then block
      else oldest_scan num count (block + 1) block
    else oldest_scan num count (block + 1) oldest

/-- Function `DataFlash_MAVLink::next_block_address`: the `int8_t` returned and
the object (only the overrun counter can change). -/
def next_block_address (p : Params) (s : State) : Int × State :=
  let oldest_block_address := oldest_scan s._block_num p.total_blocks 0 0
  let s :=
    if s._block_num oldest_block_address != 0 then { s with overruns := s.overruns + 1 }
    else s
  (to_int8 oldest_block_address, s)

/-- The `memcpy` of `WriteBlock`: `to_copy` bytes of `pBuffer` from index
`copied` into slot `address` at offset `offset`. -/
def copy_in (buf : Nat → Nat → Nat) (address offset : Nat) (pBuffer : List Nat)
    (copied to_copy : Nat) : Nat → Nat → Nat :=
  fun a o =>
    if a = address ∧ offset ≤ o ∧ o < offset + to_copy then
      pBuffer.getD (copied + (o - offset)) 0
    else buf a o

/-- The copy made by one iteration of the loop of `WriteBlock` (from the
computation of `remaining_to_copy` to the update of `_latest_block_len`): the
new value of `copied` and the object. -/
def copy_step (p : Params) (pBuffer : List Nat) (size copied : Nat) (s : State) :
    Nat × State :=
  let remaining_to_copy := u16_sub size copied
  let _curr_remaining := u16_sub p.block_max_size s._latest_block_len
  let to_copy :=
    if remaining_to_copy > _curr_remaining then _curr_remaining else remaining_to_copy
  let s := { s with
    _buf := copy_in s._buf s._cur_block_address s._latest_block_len pBuffer copied to_copy }
  let copied := (copied + to_copy) % 65536
  let s := { s with _latest_block_len := (s._latest_block_len + to_copy) % 65536 }
  (copied, s)

/-- The body of `if (_latest_block_len == _block_max_size)` in `WriteBlock`:
the block is numbered, sent, and the next slot chosen; `txspace` is the value
of `comm_get_txspace` seen by `send_log_block`. -/
def complete_block (p : Params) (txspace : Nat) (s : State) : State × List Event :=
  let stamp := s._latest_block_num
  let address := s._cur_block_address
  let s := { s with
    _block_num := fun a => if a = address then stamp else s._block_num a,
    _latest_block_num := (s._latest_block_num + 1) % 4294967296 }
  let sent := send_log_block p txspace address s
  let next := next_block_address p s
  let s := { next.2 with _cur_block_address := to_uint8 next.1, _latest_block_len := 0 }
  (s, Event.send_log_block address stamp :: sent)

/-- The `while (copied < size)` loop of `WriteBlock`, run for at most `fuel`
iterations (none when they do not suffice).  `txspace k` is the value of
`comm_get_txspace` at the call of `send_log_block` for the `k`-th block
completed in this call, and `sends` the number completed so far. -/
def WriteBlock_loop (p : Params) (txspace : Nat → Nat) (pBuffer : List Nat) (size : Nat) :
    Nat → Nat → Nat → State → Option (State × List Event)
  | 0, copied, _, s => if copied < size then none else some (s, [])
  | fuel + 1, copied, sends, s =>
    if copied < size then
      let c := copy_step p pBuffer size copied s
      if c.2._latest_block_len == p.block_max_size then
        let b := complete_block p (txspace sends) c.2
        match WriteBlock_loop p txspace pBuffer size fuel c.1 (sends + 1) b.1 with
        | none => none
        | some r => some (r.1, b.2 ++ r.2)
      else
        WriteBlock_loop p txspace pBuffer size fuel c.1 sends c.2
    else
      some (s, [])

/-- Function `DataFlash_MAVLink::WriteBlock`, its loop run for at most `fuel`
iterations; `size` is a `uint16_t` value. -/
def WriteBlock (p : Params) (txspace : Nat → Nat) (fuel : Nat) (pBuffer : List Nat)
    (size : Nat) (s : State) : Option (State × List Event) :=
  if !s._initialised || !s._sending_to_client || !s._writes_enabled then
    some (s, [])
  else
    WriteBlock_loop p txspace pBuffer size fuel 0 0 s

/-- The last `for` loop of `handle_ack` from index `block`, with `count` indices
left: the first slot holding `block_num` is set to 0. -/
def forget_block (block_num : Nat) : Nat → Nat → (Nat → Nat) → (Nat → Nat)
  | 0, _, num => num
  | count + 1, block, num =>
    if num block == block_num then
      fun a => if a = block then 0 else num a
    else forget_block block_num count (block + 1) num

/-- Function `DataFlash_MAVLink::handle_ack`. -/
def handle_ack (p : Params) (chan block_num : Nat) (s : State) : State × List Event :=
  if !s._initialised then
    (s, [])
  else if block_num == p.BLOCK_STOP then
    ({ s with _sending_to_client := false }, [])
  else if block_num == p.BLOCK_START && !s._sending_to_client then
    ({ s with
        _sending_to_client := true,
        _block_num := fun _ => 0,
        _chan := chan,
        _latest_block_num := 0,
        _cur_block_address := 0,
        _latest_block_len := 0 },
      [Event.StartNewLog])
  else
    ({ s with _block_num := forget_block block_num p.total_blocks 0 s._block_num }, [])

end DataFlash_MAVLink

namespace DataFlash_MAVLink

/-- Example constants: three slots of four bytes, and the block numbers that
MAVLink reserves for the stop and start requests. -/
def sample_params : Params :=
  { total_blocks := 3, block_max_size := 4,
    BLOCK_STOP := 2147483645, BLOCK_START := 2147483646 }

/-- An initialised backend with writes enabled and no client: every slot free,
buffers zero. -/
def idle_state : State :=
  { _initialised := true, _logging_started := true, _sending_to_client := false,
    _writes_enabled := true, _block_num := fun _ => 0, _buf := fun _ _ => 0,
    _latest_block_num := 0, _latest_block_len := 0, _cur_block_address := 0,
    _chan := 0, overruns := 0 }

/-- A backend sending to a client, with `len` bytes in the block in progress,
`num` the next block number, and the given block numbers in the slots. -/
def logging_state (len num : Nat) (block_num : Nat → Nat) : State :=
  { idle_state with
    _sending_to_client := true, _latest_block_len := len, _latest_block_num := num,
    _block_num := block_num }

/-- Example slot contents: block numbers 7, 5, 9 in slots 0, 1, 2. -/
def busy_slots : Nat → Nat :=
  fun a => if a = 0 then 7 else if a = 1 then 5 else 9

/-- Example slot contents: block number 7 in slot 0, slots 1 and 2 free. -/
def free_slots : Nat → Nat :=
  fun a => if a = 0 then 7 else 0

end DataFlash_MAVLink

/-! ## Auxiliary lemmas: the monitor -/

namespace Rover

theorem gt_zero_not_le (t : CFloat) (h : CFloat.gt t (CFloat.val 0) = true) :
    CFloat.le t (CFloat.val 0) = false := by
  cases t with
  | nan => simp [CFloat.gt] at h
  | val q =>
    simp only [CFloat.gt, decide_eq_true_eq] at h
    simp only [CFloat.le, decide_eq_false_iff_not, not_le]
    exact h

theorem bad_sample_active (t : Nat) : active_tick true (bad_sample t) := by
  simp [active_tick, ekf_over_threshold, bad_sample, CFloat.le, CFloat.ge, CFloat.gt, u8_inc]
  norm_num

theorem good_sample_active (t : Nat) : active_tick false (good_sample t) := by
  simp [active_tick, ekf_over_threshold, good_sample, CFloat.le, CFloat.ge, CFloat.gt, u8_inc]
  norm_num

theorem run_append (s : State) (a b : List TickEnv) :
    run s (a ++ b) = run (run s a) b := by
  induction a generalizing s with
  | nil => rfl
  | cons env envs ih => simp [run, ih]

theorem trace_append (s : State) (a b : List TickEnv) :
    trace s (a ++ b) = trace s a ++ trace (run s a) b := by
  induction a generalizing s with
  | nil => rfl
  | cons env envs ih => simp [run, trace, ih]

theorem trace_length (s : State) (envs : List TickEnv) :
    (trace s envs).length = envs.length := by
  induction envs generalizing s with
  | nil => rfl
  | cons env envs ih => simp [trace, ih]

/-- A bad tick below the trip threshold only increments the counter. -/
theorem ekf_check_bad_below (env : TickEnv) (s : State) (h : active_tick true env)
    (hb : s.ekf_check_state.bad_variance = false) (hc : s.ekf_check_state.fail_count < 9) :
    ekf_check env s =
      ({ s with
          ekf_check_state :=
            { s.ekf_check_state with fail_count := s.ekf_check_state.fail_count + 1 },
          ekf_bad := false }, []) := by
  obtain ⟨ho, ha, ht, hov⟩ := h
  have hle := gt_zero_not_le _ ht
  have h1 : u8_inc s.ekf_check_state.fail_count = s.ekf_check_state.fail_count + 1 := by
    unfold u8_inc; omega
  have h2 : ¬ (s.ekf_check_state.fail_count + 1 ≥ 10) := by omega
  simp [ekf_check, ho, ha, hle, hov, hb, h1, EKF_CHECK_ITERATIONS_MAX, h2]

/-- The bad tick that reaches the trip threshold. -/
theorem ekf_check_bad_trip (env : TickEnv) (s : State) (h : active_tick true env)
    (hb : s.ekf_check_state.bad_variance = false) (hc : s.ekf_check_state.fail_count = 9) :
    ekf_check env s =
      ({ ekf_check_state :=
            { fail_count := 10, bad_variance := true,
              last_warn_time :=
                if u32_sub env.millis s.ekf_check_state.last_warn_time > 30000
                then env.millis_at_store else s.ekf_check_state.last_warn_time },
          ekf_bad := true,
          failsafe_ekf := true },
        [Effect.Log_Write_Error ErrorSubsystem.EKFCHECK ErrorCode.EKFCHECK_BAD_VARIANCE]
          ++ (if u32_sub env.millis s.ekf_check_state.last_warn_time > 30000
              then [Effect.send_text "EKF variance"] else [])
          ++ (if s.failsafe_ekf then []
              else [Effect.Log_Write_Error ErrorSubsystem.FAILSAFE_EKFINAV
                ErrorCode.FAILSAFE_OCCURRED])
          ++ (if s.failsafe_ekf = false ∧
                  (env.requires_position = true ∨ env.requires_velocity = true)
              then [Effect.set_mode_hold] else [])) := by
  obtain ⟨ho, ha, ht, hov⟩ := h
  have hle := gt_zero_not_le _ ht
  have h1 : u8_inc s.ekf_check_state.fail_count = 10 := by
    unfold u8_inc; omega
  simp only [ekf_check, ho, ha, hle, hov, hb, h1, EKF_CHECK_ITERATIONS_MAX,
    EKF_CHECK_WARNING_TIME, failsafe_ekf_event]
  by_cases hw : u32_sub env.millis s.ekf_check_state.last_warn_time > 30000 <;>
    cases hf : s.failsafe_ekf <;> cases hp : env.requires_position <;>
    cases hv : env.requires_velocity <;> simp [hw, hf, hp, hv]

/-- Bad ticks that stay below the trip threshold: the counter counts them,
nothing else changes but the indicator, and no effect is produced. -/
theorem run_bad_below (envs : List TickEnv) (s : State)
    (hb : s.ekf_check_state.bad_variance = false)
    (hall : ∀ env ∈ envs, active_tick true env)
    (hc : s.ekf_check_state.fail_count + envs.length ≤ 9) :
    (run s envs).ekf_check_state =
        { s.ekf_check_state with
          fail_count := s.ekf_check_state.fail_count + envs.length } ∧
      (run s envs).failsafe_ekf = s.failsafe_ekf ∧
      ∀ out ∈ trace s envs, out = [] := by
  induction envs generalizing s with
  | nil => simp [run, trace]
  | cons env envs ih =>
    have hstep := ekf_check_bad_below env s (hall env (List.mem_cons_self _ _)) hb
      (by simp only [List.length_cons] at hc; omega)
    have hrest : ∀ e ∈ envs, active_tick true e :=
      fun e he => hall e (List.mem_cons_of_mem _ he)
    simp only [List.length_cons] at hc
    have ih1 := ih (ekf_check env s).1 (by rw [hstep]; exact hb) hrest
      (by rw [hstep]; simp only; omega)
    rw [hstep] at ih1
    simp only [run, trace, hstep, List.mem_cons, forall_eq_or_imp, List.length_cons]
    refine ⟨?_, ih1.2.1, trivial, ih1.2.2⟩
    rw [ih1.1]
    simp only [ekf_check_state_t.mk.injEq, and_true, true_and]
    omega

/-- A list of ten elements is its first nine followed by its last. -/
theorem length_ten_split {α : Type} (l : List α) (h : l.length = 10) :
    ∃ front last, l = front ++ [last] ∧ front.length = 9 := by
  have hne : l ≠ [] := by
    intro h0
    rw [h0] at h
    simp at h
  refine ⟨l.dropLast, l.getLast hne, (List.dropLast_append_getLast hne).symm, ?_⟩
  simp [List.length_dropLast, h]

/-- A good tick that leaves the counter above zero, or finds the flag clear,
only decrements the counter. -/
theorem ekf_check_good_dec (env : TickEnv) (s : State) (h : active_tick false env)
    (hc : 0 < s.ekf_check_state.fail_count)
    (hk : s.ekf_check_state.bad_variance = false ∨ 1 < s.ekf_check_state.fail_count) :
    ekf_check env s =
      ({ s with
          ekf_check_state :=
            { s.ekf_check_state with fail_count := s.ekf_check_state.fail_count - 1 },
          ekf_bad := s.ekf_check_state.bad_variance }, []) := by
  obtain ⟨ho, ha, ht, hov⟩ := h
  have hle := gt_zero_not_le _ ht
  rcases hk with hk | hk
  · simp [ekf_check, ho, ha, hle, hov, hc, hk]
  · have hne : ¬ (s.ekf_check_state.fail_count - 1 = 0) := by omega
    simp [ekf_check, ho, ha, hle, hov, hc, hne]

/-- The good tick that brings the counter of a tripped state to zero. -/
theorem ekf_check_good_clear (env : TickEnv) (s : State) (h : active_tick false env)
    (hb : s.ekf_check_state.bad_variance = true) (hc : s.ekf_check_state.fail_count = 1) :
    ekf_check env s =
      ({ ekf_check_state :=
            { fail_count := 0, bad_variance := false,
              last_warn_time := s.ekf_check_state.last_warn_time },
          ekf_bad := false,
          failsafe_ekf := false },
        recovery_entry ::
          (if s.failsafe_ekf then
            [Effect.Log_Write_Error ErrorSubsystem.FAILSAFE_EKFINAV ErrorCode.FAILSAFE_RESOLVED]
          else [])) := by
  obtain ⟨ho, ha, ht, hov⟩ := h
  have hle := gt_zero_not_le _ ht
  simp only [ekf_check, ho, ha, hle, hov, hb, hc, failsafe_ekf_off_event, recovery_entry]
  cases hf : s.failsafe_ekf <;> simp

/-- Good ticks on a tripped state that leave the counter above zero: the
counter counts down, nothing else changes, and no effect is produced. -/
theorem run_good_above (envs : List TickEnv) (s : State)
    (hb : s.ekf_check_state.bad_variance = true)
    (hall : ∀ env ∈ envs, active_tick false env)
    (hc : envs.length < s.ekf_check_state.fail_count) :
    (run s envs).ekf_check_state =
        { s.ekf_check_state with
          fail_count := s.ekf_check_state.fail_count - envs.length } ∧
      (run s envs).failsafe_ekf = s.failsafe_ekf ∧
      ∀ out ∈ trace s envs, out = [] := by
  induction envs generalizing s with
  | nil => simp [run, trace]
  | cons env envs ih =>
    simp only [List.length_cons] at hc
    have hstep := ekf_check_good_dec env s (hall env (List.mem_cons_self _ _))
      (by omega) (Or.inr (by omega))
    have hrest : ∀ e ∈ envs, active_tick false e :=
      fun e he => hall e (List.mem_cons_of_mem _ he)
    have ih1 := ih (ekf_check env s).1 (by rw [hstep]; exact hb) hrest
      (by rw [hstep]; simp only; omega)
    rw [hstep] at ih1
    simp only [run, trace, hstep, List.mem_cons, forall_eq_or_imp, List.length_cons]
    refine ⟨?_, ih1.2.1, trivial, ih1.2.2⟩
    rw [ih1.1]
    simp only [ekf_check_state_t.mk.injEq, and_true, true_and]
    omega

/-- A list whose entries are all empty is a list of copies of the empty list. -/
theorem all_nil_eq_replicate (l : List (List Effect)) (n : Nat) (hn : l.length = n)
    (h : ∀ out ∈ l, out = []) : l = List.replicate n [] :=
  List.eq_replicate_iff.mpr ⟨hn, h⟩

/-- Ten good ticks on a tripped state with the counter at ten: the first nine
produce nothing, the tenth clears the flag and writes the recovery entry,
followed by the failsafe-resolved entry when the failsafe was active. -/
theorem trace_ten_good (s : State) (front : List TickEnv) (last : TickEnv)
    (hb : s.ekf_check_state.bad_variance = true)
    (hc : s.ekf_check_state.fail_count = 10)
    (hall : ∀ env ∈ front ++ [last], active_tick false env)
    (hlen : front.length = 9) :
    (run s (front ++ [last])).ekf_check_state =
        { fail_count := 0, bad_variance := false,
          last_warn_time := s.ekf_check_state.last_warn_time } ∧
      trace s (front ++ [last]) =
        List.replicate 9 [] ++
          [recovery_entry ::
            (if s.failsafe_ekf then
              [Effect.Log_Write_Error ErrorSubsystem.FAILSAFE_EKFINAV
                ErrorCode.FAILSAFE_RESOLVED]
            else [])] := by
  have hfr : ∀ env ∈ front, active_tick false env :=
    fun e he => hall e (List.mem_append_left _ he)
  have h := run_good_above front s hb hfr (by omega)
  have hlast : active_tick false last := hall last (by simp)
  have hstep := ekf_check_good_clear last (run s front) hlast (by rw [h.1]; exact hb)
    (by rw [h.1]; simp only; omega)
  have htr := all_nil_eq_replicate (trace s front) 9 (by rw [trace_length, hlen]) h.2.2
  rw [run_append, trace_append, htr]
  simp only [run, trace, hstep, h.1, h.2.1]
  exact ⟨trivial, trivial⟩

/-- Wrapping subtraction is ordinary subtraction when the clock has not wrapped. -/
theorem u32_sub_of_le (a b : Nat) (hba : b ≤ a) (ha : a < 4294967296) :
    u32_sub a b = a - b := by
  unfold u32_sub
  omega

/-- The tick that sets the variance flag, in full. -/
theorem ekf_check_trip_form (env : TickEnv) (s : State)
    (ho : env.have_origin = true) (ha : env.is_armed = true)
    (hle : CFloat.le env.fs_ekf_thresh (CFloat.val 0) = false)
    (hov : ekf_over_threshold env = true)
    (hb : s.ekf_check_state.bad_variance = false)
    (hc : 10 ≤ u8_inc s.ekf_check_state.fail_count) :
    ekf_check env s =
      ({ ekf_check_state :=
            { fail_count := 10, bad_variance := true,
              last_warn_time :=
                if u32_sub env.millis s.ekf_check_state.last_warn_time > 30000
                then env.millis_at_store else s.ekf_check_state.last_warn_time },
          ekf_bad := true,
          failsafe_ekf := true },
        [trip_entry]
          ++ (if u32_sub env.millis s.ekf_check_state.last_warn_time > 30000
              then [variance_alert] else [])
          ++ (if s.failsafe_ekf then []
              else [Effect.Log_Write_Error ErrorSubsystem.FAILSAFE_EKFINAV
                ErrorCode.FAILSAFE_OCCURRED])
          ++ (if s.failsafe_ekf = false ∧
                  (env.requires_position = true ∨ env.requires_velocity = true)
              then [Effect.set_mode_hold] else [])) := by
  simp only [ekf_check, ho, ha, hle, hov, hb, EKF_CHECK_ITERATIONS_MAX,
    EKF_CHECK_WARNING_TIME, failsafe_ekf_event, trip_entry, variance_alert]
  by_cases hw : u32_sub env.millis s.ekf_check_state.last_warn_time > 30000 <;>
    cases hf : s.failsafe_ekf <;> cases hp : env.requires_position <;>
    cases hv : env.requires_velocity <;> simp [hw, hf, hp, hv, hc]

/-- A tick that turns the variance flag from false to true took the trip branch. -/
theorem trip_conditions (env : TickEnv) (s : State)
    (hb : s.ekf_check_state.bad_variance = false)
    (htrip : (ekf_check env s).1.ekf_check_state.bad_variance = true) :
    env.have_origin = true ∧ env.is_armed = true ∧
      CFloat.le env.fs_ekf_thresh (CFloat.val 0) = false ∧
      ekf_over_threshold env = true ∧ 10 ≤ u8_inc s.ekf_check_state.fail_count := by
  cases ho : env.have_origin
  · simp [ekf_check, ho, hb] at htrip
  cases ha : env.is_armed
  · simp only [ekf_check, ho, ha, failsafe_ekf_off_event] at htrip
    cases hf : s.failsafe_ekf <;> simp [hf] at htrip
  cases hle : CFloat.le env.fs_ekf_thresh (CFloat.val 0)
  swap
  · simp only [ekf_check, ho, ha, hle, failsafe_ekf_off_event] at htrip
    cases hf : s.failsafe_ekf <;> simp [hf] at htrip
  cases hov : ekf_over_threshold env
  · simp only [ekf_check, ho, ha, hle, hov, hb] at htrip
    by_cases hc : s.ekf_check_state.fail_count > 0 <;> simp [hc, hb] at htrip
  by_cases hc : 10 ≤ u8_inc s.ekf_check_state.fail_count
  · exact ⟨rfl, rfl, rfl, rfl, hc⟩
  · simp [ekf_check, ho, ha, hle, hov, hb, EKF_CHECK_ITERATIONS_MAX, hc] at htrip

/-- Every tick either sends the alert, having passed the throttle test, and
stores the clock, or sends no alert and keeps the stored time. -/
theorem ekf_check_alert_cases (env : TickEnv) (s : State) :
    (variance_alert ∈ (ekf_check env s).2 ∧
        u32_sub env.millis s.ekf_check_state.last_warn_time > 30000 ∧
        (ekf_check env s).1.ekf_check_state.last_warn_time = env.millis_at_store) ∨
      (variance_alert ∉ (ekf_check env s).2 ∧
        (ekf_check env s).1.ekf_check_state.last_warn_time =
          s.ekf_check_state.last_warn_time) := by
  by_cases htrip : s.ekf_check_state.bad_variance = false ∧
      (ekf_check env s).1.ekf_check_state.bad_variance = true
  · obtain ⟨hb, ht⟩ := htrip
    obtain ⟨ho, ha, hle, hov, hc⟩ := trip_conditions env s hb ht
    rw [ekf_check_trip_form env s ho ha hle hov hb hc]
    by_cases hw : u32_sub env.millis s.ekf_check_state.last_warn_time > 30000
    · left
      simp [hw]
    · right
      cases hf : s.failsafe_ekf <;> cases hp : env.requires_position <;>
        cases hv : env.requires_velocity <;>
        simp [hw, hf, hp, hv, variance_alert, trip_entry]
  · right
    cases ho : env.have_origin
    · simp [ekf_check, ho]
    cases hd : (!env.is_armed || CFloat.le env.fs_ekf_thresh (CFloat.val 0))
    swap
    · simp only [ekf_check, ho, hd, failsafe_ekf_off_event]
      cases hf : s.failsafe_ekf <;> simp [variance_alert]
    cases hov : ekf_over_threshold env
    · simp only [ekf_check, ho, hd, hov, failsafe_ekf_off_event]
      by_cases hc : s.ekf_check_state.fail_count > 0 <;>
        cases hb : s.ekf_check_state.bad_variance <;>
        by_cases hz : s.ekf_check_state.fail_count - 1 = 0 <;>
        cases hf : s.failsafe_ekf <;> simp [hc, hz, variance_alert]
    cases hb : s.ekf_check_state.bad_variance
    swap
    · simp [ekf_check, ho, hd, hov, hb]
    by_cases hc : 10 ≤ u8_inc s.ekf_check_state.fail_count
    · exfalso
      apply htrip
      refine ⟨hb, ?_⟩
      simp only [Bool.or_eq_false_iff, Bool.not_eq_false'] at hd
      rw [ekf_check_trip_form env s ho hd.1 hd.2 hov hb hc]
    · simp [ekf_check, ho, hd, hov, hb, EKF_CHECK_ITERATIONS_MAX, hc]

/-- Ten bad ticks from a state with the counter at zero and the flag clear: the
first nine produce nothing; the tenth writes the trip entry, sends the alert
if the throttle test passes, and runs the failsafe event. -/
theorem trace_ten_bad (s : State) (front : List TickEnv) (last : TickEnv)
    (h0 : s.ekf_check_state.fail_count = 0)
    (hb : s.ekf_check_state.bad_variance = false)
    (hall : ∀ env ∈ front ++ [last], active_tick true env)
    (hlen : front.length = 9) :
    trace s (front ++ [last]) =
      List.replicate 9 [] ++
        [[trip_entry]
          ++ (if u32_sub last.millis s.ekf_check_state.last_warn_time > 30000
              then [variance_alert] else [])
          ++ (if s.failsafe_ekf then []
              else [Effect.Log_Write_Error ErrorSubsystem.FAILSAFE_EKFINAV
                ErrorCode.FAILSAFE_OCCURRED])
          ++ (if s.failsafe_ekf = false ∧
                  (last.requires_position = true ∨ last.requires_velocity = true)
              then [Effect.set_mode_hold] else [])] := by
  have hfr : ∀ env ∈ front, active_tick true env :=
    fun e he => hall e (List.mem_append_left _ he)
  have h := run_bad_below front s hb hfr (by omega)
  obtain ⟨ho, ha, ht, hov⟩ := hall last (by simp)
  have hstep := ekf_check_trip_form last (run s front) ho ha (gt_zero_not_le _ ht) hov
    (by rw [h.1]; exact hb) (by rw [h.1]; simp only [u8_inc]; omega)
  have htr := all_nil_eq_replicate (trace s front) 9 (by rw [trace_length, hlen]) h.2.2
  rw [trace_append, htr]
  simp only [trace, hstep, h.1, h.2.1]

/-- The alerts of a run are later than the stored warning time by more than the
throttle period, and any two of them are further apart than that. -/
theorem alert_ticks_spaced (envs : List TickEnv) (s : State)
    (hsorted : List.Pairwise (fun a b => a ≤ b) (clock_readings envs))
    (hbound : ∀ t ∈ clock_readings envs, t < 4294967296)
    (hlwt : ∀ t ∈ clock_readings envs, s.ekf_check_state.last_warn_time ≤ t) :
    (∀ a ∈ alert_ticks s envs, s.ekf_check_state.last_warn_time + 30000 < a.1) ∧
      List.Pairwise (fun a b => a.2 + 30000 < b.1) (alert_ticks s envs) := by
  induction envs generalizing s with
  | nil => simp [alert_ticks]
  | cons env envs ih =>
    simp only [clock_readings, List.pairwise_cons, List.mem_cons, forall_eq_or_imp] at hsorted
    simp only [clock_readings, List.mem_cons, forall_eq_or_imp] at hbound hlwt
    obtain ⟨⟨hms, hm_tail⟩, hs_tail, hsorted_tail⟩ := hsorted
    obtain ⟨hmb, _, hb_tail⟩ := hbound
    obtain ⟨hlm, _, hl_tail⟩ := hlwt
    rcases ekf_check_alert_cases env s with ⟨hal, hw, hst⟩ | ⟨hal, hst⟩
    · have ih1 := ih (ekf_check env s).1 hsorted_tail hb_tail
        (by rw [hst]; exact hs_tail)
      rw [hst] at ih1
      rw [u32_sub_of_le _ _ hlm hmb] at hw
      simp only [alert_ticks, hal, if_true, List.singleton_append, List.mem_cons,
        forall_eq_or_imp, List.pairwise_cons]
      refine ⟨⟨by omega, ?_⟩, ih1.1, ih1.2⟩
      intro a ha
      have := ih1.1 a ha
      omega
    · have ih1 := ih (ekf_check env s).1 hsorted_tail hb_tail
        (by rw [hst]; exact hl_tail)
      rw [hst] at ih1
      simp only [alert_ticks, hal, if_false, List.nil_append]
      exact ih1

theorem alert_ticks_append (s : State) (a b : List TickEnv) :
    alert_ticks s (a ++ b) = alert_ticks s a ++ alert_ticks (run s a) b := by
  induction a generalizing s with
  | nil => rfl
  | cons env envs ih => simp [run, alert_ticks, ih]

/-- A run whose ticks produce no effect has no alert tick. -/
theorem alert_ticks_of_silent (envs : List TickEnv) (s : State)
    (h : ∀ out ∈ trace s envs, out = []) : alert_ticks s envs = [] := by
  induction envs generalizing s with
  | nil => rfl
  | cons env envs ih =>
    simp only [trace, List.mem_cons, forall_eq_or_imp] at h
    simp [alert_ticks, h.1, ih _ h.2]

/-- Ten bad ticks from a state with the counter at zero and the flag clear end
in the tripped state; the only tick that can send the alert is the tenth. -/
theorem run_ten_bad (s : State) (front : List TickEnv) (last : TickEnv)
    (h0 : s.ekf_check_state.fail_count = 0)
    (hb : s.ekf_check_state.bad_variance = false)
    (hall : ∀ env ∈ front ++ [last], active_tick true env)
    (hlen : front.length = 9) :
    run s (front ++ [last]) =
        { ekf_check_state :=
            { fail_count := 10, bad_variance := true,
              last_warn_time :=
                if u32_sub last.millis s.ekf_check_state.last_warn_time > 30000
                then last.millis_at_store else s.ekf_check_state.last_warn_time },
          ekf_bad := true,
          failsafe_ekf := true } ∧
      alert_ticks s (front ++ [last]) =
        (if u32_sub last.millis s.ekf_check_state.last_warn_time > 30000
          then [(last.millis, last.millis_at_store)] else []) := by
  have hfr : ∀ env ∈ front, active_tick true env :=
    fun e he => hall e (List.mem_append_left _ he)
  have h := run_bad_below front s hb hfr (by omega)
  obtain ⟨ho, ha, ht, hov⟩ := hall last (by simp)
  have hstep := ekf_check_trip_form last (run s front) ho ha (gt_zero_not_le _ ht) hov
    (by rw [h.1]; exact hb) (by rw [h.1]; simp only [u8_inc]; omega)
  rw [run_append, alert_ticks_append, alert_ticks_of_silent front s h.2.2]
  simp only [run, alert_ticks, hstep, h.1, List.nil_append, List.append_nil, true_and]
  by_cases hw : u32_sub last.millis s.ekf_check_state.last_warn_time > 30000
  · simp [hw]
  · cases hf : (run s front).failsafe_ekf <;> cases hp : last.requires_position <;>
      cases hv : last.requires_velocity <;> simp [hw, variance_alert, trip_entry]

/-- Ten good ticks on a tripped state with the counter at ten end in the
cleared state and send no alert. -/
theorem run_ten_good (s : State) (front : List TickEnv) (last : TickEnv)
    (hb : s.ekf_check_state.bad_variance = true)
    (hc : s.ekf_check_state.fail_count = 10)
    (hall : ∀ env ∈ front ++ [last], active_tick false env)
    (hlen : front.length = 9) :
    run s (front ++ [last]) =
        { ekf_check_state :=
            { fail_count := 0, bad_variance := false,
              last_warn_time := s.ekf_check_state.last_warn_time },
          ekf_bad := false,
          failsafe_ekf := false } ∧
      alert_ticks s (front ++ [last]) = [] := by
  have hfr : ∀ env ∈ front, active_tick false env :=
    fun e he => hall e (List.mem_append_left _ he)
  have h := run_good_above front s hb hfr (by omega)
  have hlast : active_tick false last := hall last (by simp)
  have hstep := ekf_check_good_clear last (run s front) hlast (by rw [h.1]; exact hb)
    (by rw [h.1]; simp only; omega)
  rw [run_append, alert_ticks_append, alert_ticks_of_silent front s h.2.2]
  simp only [run, alert_ticks, hstep, h.1, List.nil_append, List.append_nil, true_and]
  cases hf : (run s front).failsafe_ekf <;> simp [variance_alert, recovery_entry]

theorem replicate_ten {α : Type} (x : α) :
    List.replicate 10 x = List.replicate 9 x ++ [x] := by
  rfl

theorem replicate_active (over : Bool) (n : Nat) (x y : TickEnv) (hx : active_tick over x)
    (hy : active_tick over y) : ∀ env ∈ List.replicate n x ++ [y], active_tick over env := by
  intro env he
  rcases List.mem_append.mp he with h | h
  · rw [List.eq_of_mem_replicate h]
    exact hx
  · rw [List.mem_singleton.mp h]
    exact hy

/-- The run with two trips sends the alert on the tenth and on the thirtieth
tick only. -/
theorem two_trip_run_alerts :
    alert_ticks init two_trip_run = [(40000, 40000), (71000, 71000)] := by
  have h1 := run_ten_bad init (List.replicate 9 (bad_sample 40000)) (bad_sample 40000)
    rfl rfl (replicate_active true 9 _ _ (bad_sample_active _) (bad_sample_active _))
    (by simp)
  have h2 := run_ten_good (run init (List.replicate 10 (bad_sample 40000)))
    (List.replicate 9 (good_sample 50000)) (good_sample 50000)
    (by rw [replicate_ten, h1.1]) (by rw [replicate_ten, h1.1])
    (replicate_active false 9 _ _ (good_sample_active _) (good_sample_active _)) (by simp)
  have h3 := run_ten_bad
    (run (run init (List.replicate 10 (bad_sample 40000)))
      (List.replicate 10 (good_sample 50000)))
    (List.replicate 9 (bad_sample 71000)) (bad_sample 71000)
    (by rw [replicate_ten (good_sample 50000), h2.1])
    (by rw [replicate_ten (good_sample 50000), h2.1])
    (replicate_active true 9 _ _ (bad_sample_active _) (bad_sample_active _)) (by simp)
  have e1 : u32_sub (bad_sample 40000).millis init.ekf_check_state.last_warn_time > 30000 := by
    decide
  unfold two_trip_run
  rw [alert_ticks_append, alert_ticks_append, run_append]
  rw [replicate_ten (bad_sample 71000), h3.2]
  rw [replicate_ten (good_sample 50000), h2.2, h2.1]
  rw [replicate_ten (bad_sample 40000), h1.2, h1.1]
  rw [if_pos e1]
  simp only [if_pos e1]
  have e3 : u32_sub (bad_sample 71000).millis (bad_sample 40000).millis_at_store > 30000 := by
    decide
  rw [if_pos e3]
  rfl

theorem two_trip_run_clock : clock_ok two_trip_run := by
  constructor
  · decide
  · decide

end Rover

namespace Rover

theorem reach_inv_init : reach_inv init := by
  simp [reach_inv, init, EKF_CHECK_ITERATIONS_MAX]

/-- One tick preserves the invariant of reachable states. -/
theorem reach_inv_step (env : TickEnv) (s : State) (h : reach_inv s) :
    reach_inv (ekf_check env s).1 := by
  obtain ⟨h1, h2, h3, h4, h5⟩ := h
  simp only [EKF_CHECK_ITERATIONS_MAX] at h1
  cases ho : env.have_origin
  · simpa [ekf_check, ho, reach_inv, EKF_CHECK_ITERATIONS_MAX] using ⟨h1, h2, h3, h4, h5⟩
  cases hd : (!env.is_armed || CFloat.le env.fs_ekf_thresh (CFloat.val 0))
  swap
  · simp only [ekf_check, ho, hd, failsafe_ekf_off_event, reach_inv]
    cases hf : s.failsafe_ekf <;> simp
  cases hov : ekf_over_threshold env
  · by_cases hc : s.ekf_check_state.fail_count > 0
    · cases hb : s.ekf_check_state.bad_variance
      · have := h2 hb
        simp only [ekf_check, ho, hd, hov, hc, hb, reach_inv, EKF_CHECK_ITERATIONS_MAX]
        simp [hb, h5]
        omega
      · by_cases hz : s.ekf_check_state.fail_count - 1 = 0
        · simp only [ekf_check, ho, hd, hov, hc, hb, hz, failsafe_ekf_off_event, reach_inv]
          cases hf : s.failsafe_ekf <;> simp
        · simp only [ekf_check, ho, hd, hov, hc, hb, reach_inv, EKF_CHECK_ITERATIONS_MAX]
          simp [hz, hb, h5]
          omega
    · simp only [ekf_check, ho, hd, hov, hc, reach_inv, EKF_CHECK_ITERATIONS_MAX]
      simp only [if_false]
      exact ⟨h1, h2, h3, rfl, h5⟩
  cases hb : s.ekf_check_state.bad_variance
  · have h9 := h2 hb
    simp only [Bool.or_eq_false_iff, Bool.not_eq_false'] at hd
    by_cases hc : 10 ≤ u8_inc s.ekf_check_state.fail_count
    · rw [ekf_check_trip_form env s ho hd.1 hd.2 hov hb hc]
      simp [reach_inv, EKF_CHECK_ITERATIONS_MAX]
    · have hu : u8_inc s.ekf_check_state.fail_count = s.ekf_check_state.fail_count + 1 := by
        unfold u8_inc
        omega
      rw [hu] at hc
      simp only [ekf_check, ho, hd.1, hd.2, hov, hb, hu, reach_inv, EKF_CHECK_ITERATIONS_MAX]
      simp [hc, hb, h5]
      omega
  · simp only [ekf_check, ho, hd, hov, hb, reach_inv, EKF_CHECK_ITERATIONS_MAX]
    simp only [Bool.not_true, if_false]
    exact ⟨h1, h2, h3, rfl, h5⟩

/-- Every state reached by a run from a state with the invariant has it. -/
theorem reach_inv_run (envs : List TickEnv) (s : State) (h : reach_inv s) :
    reach_inv (run s envs) := by
  induction envs generalizing s with
  | nil => exact h
  | cons env envs ih => exact ih _ (reach_inv_step env s h)

/-- A tick that turns the variance flag from false to true leaves the counter
at the maximum. -/
theorem trip_step_count (env : TickEnv) (s : State)
    (hb : s.ekf_check_state.bad_variance = false)
    (htrip : (ekf_check env s).1.ekf_check_state.bad_variance = true) :
    (ekf_check env s).1.ekf_check_state.fail_count = 10 := by
  obtain ⟨ho, ha, hle, hov, hc⟩ := trip_conditions env s hb htrip
  rw [ekf_check_trip_form env s ho ha hle hov hb hc]

/-- A tick that turns the variance flag from true to false leaves the counter
at zero. -/
theorem clear_step_count (env : TickEnv) (s : State)
    (hb : s.ekf_check_state.bad_variance = true)
    (hclear : (ekf_check env s).1.ekf_check_state.bad_variance = false) :
    (ekf_check env s).1.ekf_check_state.fail_count = 0 := by
  cases ho : env.have_origin
  · simp [ekf_check, ho, hb] at hclear
  cases hd : (!env.is_armed || CFloat.le env.fs_ekf_thresh (CFloat.val 0))
  swap
  · simp only [ekf_check, ho, hd, failsafe_ekf_off_event]
    cases hf : s.failsafe_ekf <;> simp
  cases hov : ekf_over_threshold env
  · by_cases hc : s.ekf_check_state.fail_count > 0
    · by_cases hz : s.ekf_check_state.fail_count - 1 = 0
      · simp only [ekf_check, ho, hd, hov, hc, hb, hz, failsafe_ekf_off_event]
        cases hf : s.failsafe_ekf <;> simp
      · simp [ekf_check, ho, hd, hov, hc, hb, hz] at hclear
    · simp [ekf_check, ho, hd, hov, hc, hb] at hclear
  · simp [ekf_check, ho, hd, hov, hb] at hclear

/-- A tick with an origin leaves the notify flag equal to the variance flag. -/
theorem origin_tick_mirrors (env : TickEnv) (s : State) (ho : env.have_origin = true) :
    (ekf_check env s).1.ekf_bad = (ekf_check env s).1.ekf_check_state.bad_variance := by
  cases hd : (!env.is_armed || CFloat.le env.fs_ekf_thresh (CFloat.val 0))
  swap
  · simp only [ekf_check, ho, hd, failsafe_ekf_off_event]
    cases hf : s.failsafe_ekf <;> simp
  · simp [ekf_check, ho, hd]

/-- A tick without origin returns the state and produces nothing. -/
theorem no_origin_tick (env : TickEnv) (s : State) (ho : env.have_origin = false) :
    ekf_check env s = (s, []) := by
  simp [ekf_check, ho]

/-- A run of ticks without origin returns the state. -/
theorem no_origin_run (envs : List TickEnv) (s : State)
    (h : ∀ env ∈ envs, env.have_origin = false) : run s envs = s := by
  induction envs generalizing s with
  | nil => rfl
  | cons env envs ih =>
    simp only [run, no_origin_tick env s (h env (List.mem_cons_self _ _))]
    exact ih s (fun e he => h e (List.mem_cons_of_mem _ he))

/-- A disarmed tick with an origin resets the counter and the flag. -/
theorem disarmed_tick_resets (env : TickEnv) (s : State) (ho : env.have_origin = true)
    (ha : env.is_armed = false) :
    (ekf_check env s).1.ekf_check_state.fail_count = 0 ∧
      (ekf_check env s).1.ekf_check_state.bad_variance = false := by
  simp only [ekf_check, ho, ha, failsafe_ekf_off_event]
  cases hf : s.failsafe_ekf <;> simp

end Rover

namespace Rover

theorem position_mode_sample_active (t : Nat) :
    active_tick true (position_mode_sample t) :=
  bad_sample_active t

/-- The counter moves of one tick from a state with the invariant: it stays,
goes up by one without passing the maximum, goes down by one from a positive
value, or is reset to zero. -/
theorem counter_moves (env : TickEnv) (s : State) (h : reach_inv s) :
    (ekf_check env s).1.ekf_check_state.fail_count = s.ekf_check_state.fail_count ∨
      ((ekf_check env s).1.ekf_check_state.fail_count = s.ekf_check_state.fail_count + 1 ∧
        s.ekf_check_state.fail_count + 1 ≤ 10) ∨
      ((ekf_check env s).1.ekf_check_state.fail_count + 1 = s.ekf_check_state.fail_count) ∨
      (ekf_check env s).1.ekf_check_state.fail_count = 0 := by
  obtain ⟨h1, h2, h3, h4, h5⟩ := h
  cases ho : env.have_origin
  · simp [ekf_check, ho]
  cases hd : (!env.is_armed || CFloat.le env.fs_ekf_thresh (CFloat.val 0))
  swap
  · right; right; right
    simp only [ekf_check, ho, hd, failsafe_ekf_off_event]
    cases hf : s.failsafe_ekf <;> simp
  cases hov : ekf_over_threshold env
  · by_cases hc : s.ekf_check_state.fail_count > 0
    · right; right; left
      by_cases hz : s.ekf_check_state.fail_count - 1 = 0
      · cases hb : s.ekf_check_state.bad_variance
        · simp [ekf_check, ho, hd, hov, hc, hb]
          omega
        · simp only [ekf_check, ho, hd, hov, hc, hb, hz, failsafe_ekf_off_event]
          cases hf : s.failsafe_ekf <;> simp <;> omega
      · simp [ekf_check, ho, hd, hov, hc, hz]
        omega
    · left
      simp [ekf_check, ho, hd, hov, hc]
  cases hb : s.ekf_check_state.bad_variance
  · have h9 := h2 hb
    have hu : u8_inc s.ekf_check_state.fail_count = s.ekf_check_state.fail_count + 1 := by
      unfold u8_inc
      omega
    right; left
    simp only [Bool.or_eq_false_iff, Bool.not_eq_false'] at hd
    by_cases hc : 10 ≤ u8_inc s.ekf_check_state.fail_count
    · rw [ekf_check_trip_form env s ho hd.1 hd.2 hov hb hc]
      simp only
      omega
    · rw [hu] at hc
      simp [ekf_check, ho, hd.1, hd.2, hov, hb, hu, EKF_CHECK_ITERATIONS_MAX, hc]
      omega
  · left
    simp [ekf_check, ho, hd, hov, hb]

end Rover

namespace Rover

/-- From a state with the invariant, a tick that leaves the variance flag as it
was produces no effect at all. -/
theorem quiet_of_unchanged (env : TickEnv) (s : State) (h : reach_inv s)
    (hsame : (ekf_check env s).1.ekf_check_state.bad_variance =
      s.ekf_check_state.bad_variance) :
    (ekf_check env s).2 = [] := by
  obtain ⟨h1, h2, h3, h4, h5⟩ := h
  cases ho : env.have_origin
  · simp [ekf_check, ho]
  cases hd : (!env.is_armed || CFloat.le env.fs_ekf_thresh (CFloat.val 0))
  swap
  · cases hf : s.failsafe_ekf
    · simp [ekf_check, ho, hd, failsafe_ekf_off_event, hf]
    · rw [hf] at h5
      simp only [ekf_check, ho, hd, failsafe_ekf_off_event, hf] at hsame
      simp [← h5] at hsame
  cases hov : ekf_over_threshold env
  · by_cases hc : s.ekf_check_state.fail_count > 0
    · cases hb : s.ekf_check_state.bad_variance
      · simp [ekf_check, ho, hd, hov, hc, hb]
      · by_cases hz : s.ekf_check_state.fail_count - 1 = 0
        · simp only [ekf_check, ho, hd, hov, hc, hb, hz, failsafe_ekf_off_event] at hsame
          cases hf : s.failsafe_ekf <;> simp [hf] at hsame
        · simp [ekf_check, ho, hd, hov, hc, hb, hz]
    · simp [ekf_check, ho, hd, hov, hc]
  cases hb : s.ekf_check_state.bad_variance
  · simp only [Bool.or_eq_false_iff, Bool.not_eq_false'] at hd
    by_cases hc : 10 ≤ u8_inc s.ekf_check_state.fail_count
    · rw [ekf_check_trip_form env s ho hd.1 hd.2 hov hb hc, hb] at hsame
      simp at hsame
    · simp [ekf_check, ho, hd.1, hd.2, hov, hb, EKF_CHECK_ITERATIONS_MAX, hc]
  · simp [ekf_check, ho, hd, hov, hb]

/-- A tick that requests the hold mode turned the variance flag from false to
true. -/
theorem mode_request_only_on_trip (env : TickEnv) (s : State)
    (hreq : Effect.set_mode_hold ∈ (ekf_check env s).2) :
    s.ekf_check_state.bad_variance = false ∧
      (ekf_check env s).1.ekf_check_state.bad_variance = true := by
  cases ho : env.have_origin
  · simp [ekf_check, ho] at hreq
  cases hd : (!env.is_armed || CFloat.le env.fs_ekf_thresh (CFloat.val 0))
  swap
  · simp only [ekf_check, ho, hd, failsafe_ekf_off_event] at hreq
    cases hf : s.failsafe_ekf <;> simp [hf] at hreq
  cases hov : ekf_over_threshold env
  · by_cases hc : s.ekf_check_state.fail_count > 0
    · cases hb : s.ekf_check_state.bad_variance
      · simp [ekf_check, ho, hd, hov, hc, hb] at hreq
      · by_cases hz : s.ekf_check_state.fail_count - 1 = 0
        · simp only [ekf_check, ho, hd, hov, hc, hb, hz, failsafe_ekf_off_event] at hreq
          cases hf : s.failsafe_ekf <;> simp [hf] at hreq
        · simp [ekf_check, ho, hd, hov, hc, hb, hz] at hreq
    · simp [ekf_check, ho, hd, hov, hc] at hreq
  cases hb : s.ekf_check_state.bad_variance
  · simp only [Bool.or_eq_false_iff, Bool.not_eq_false'] at hd
    by_cases hc : 10 ≤ u8_inc s.ekf_check_state.fail_count
    · rw [ekf_check_trip_form env s ho hd.1 hd.2 hov hb hc]
      exact ⟨rfl, rfl⟩
    · simp [ekf_check, ho, hd.1, hd.2, hov, hb, EKF_CHECK_ITERATIONS_MAX, hc] at hreq
  · simp [ekf_check, ho, hd, hov, hb] at hreq

/-- A bad tick on a state whose variance flag is set changes nothing but the
notify flag, and produces no effect. -/
theorem ekf_check_bad_frozen (env : TickEnv) (s : State) (h : active_tick true env)
    (hb : s.ekf_check_state.bad_variance = true) :
    ekf_check env s = ({ s with ekf_bad := true }, []) := by
  obtain ⟨ho, ha, ht, hov⟩ := h
  have hle := gt_zero_not_le _ ht
  simp [ekf_check, ho, ha, hle, hov, hb]

theorem bad_over (t : Nat) : ekf_over_threshold (bad_sample t) = true :=
  (bad_sample_active t).2.2.2

theorem good_over (t : Nat) : ekf_over_threshold (good_sample t) = false :=
  (good_sample_active t).2.2.2

/-- Good and bad ticks in any order on a state whose variance flag is set, as
long as fewer good ticks have come than the counter holds: the counter has
gone down by the number of good ticks and the flag is still set. -/
theorem run_mixed_above (envs : List TickEnv) (s : State)
    (hb : s.ekf_check_state.bad_variance = true)
    (hall : ∀ env ∈ envs, active_tick true env ∨ active_tick false env)
    (hc : good_count envs < s.ekf_check_state.fail_count) :
    (run s envs).ekf_check_state =
        { s.ekf_check_state with
          fail_count := s.ekf_check_state.fail_count - good_count envs } ∧
      (run s envs).failsafe_ekf = s.failsafe_ekf := by
  induction envs generalizing s with
  | nil => simp [run, good_count]
  | cons env envs ih =>
    have hrest : ∀ e ∈ envs, active_tick true e ∨ active_tick false e :=
      fun e he => hall e (List.mem_cons_of_mem _ he)
    rcases hall env (List.mem_cons_self _ _) with hbad | hgood
    · have hstep := ekf_check_bad_frozen env s hbad hb
      have hcount : good_count (env :: envs) = good_count envs := by
        simp [good_count, List.countP_cons, hbad.2.2.2]
      rw [hcount] at hc ⊢
      have ih1 := ih (ekf_check env s).1 (by rw [hstep]; exact hb) hrest
        (by rw [hstep]; exact hc)
      rw [hstep] at ih1
      simp only [run, hstep]
      exact ih1
    · have hcount : good_count (env :: envs) = good_count envs + 1 := by
        simp [good_count, List.countP_cons, hgood.2.2.2]
      rw [hcount] at hc ⊢
      have hstep := ekf_check_good_dec env s hgood (by omega) (Or.inr (by omega))
      have ih1 := ih (ekf_check env s).1 (by rw [hstep]; exact hb) hrest
        (by rw [hstep]; simp only; omega)
      rw [hstep] at ih1
      simp only [run, hstep]
      refine ⟨?_, ih1.2⟩
      rw [ih1.1]
      simp only [ekf_check_state_t.mk.injEq, and_true, true_and]
      omega

end Rover

/-! ## Claims: the failsafe monitor -/

namespace Rover

/-- C1. Failsafe trip timing: from a state with fail_count = 0 and
bad_variance = false, after k consecutive ticks with an origin, armed, a
positive threshold and ekf_over_threshold true, fail_count = k and
bad_variance is still false for every k ≤ 9; after ten such ticks
bad_variance is true and fail_count = EKF_CHECK_ITERATIONS_MAX = 10. -/
theorem C1_trip_timing (s : State) (envs : List TickEnv)
    (h0 : s.ekf_check_state.fail_count = 0)
    (hb : s.ekf_check_state.bad_variance = false)
    (hall : ∀ env ∈ envs, active_tick true env) :
    (envs.length ≤ 9 →
        (run s envs).ekf_check_state.fail_count = envs.length ∧
        (run s envs).ekf_check_state.bad_variance = false) ∧
      (envs.length = 10 →
        (run s envs).ekf_check_state.fail_count = EKF_CHECK_ITERATIONS_MAX ∧
        EKF_CHECK_ITERATIONS_MAX = 10 ∧
        (run s envs).ekf_check_state.bad_variance = true) := by
  constructor
  · intro hlen
    have h := (run_bad_below envs s hb hall (by omega)).1
    rw [h]
    simp [h0, hb]
  · intro hlen
    obtain ⟨front, last, hsplit, hfront⟩ := length_ten_split envs hlen
    subst hsplit
    have hfr : ∀ env ∈ front, active_tick true env :=
      fun e he => hall e (List.mem_append_left _ he)
    have h := (run_bad_below front s hb hfr (by omega)).1
    have hlast : active_tick true last := hall last (by simp)
    have hstep := ekf_check_bad_trip last (run s front) hlast (by rw [h]; exact hb)
      (by rw [h]; simp only; omega)
    rw [run_append]
    simp [run, hstep, EKF_CHECK_ITERATIONS_MAX]

/-- Witness for C1: ten ticks of the sample (mag 1.5, vel 1.5, pos 0.0) against
threshold 1.0, from the initial state, trip on the tenth. -/
theorem C1_trip_timing_witness :
    (∀ env ∈ List.replicate 10 (bad_sample 0), active_tick true env) ∧
      (run init (List.replicate 10 (bad_sample 0))).ekf_check_state.fail_count = 10 ∧
      (run init (List.replicate 10 (bad_sample 0))).ekf_check_state.bad_variance = true :=
  have hall : ∀ env ∈ List.replicate 10 (bad_sample 0), active_tick true env :=
    fun env he => by
      rw [List.eq_of_mem_replicate he]
      exact bad_sample_active 0
  have h := (C1_trip_timing init (List.replicate 10 (bad_sample 0)) rfl rfl hall).2
    (by simp)
  ⟨hall, h.1, h.2.2⟩

/-- C2. Compound over-threshold rule: for a threshold t > 0,
ekf_over_threshold returns true if and only if at least two of the three
conditions (magnetic variance length >= t, velocity variance >= t, position
variance >= t) hold, or fewer than two hold and ekf_position_ok reports false;
for t <= 0 it returns false. -/
theorem C2_over_threshold_rule (env : TickEnv) :
    (CFloat.gt env.fs_ekf_thresh (CFloat.val 0) = true →
      (ekf_over_threshold env = true ↔
        ((CFloat.ge env.mag_variance_length env.fs_ekf_thresh = true ∧
            CFloat.ge env.vel_variance env.fs_ekf_thresh = true) ∨
          (CFloat.ge env.mag_variance_length env.fs_ekf_thresh = true ∧
            CFloat.ge env.position_variance env.fs_ekf_thresh = true) ∨
          (CFloat.ge env.vel_variance env.fs_ekf_thresh = true ∧
            CFloat.ge env.position_variance env.fs_ekf_thresh = true)) ∨
        (¬ ((CFloat.ge env.mag_variance_length env.fs_ekf_thresh = true ∧
              CFloat.ge env.vel_variance env.fs_ekf_thresh = true) ∨
            (CFloat.ge env.mag_variance_length env.fs_ekf_thresh = true ∧
              CFloat.ge env.position_variance env.fs_ekf_thresh = true) ∨
            (CFloat.ge env.vel_variance env.fs_ekf_thresh = true ∧
              CFloat.ge env.position_variance env.fs_ekf_thresh = true)) ∧
          env.position_ok = false))) ∧
      (CFloat.le env.fs_ekf_thresh (CFloat.val 0) = true →
        ekf_over_threshold env = false) := by
  constructor
  · intro ht
    have hle := gt_zero_not_le _ ht
    unfold ekf_over_threshold
    cases hm : CFloat.ge env.mag_variance_length env.fs_ekf_thresh <;>
      cases hv : CFloat.ge env.vel_variance env.fs_ekf_thresh <;>
      cases hp : CFloat.ge env.position_variance env.fs_ekf_thresh <;>
      cases hk : env.position_ok <;>
      simp [hle, u8_inc]
  · intro hle
    simp [ekf_over_threshold, hle]

/-- Witness for C2: two variances over threshold 1.0 give true; only one over
with a failing position check gives true; threshold 0 gives false. -/
theorem C2_over_threshold_rule_witness :
    CFloat.gt (bad_sample 0).fs_ekf_thresh (CFloat.val 0) = true ∧
      ekf_over_threshold (bad_sample 0) = true ∧
      CFloat.gt (one_high_sample false).fs_ekf_thresh (CFloat.val 0) = true ∧
      ekf_over_threshold (one_high_sample false) = true ∧
      CFloat.le (disabled_sample 0).fs_ekf_thresh (CFloat.val 0) = true ∧
      ekf_over_threshold (disabled_sample 0) = false :=
  have h1 : CFloat.gt (bad_sample 0).fs_ekf_thresh (CFloat.val 0) = true := by
    simp [bad_sample, CFloat.gt]
  have h2 : CFloat.gt (one_high_sample false).fs_ekf_thresh (CFloat.val 0) = true := by
    simp [one_high_sample, bad_sample, CFloat.gt]
  have h3 : CFloat.le (disabled_sample 0).fs_ekf_thresh (CFloat.val 0) = true := by
    simp [disabled_sample, CFloat.le]
  ⟨h1,
    ((C2_over_threshold_rule (bad_sample 0)).1 h1).2
      (Or.inl (Or.inl ⟨by simp [bad_sample, CFloat.ge, CFloat.le]; norm_num,
        by simp [bad_sample, CFloat.ge, CFloat.le]; norm_num⟩)),
    h2,
    ((C2_over_threshold_rule (one_high_sample false)).1 h2).2
      (Or.inr ⟨by simp [one_high_sample, bad_sample, CFloat.ge, CFloat.le], rfl⟩),
    h3,
    (C2_over_threshold_rule (disabled_sample 0)).2 h3⟩

/-- C3. Disarmed or disabled reset: with an origin set and either the vehicle
not armed or fs_ekf_thresh <= 0, one tick ends with fail_count = 0,
bad_variance = false, the notify flag ekf_bad = false and failsafe.ekf = false,
leaves last_warn_time unchanged, and its result (state and effects) is the same
for every variance sample and every result of the position-quality check. -/
theorem C3_disarmed_reset (env : TickEnv) (s : State)
    (ho : env.have_origin = true)
    (hd : env.is_armed = false ∨ CFloat.le env.fs_ekf_thresh (CFloat.val 0) = true) :
    (ekf_check env s).1.ekf_check_state.fail_count = 0 ∧
      (ekf_check env s).1.ekf_check_state.bad_variance = false ∧
      (ekf_check env s).1.ekf_bad = false ∧
      (ekf_check env s).1.failsafe_ekf = false ∧
      (ekf_check env s).1.ekf_check_state.last_warn_time =
        s.ekf_check_state.last_warn_time ∧
      ∀ (vel pos mag : CFloat) (ok : Bool),
        ekf_check { env with
            vel_variance := vel, position_variance := pos,
            mag_variance_length := mag, position_ok := ok } s =
          ekf_check env s := by
  have hcond : (!env.is_armed || CFloat.le env.fs_ekf_thresh (CFloat.val 0)) = true := by
    rcases hd with h | h <;> simp [h]
  refine ⟨?_, ?_, ?_, ?_, ?_, ?_⟩ <;>
    simp only [ekf_check, ho, hcond, failsafe_ekf_off_event] <;>
    cases hf : s.failsafe_ekf <;> simp

/-- Witness for C3: a tripped state, disarmed tick and disabled tick. -/
theorem C3_disarmed_reset_witness :
    (disabled_sample 7).have_origin = true ∧
      ((disabled_sample 7).is_armed = false ∨
        CFloat.le (disabled_sample 7).fs_ekf_thresh (CFloat.val 0) = true) ∧
      (ekf_check (disabled_sample 7) (tripped 5)).1.ekf_check_state.fail_count = 0 ∧
      (ekf_check (disabled_sample 7) (tripped 5)).1.ekf_check_state.bad_variance = false ∧
      (ekf_check (disabled_sample 7) (tripped 5)).1.failsafe_ekf = false :=
  have ho : (disabled_sample 7).have_origin = true := rfl
  have hd : (disabled_sample 7).is_armed = false ∨
      CFloat.le (disabled_sample 7).fs_ekf_thresh (CFloat.val 0) = true :=
    Or.inr (by simp [disabled_sample, CFloat.le])
  have h := C3_disarmed_reset (disabled_sample 7) (tripped 5) ho hd
  ⟨ho, hd, h.1, h.2.1, h.2.2.2.1⟩

/-- C4. No-origin guard: a tick on which ahrs.get_origin fails returns the
state unchanged (so fail_count, bad_variance and last_warn_time are unchanged)
and produces no effect (no log entry, no alert, no mode-change request),
whatever the other inputs; hence any sequence of such ticks leaves the state
unchanged and produces no effect. -/
theorem C4_no_origin_guard (s : State) :
    (∀ env : TickEnv, env.have_origin = false → ekf_check env s = (s, [])) ∧
      ∀ envs : List TickEnv, (∀ env ∈ envs, env.have_origin = false) →
        run s envs = s ∧ ∀ out ∈ trace s envs, out = [] := by
  have hstep : ∀ (s : State) (env : TickEnv), env.have_origin = false →
      ekf_check env s = (s, []) := by
    intro s env h
    simp [ekf_check, h]
  refine ⟨hstep s, ?_⟩
  intro envs
  induction envs with
  | nil => intro _; simp [run, trace]
  | cons env envs ih =>
    intro hall
    have h1 := hstep s env (hall env (List.mem_cons_self _ _))
    have h2 := ih (fun e he => hall e (List.mem_cons_of_mem _ he))
    simp only [run, trace, h1, List.mem_cons, forall_eq_or_imp]
    exact ⟨h2.1, trivial, h2.2⟩

/-- Witness for C4: three ticks without origin from a tripped state. -/
theorem C4_no_origin_guard_witness :
    (∀ env ∈ [no_origin_sample 1, no_origin_sample 2, no_origin_sample 40000],
        env.have_origin = false) ∧
      run (tripped 5) [no_origin_sample 1, no_origin_sample 2, no_origin_sample 40000] =
        tripped 5 :=
  have hall : ∀ env ∈ [no_origin_sample 1, no_origin_sample 2, no_origin_sample 40000],
      env.have_origin = false := by
    intro env he
    simp only [List.mem_cons, List.mem_singleton, List.not_mem_nil, or_false] at he
    rcases he with h | h | h <;> rw [h] <;> rfl
  ⟨hall, ((C4_no_origin_guard (tripped 5)).2 _ hall).1⟩

/-- C5. Failsafe recovery: from bad_variance = true with fail_count = 10, after
k consecutive good ticks (origin set, armed, threshold > 0, ekf_over_threshold
false) fail_count = 10 - k, bad_variance is still true and nothing has been
logged, for every k ≤ 9; the tenth good tick leaves fail_count = 0 and
bad_variance = false, and over the ten ticks the recovery entry
(EKFCHECK, VARIANCE_CLEARED) is written exactly once, on the tenth tick, where it
is followed only by the failsafe-resolved entry if the failsafe flag was set. -/
theorem C5_recovery (s : State) (envs : List TickEnv)
    (hb : s.ekf_check_state.bad_variance = true)
    (hc : s.ekf_check_state.fail_count = 10)
    (hall : ∀ env ∈ envs, active_tick false env) :
    (envs.length ≤ 9 →
        (run s envs).ekf_check_state.fail_count = 10 - envs.length ∧
        (run s envs).ekf_check_state.bad_variance = true ∧
        ∀ out ∈ trace s envs, out = []) ∧
      (envs.length = 10 →
        (run s envs).ekf_check_state.fail_count = 0 ∧
        (run s envs).ekf_check_state.bad_variance = false ∧
        (trace s envs).flatten.count recovery_entry = 1 ∧
        (∀ k < 9, (trace s envs)[k]? = some []) ∧
        (trace s envs)[9]? =
          some (recovery_entry ::
            (if s.failsafe_ekf then
              [Effect.Log_Write_Error ErrorSubsystem.FAILSAFE_EKFINAV
                ErrorCode.FAILSAFE_RESOLVED]
            else []))) := by
  constructor
  · intro hlen
    have h := run_good_above envs s hb hall (by omega)
    rw [h.1]
    exact ⟨by simp [hc], by simp [hb], h.2.2⟩
  · intro hlen
    obtain ⟨front, last, hsplit, hfront⟩ := length_ten_split envs hlen
    subst hsplit
    have h := trace_ten_good s front last hb hc hall hfront
    rw [h.1, h.2]
    refine ⟨rfl, rfl, ?_, ?_, ?_⟩
    · cases hf : s.failsafe_ekf <;> simp [recovery_entry, List.count_cons]
    · intro k hk
      interval_cases k <;> simp
    · simp [List.getElem?_append_right]

/-- Witness for C5: ten ticks of the sample (mag 0.2, vel 0.2, pos 0.2) against
threshold 1.0 from a tripped state. -/
theorem C5_recovery_witness :
    (tripped 0).ekf_check_state.bad_variance = true ∧
      (tripped 0).ekf_check_state.fail_count = 10 ∧
      (∀ env ∈ List.replicate 10 (good_sample 0), active_tick false env) ∧
      (run (tripped 0) (List.replicate 10 (good_sample 0))).ekf_check_state.fail_count = 0 ∧
      (run (tripped 0) (List.replicate 10 (good_sample 0))).ekf_check_state.bad_variance
        = false ∧
      (trace (tripped 0) (List.replicate 10 (good_sample 0))).flatten.count recovery_entry = 1 :=
  have hall : ∀ env ∈ List.replicate 10 (good_sample 0), active_tick false env :=
    fun env he => by
      rw [List.eq_of_mem_replicate he]
      exact good_sample_active 0
  have h := (C5_recovery (tripped 0) (List.replicate 10 (good_sample 0)) rfl rfl hall).2
    (by simp)
  ⟨rfl, rfl, hall, h.1, h.2.1, h.2.2.1⟩

/-- C8 (amended). Trip-edge effects: from a state with fail_count 0,
bad_variance false, last_warn_time 0 and no failsafe active, fed ten consecutive
bad ticks (origin set, armed, positive threshold), the first nine ticks produce
no effect at all; the tenth tick writes exactly two event-log entries, the
EKF-check bad-variance entry and the failsafe-occurred entry, and sends the
operator alert exactly once if its clock reading exceeds 30000 ms and not at
all otherwise. -/
theorem C8_trip_edge_effects (s : State) (front : List TickEnv) (last : TickEnv)
    (h0 : s.ekf_check_state.fail_count = 0)
    (hb : s.ekf_check_state.bad_variance = false)
    (hl : s.ekf_check_state.last_warn_time = 0)
    (hf : s.failsafe_ekf = false)
    (hall : ∀ env ∈ front ++ [last], active_tick true env)
    (hlen : front.length = 9) :
    (∀ k < 9, (trace s (front ++ [last]))[k]? = some []) ∧
      ∃ out, (trace s (front ++ [last]))[9]? = some out ∧
        out.filter Effect.is_log = [trip_entry, failsafe_entry] ∧
        out.filter Effect.is_alert =
          (if last.millis % 4294967296 > 30000 then [variance_alert] else []) := by
  have h := trace_ten_bad s front last h0 hb hall hlen
  have hsub : u32_sub last.millis 0 = last.millis % 4294967296 := by
    unfold u32_sub
    omega
  rw [h, hl, hf, hsub]
  constructor
  · intro k hk
    interval_cases k <;> simp
  · refine ⟨[trip_entry]
        ++ (if last.millis % 4294967296 > 30000 then [variance_alert] else [])
        ++ [failsafe_entry]
        ++ (if last.requires_position = true ∨ last.requires_velocity = true
            then [Effect.set_mode_hold] else []),
      by simp [List.getElem?_append_right, failsafe_entry], ?_, ?_⟩ <;>
      by_cases hw : last.millis % 4294967296 > 30000 <;>
      cases hp : last.requires_position <;> cases hv : last.requires_velocity <;>
      simp [hw, trip_entry, failsafe_entry, variance_alert, Effect.is_log, Effect.is_alert]

/-- Ten ticks of the trip-timing sample are bad ticks. -/
theorem ten_bad_ticks_active : ∀ env ∈ ten_bad_ticks, active_tick true env := by
  intro env he
  simp only [ten_bad_ticks, List.mem_cons, List.mem_singleton, List.not_mem_nil,
    or_false] at he
  rcases he with h | h | h | h | h | h | h | h | h | h <;> rw [h] <;>
    exact bad_sample_active _

/-- Witness for C8 (amended): the ten ticks at 10 Hz after boot. -/
theorem C8_trip_edge_effects_witness :
    (∀ env ∈ ten_bad_ticks, active_tick true env) ∧
      (∀ k < 9, (trace init ten_bad_ticks)[k]? = some []) ∧
      ∃ out, (trace init ten_bad_ticks)[9]? = some out ∧
        out.filter Effect.is_log = [trip_entry, failsafe_entry] ∧
        out.filter Effect.is_alert =
          (if (bad_sample 1000).millis % 4294967296 > 30000 then [variance_alert] else []) :=
  ⟨ten_bad_ticks_active,
    C8_trip_edge_effects init
      [bad_sample 100, bad_sample 200, bad_sample 300, bad_sample 400, bad_sample 500,
        bad_sample 600, bad_sample 700, bad_sample 800, bad_sample 900]
      (bad_sample 1000) rfl rfl rfl rfl ten_bad_ticks_active rfl⟩

/-- C8 (counterexample). From the initial state, with an origin, armed and
threshold 1.0, ten consecutive bad ticks (mag 1.5, vel 1.5, pos 0.0) at 10 Hz
starting 100 ms after boot: the tenth tick, at clock 1000 ms, writes two
event-log entries and sends no operator alert, not one of each. -/
theorem C8_counterexample :
    (trace init ten_bad_ticks)[9]? = some [trip_entry, failsafe_entry] ∧
      ([trip_entry, failsafe_entry].filter Effect.is_log).length = 2 ∧
      ([trip_entry, failsafe_entry].filter Effect.is_alert).length = 0 ∧
      ¬ (∃ out, (trace init ten_bad_ticks)[9]? = some out ∧
          (out.filter Effect.is_log).length = 1 ∧
          (out.filter Effect.is_alert).length = 1) := by
  have h := trace_ten_bad init
    [bad_sample 100, bad_sample 200, bad_sample 300, bad_sample 400, bad_sample 500,
      bad_sample 600, bad_sample 700, bad_sample 800, bad_sample 900]
    (bad_sample 1000) rfl rfl ten_bad_ticks_active rfl
  have hw : u32_sub 1000 0 ≤ 30000 := by
    decide
  have h9 : (trace init ten_bad_ticks)[9]? = some [trip_entry, failsafe_entry] := by
    show (trace init ([bad_sample 100, bad_sample 200, bad_sample 300, bad_sample 400,
      bad_sample 500, bad_sample 600, bad_sample 700, bad_sample 800, bad_sample 900]
      ++ [bad_sample 1000]))[9]? = _
    rw [h]
    simp [hw, init, bad_sample, failsafe_entry]
  refine ⟨h9, by decide, by decide, ?_⟩
  rintro ⟨out, ho, hlog, -⟩
  rw [h9] at ho
  cases ho
  revert hlog
  decide

/-- C9. Alert throttle rule: on every tick that sets bad_variance (a trip), the
operator alert EKF variance is sent if and only if now - last_warn_time > 30000
in unsigned 32-bit milliseconds, and then exactly once; last_warn_time becomes
the clock value read for the store exactly when the alert is sent and is
otherwise unchanged; so a trip 5000 ms after the stored time of an alerted trip
sends no alert and keeps the stored time, and a trip 31000 ms after it sends
one. -/
theorem C9_alert_throttle (env : TickEnv) (s : State)
    (hb : s.ekf_check_state.bad_variance = false)
    (htrip : (ekf_check env s).1.ekf_check_state.bad_variance = true) :
    (variance_alert ∈ (ekf_check env s).2 ↔
        u32_sub env.millis s.ekf_check_state.last_warn_time > 30000) ∧
      (ekf_check env s).2.count variance_alert =
        (if u32_sub env.millis s.ekf_check_state.last_warn_time > 30000 then 1 else 0) ∧
      (ekf_check env s).1.ekf_check_state.last_warn_time =
        (if variance_alert ∈ (ekf_check env s).2 then env.millis_at_store
          else s.ekf_check_state.last_warn_time) ∧
      (u32_sub env.millis s.ekf_check_state.last_warn_time = 5000 →
        variance_alert ∉ (ekf_check env s).2 ∧
        (ekf_check env s).1.ekf_check_state.last_warn_time =
          s.ekf_check_state.last_warn_time) ∧
      (u32_sub env.millis s.ekf_check_state.last_warn_time = 31000 →
        variance_alert ∈ (ekf_check env s).2) := by
  obtain ⟨ho, ha, hle, hov, hc⟩ := trip_conditions env s hb htrip
  rw [ekf_check_trip_form env s ho ha hle hov hb hc]
  by_cases hw : u32_sub env.millis s.ekf_check_state.last_warn_time > 30000
  · have h5 : ¬ (u32_sub env.millis s.ekf_check_state.last_warn_time = 5000) := by omega
    cases hf : s.failsafe_ekf <;> cases hp : env.requires_position <;>
      cases hv : env.requires_velocity <;>
      simp [hw, h5, variance_alert, trip_entry, List.count_cons]
  · have h31 : ¬ (u32_sub env.millis s.ekf_check_state.last_warn_time = 31000) := by omega
    cases hf : s.failsafe_ekf <;> cases hp : env.requires_position <;>
      cases hv : env.requires_velocity <;>
      simp [hw, h31, variance_alert, trip_entry, List.count_cons]

/-- The trip-timing sample trips a state that is one bad tick from the trip. -/
theorem near_trip_trips (t lwt : Nat) :
    (ekf_check (bad_sample t) (near_trip lwt)).1.ekf_check_state.bad_variance = true := by
  rw [ekf_check_bad_trip (bad_sample t) (near_trip lwt) (bad_sample_active t) rfl rfl]

/-- Witness for C9: after an alerted trip stamped 40000, a trip at clock 45000
sends no alert and keeps the stamp, and a trip at clock 71000 sends one and
stores 71000. -/
theorem C9_alert_throttle_witness :
    (near_trip 40000).ekf_check_state.bad_variance = false ∧
      (ekf_check (bad_sample 45000) (near_trip 40000)).1.ekf_check_state.bad_variance
        = true ∧
      (ekf_check (bad_sample 71000) (near_trip 40000)).1.ekf_check_state.bad_variance
        = true ∧
      variance_alert ∉ (ekf_check (bad_sample 45000) (near_trip 40000)).2 ∧
      (ekf_check (bad_sample 45000) (near_trip 40000)).1.ekf_check_state.last_warn_time
        = 40000 ∧
      variance_alert ∈ (ekf_check (bad_sample 71000) (near_trip 40000)).2 :=
  have h45 := (C9_alert_throttle (bad_sample 45000) (near_trip 40000) rfl
    (near_trip_trips 45000 40000)).2.2.2.1 (by decide)
  ⟨rfl, near_trip_trips 45000 40000, near_trip_trips 71000 40000, h45.1, h45.2,
    (C9_alert_throttle (bad_sample 71000) (near_trip 40000) rfl
      (near_trip_trips 71000 40000)).2.2.2.2 (by decide)⟩

/-- C10. Global alert rate limit: in every run from the initial state with a
millisecond clock that never goes backwards and does not wrap, any two ticks
that send the EKF variance alert are more than 30000 ms apart: the clock read
by the later one exceeds by more than 30000 both the clock read and the clock
stored by the earlier one. -/
theorem C10_alert_rate_limit (envs : List TickEnv) (hclock : clock_ok envs) :
    List.Pairwise (fun a b => a.1 + 30000 < b.1 ∧ a.2 + 30000 < b.1)
      (alert_ticks init envs) := by
  obtain ⟨hsorted, hbound⟩ := hclock
  have h := (alert_ticks_spaced envs init hsorted hbound (fun t _ => Nat.zero_le t)).2
  have hle : ∀ (envs : List TickEnv) (s : State),
      List.Pairwise (fun a b => a ≤ b) (clock_readings envs) →
      ∀ a ∈ alert_ticks s envs, a.1 ≤ a.2 := by
    intro envs
    induction envs with
    | nil => intro s _ a ha; simp [alert_ticks] at ha
    | cons env envs ih =>
      intro s hs a ha
      simp only [clock_readings, List.pairwise_cons, List.mem_cons, forall_eq_or_imp] at hs
      simp only [alert_ticks, List.mem_append] at ha
      rcases ha with ha | ha
      · by_cases hal : variance_alert ∈ (ekf_check env s).2
        · simp only [hal, if_true, List.mem_singleton] at ha
          rw [ha]
          exact hs.1.1
        · simp [hal] at ha
      · exact ih _ hs.2.2 a ha
  have hle1 := hle envs init hsorted
  refine (List.Pairwise.and_mem.mp h).imp ?_
  intro a b hab
  obtain ⟨ha, _, hlt⟩ := hab
  have := hle1 a ha
  exact ⟨by omega, hlt⟩

/-- Witness for C10: in the run with trips at clock 40000 and 71000 both trips
send the alert, and they are more than 30000 ms apart. -/
theorem C10_alert_rate_limit_witness :
    clock_ok two_trip_run ∧
      alert_ticks init two_trip_run = [(40000, 40000), (71000, 71000)] ∧
      List.Pairwise (fun a b => a.1 + 30000 < b.1 ∧ a.2 + 30000 < b.1)
        (alert_ticks init two_trip_run) :=
  ⟨two_trip_run_clock, two_trip_run_alerts,
    C10_alert_rate_limit two_trip_run two_trip_run_clock⟩

end Rover

namespace Rover

/-- C11. Mode fallback on trip: on a tick that sets bad_variance while no EKF
failsafe is active, set_mode(mode_hold, MODE_REASON_FAILSAFE) is requested
(once) if and only if the current control mode requires position or requires
velocity; when it requires neither no mode change is requested, and in both
cases the failsafe flag becomes active and the failsafe-occurred entry is
logged. -/
theorem C11_mode_fallback_on_trip (env : TickEnv) (s : State)
    (hb : s.ekf_check_state.bad_variance = false)
    (hf : s.failsafe_ekf = false)
    (htrip : (ekf_check env s).1.ekf_check_state.bad_variance = true) :
    (Effect.set_mode_hold ∈ (ekf_check env s).2 ↔
        (env.requires_position = true ∨ env.requires_velocity = true)) ∧
      (ekf_check env s).2.count Effect.set_mode_hold ≤ 1 ∧
      (env.requires_position = false → env.requires_velocity = false →
        ∀ e ∈ (ekf_check env s).2, Effect.is_mode_request e = false) ∧
      (ekf_check env s).1.failsafe_ekf = true ∧
      failsafe_entry ∈ (ekf_check env s).2 := by
  obtain ⟨ho, ha, hle, hov, hc⟩ := trip_conditions env s hb htrip
  rw [ekf_check_trip_form env s ho ha hle hov hb hc]
  by_cases hw : u32_sub env.millis s.ekf_check_state.last_warn_time > 30000 <;>
    cases hp : env.requires_position <;> cases hv : env.requires_velocity <;>
    simp [hw, hf, variance_alert, trip_entry, failsafe_entry, Effect.is_mode_request,
      List.count_cons]

/-- Witness for C11: the trip tick of a mode that requires neither position nor
velocity requests nothing; that of a mode that requires position requests the
hold mode. -/
theorem C11_mode_fallback_on_trip_witness :
    (near_trip 0).ekf_check_state.bad_variance = false ∧
      (near_trip 0).failsafe_ekf = false ∧
      (ekf_check (bad_sample 0) (near_trip 0)).1.ekf_check_state.bad_variance = true ∧
      Effect.set_mode_hold ∉ (ekf_check (bad_sample 0) (near_trip 0)).2 ∧
      (ekf_check (bad_sample 0) (near_trip 0)).1.failsafe_ekf = true ∧
      Effect.set_mode_hold ∈ (ekf_check (position_mode_sample 0) (near_trip 0)).2 :=
  have t0 : (ekf_check (bad_sample 0) (near_trip 0)).1.ekf_check_state.bad_variance = true :=
    near_trip_trips 0 0
  have t1 : (ekf_check (position_mode_sample 0) (near_trip 0)).1.ekf_check_state.bad_variance
      = true := by
    rw [ekf_check_bad_trip (position_mode_sample 0) (near_trip 0)
      (position_mode_sample_active 0) rfl rfl]
  have h0 := C11_mode_fallback_on_trip (bad_sample 0) (near_trip 0) rfl rfl t0
  have h1 := C11_mode_fallback_on_trip (position_mode_sample 0) (near_trip 0) rfl rfl t1
  ⟨rfl, rfl, t0,
    fun hin => by
      have := h0.1.mp hin
      simp [bad_sample] at this,
    h0.2.2.2.1,
    h1.1.mpr (Or.inl rfl)⟩

/-- C12. Counter range invariant: in every state reachable from the initial
state by any sequence of ticks with any inputs, fail_count is at most
EKF_CHECK_ITERATIONS_MAX = 10; the 8-bit increment does not wrap there, and a
further tick moves the counter only by staying, by one up without passing 10,
by one down from a positive value, or by a reset to zero. -/
theorem C12_counter_range (envs : List TickEnv) (env : TickEnv) :
    (run init envs).ekf_check_state.fail_count ≤ EKF_CHECK_ITERATIONS_MAX ∧
      EKF_CHECK_ITERATIONS_MAX = 10 ∧
      (run init envs).ekf_check_state.fail_count + 1 < 256 ∧
      u8_inc (run init envs).ekf_check_state.fail_count =
        (run init envs).ekf_check_state.fail_count + 1 ∧
      ((ekf_check env (run init envs)).1.ekf_check_state.fail_count =
          (run init envs).ekf_check_state.fail_count ∨
        ((ekf_check env (run init envs)).1.ekf_check_state.fail_count =
            (run init envs).ekf_check_state.fail_count + 1 ∧
          (run init envs).ekf_check_state.fail_count + 1 ≤ 10) ∨
        ((ekf_check env (run init envs)).1.ekf_check_state.fail_count + 1 =
          (run init envs).ekf_check_state.fail_count) ∨
        (ekf_check env (run init envs)).1.ekf_check_state.fail_count = 0) := by
  have hinv := reach_inv_run envs init reach_inv_init
  have h10 := hinv.1
  simp only [EKF_CHECK_ITERATIONS_MAX] at h10
  refine ⟨hinv.1, rfl, by omega, by unfold u8_inc; omega, counter_moves env _ hinv⟩

/-- C13. Tripped-flag invariant: in every run from the initial state, after
each tick bad_variance is true if and only if fail_count equalled
EKF_CHECK_ITERATIONS_MAX at the end of some tick j of the run and has not been
0 at the end of any tick from j on. -/
theorem C13_tripped_flag_invariant (envs : List TickEnv) :
    (run init envs).ekf_check_state.bad_variance = true ↔
      ∃ j, j ≤ envs.length ∧
        (run init (envs.take j)).ekf_check_state.fail_count = EKF_CHECK_ITERATIONS_MAX ∧
        ∀ i, j ≤ i → i ≤ envs.length →
          (run init (envs.take i)).ekf_check_state.fail_count ≠ 0 := by
  induction envs using List.reverseRecOn with
  | nil =>
    simp [run, init, EKF_CHECK_ITERATIONS_MAX]
  | append_singleton l e ih =>
    have hinv := reach_inv_run l init reach_inv_init
    have hinv2 := reach_inv_step e _ hinv
    have hrun : run init (l ++ [e]) = (ekf_check e (run init l)).1 := by
      rw [run_append]
      rfl
    have htake : ∀ i, i ≤ l.length → (l ++ [e]).take i = l.take i :=
      fun i hi => List.take_append_of_le_length hi
    have hfull : (l ++ [e]).take (l.length + 1) = l ++ [e] := by
      apply List.take_of_length_le
      simp
    have hlen : (l ++ [e]).length = l.length + 1 := by simp
    rw [hlen]
    constructor
    · intro hbv
      cases hb : (run init l).ekf_check_state.bad_variance
      · refine ⟨l.length + 1, le_refl _, ?_, ?_⟩
        · rw [hfull, hrun]
          rw [hrun] at hbv
          exact trip_step_count e _ hb hbv
        · intro i h1 h2
          have hi : i = l.length + 1 := by omega
          rw [hi, hfull, hrun]
          rw [hrun] at hbv
          rw [trip_step_count e _ hb hbv]
          decide
      · obtain ⟨j, hj, hmax, hnz⟩ := ih.mp hb
        refine ⟨j, by omega, ?_, ?_⟩
        · rw [htake j hj]
          exact hmax
        · intro i h1 h2
          by_cases hi : i ≤ l.length
          · rw [htake i hi]
            exact hnz i h1 hi
          · have hi2 : i = l.length + 1 := by omega
            rw [hi2, hfull]
            have := hinv2.2.2.1 (by rw [← hrun]; exact hbv)
            rw [hrun]
            omega
    · rintro ⟨j, hj, hmax, hnz⟩
      by_cases hjl : j ≤ l.length
      · have hb : (run init l).ekf_check_state.bad_variance = true := by
          apply ih.mpr
          refine ⟨j, hjl, ?_, ?_⟩
          · rw [← htake j hjl]
            exact hmax
          · intro i h1 h2
            rw [← htake i h2]
            exact hnz i h1 (by omega)
        have hlast := hnz (l.length + 1) (by omega) (le_refl _)
        rw [hfull, hrun] at hlast
        rw [hrun]
        cases hb2 : (ekf_check e (run init l)).1.ekf_check_state.bad_variance
        · exact absurd (clear_step_count e _ hb hb2) hlast
        · rfl
      · have hj2 : j = l.length + 1 := by omega
        rw [hj2, hfull] at hmax
        cases hb2 : (run init (l ++ [e])).ekf_check_state.bad_variance
        · have := (reach_inv_run (l ++ [e]) init reach_inv_init).2.1 hb2
          simp only [EKF_CHECK_ITERATIONS_MAX] at hmax
          omega
        · rfl

/-- Witness for C13: after the ten bad ticks the flag is set, and the tenth
tick is one at whose end the counter was at the maximum with no zero since. -/
theorem C13_tripped_flag_invariant_witness :
    (run init ten_bad_ticks).ekf_check_state.bad_variance = true ∧
      ∃ j, j ≤ ten_bad_ticks.length ∧
        (run init (ten_bad_ticks.take j)).ekf_check_state.fail_count
          = EKF_CHECK_ITERATIONS_MAX ∧
        ∀ i, j ≤ i → i ≤ ten_bad_ticks.length →
          (run init (ten_bad_ticks.take i)).ekf_check_state.fail_count ≠ 0 :=
  have hb : (run init ten_bad_ticks).ekf_check_state.bad_variance = true := by
    have h := run_ten_bad init
      [bad_sample 100, bad_sample 200, bad_sample 300, bad_sample 400, bad_sample 500,
        bad_sample 600, bad_sample 700, bad_sample 800, bad_sample 900]
      (bad_sample 1000) rfl rfl ten_bad_ticks_active rfl
    show (run init ([bad_sample 100, bad_sample 200, bad_sample 300, bad_sample 400,
      bad_sample 500, bad_sample 600, bad_sample 700, bad_sample 800, bad_sample 900]
      ++ [bad_sample 1000])).ekf_check_state.bad_variance = true
    rw [h.1]
  ⟨hb, (C13_tripped_flag_invariant ten_bad_ticks).mp hb⟩

end Rover

namespace Rover

/-- C14. Indicator mirrors tripped: after every tick of every run from the
initial state the flag AP_Notify::flags.ekf_bad equals bad_variance, whichever
branch was taken: a tick with an origin (disarmed or disabled reset, bad tick,
good tick) writes the flag from bad_variance in any state, and a tick without
origin changes neither of them. -/
theorem C14_indicator_mirrors (envs : List TickEnv) :
    (run init envs).ekf_bad = (run init envs).ekf_check_state.bad_variance ∧
      (∀ (env : TickEnv) (s : State), env.have_origin = true →
        (ekf_check env s).1.ekf_bad = (ekf_check env s).1.ekf_check_state.bad_variance) ∧
      (∀ (env : TickEnv) (s : State), env.have_origin = false →
        (ekf_check env s).1.ekf_bad = s.ekf_bad ∧
        (ekf_check env s).1.ekf_check_state.bad_variance =
          s.ekf_check_state.bad_variance) :=
  ⟨(reach_inv_run envs init reach_inv_init).2.2.2.1,
    fun env s ho => origin_tick_mirrors env s ho,
    fun env s ho => by rw [no_origin_tick env s ho]; exact ⟨rfl, rfl⟩⟩

/-- Witness for C14: after the ten bad ticks followed by a tick without origin
the flag is set and equals bad_variance. -/
theorem C14_indicator_mirrors_witness :
    (run init (ten_bad_ticks ++ [no_origin_sample 1100])).ekf_bad =
        (run init (ten_bad_ticks ++ [no_origin_sample 1100])).ekf_check_state.bad_variance ∧
      (bad_sample 0).have_origin = true ∧
      (ekf_check (bad_sample 0) (near_trip 0)).1.ekf_bad =
        (ekf_check (bad_sample 0) (near_trip 0)).1.ekf_check_state.bad_variance ∧
      (no_origin_sample 0).have_origin = false ∧
      (ekf_check (no_origin_sample 0) (tripped 0)).1.ekf_bad = (tripped 0).ekf_bad :=
  ⟨(C14_indicator_mirrors (ten_bad_ticks ++ [no_origin_sample 1100])).1,
    rfl,
    (C14_indicator_mirrors []).2.1 (bad_sample 0) (near_trip 0) rfl,
    rfl,
    ((C14_indicator_mirrors []).2.2 (no_origin_sample 0) (tripped 0) rfl).1⟩

/-- C19. Disarm override over a whole run: in every run from the initial state
in which the origin, once available, stays available, every tick on which the
vehicle is not armed ends with fail_count = 0 and bad_variance = false,
whatever the counter was before it and whether or not an origin is available
on that tick. -/
theorem C19_disarm_override (pre : List TickEnv) (env : TickEnv)
    (hlatch : origin_latched (pre ++ [env]))
    (ha : env.is_armed = false) :
    (run init (pre ++ [env])).ekf_check_state.fail_count = 0 ∧
      (run init (pre ++ [env])).ekf_check_state.bad_variance = false := by
  have hrun : run init (pre ++ [env]) = (ekf_check env (run init pre)).1 := by
    rw [run_append]
    rfl
  rw [hrun]
  cases ho : env.have_origin
  · have hpre : ∀ e ∈ pre, e.have_origin = false := by
      intro e he
      have h := (List.pairwise_append.mp hlatch).2.2 e he env (List.mem_singleton_self _)
      cases he2 : e.have_origin
      · rfl
      · rw [h he2] at ho
        exact absurd ho (by decide)
    rw [no_origin_tick env _ ho, no_origin_run pre init hpre]
    exact ⟨rfl, rfl⟩
  · exact disarmed_tick_resets env _ ho ha

/-- The ten bad ticks followed by a disarmed tick keep a latched origin. -/
theorem ten_bad_then_disarmed_latched :
    origin_latched (ten_bad_ticks ++ [disarmed_sample 1100]) := by
  unfold origin_latched
  have htriv : List.Pairwise (fun _ _ : TickEnv => True)
      (ten_bad_ticks ++ [disarmed_sample 1100]) :=
    List.pairwise_of_forall (fun _ _ => trivial)
  refine htriv.imp_of_mem ?_
  · intro a b _ hb _ _
    simp only [ten_bad_ticks, List.cons_append, List.nil_append, List.mem_cons,
      List.mem_singleton, List.not_mem_nil, or_false] at hb
    rcases hb with h | h | h | h | h | h | h | h | h | h | h <;> rw [h] <;> rfl

/-- Witness for C19: a disarmed tick right after the trip (counter at 10), and
a disarmed tick before any origin. -/
theorem C19_disarm_override_witness :
    origin_latched (ten_bad_ticks ++ [disarmed_sample 1100]) ∧
      (disarmed_sample 1100).is_armed = false ∧
      (run init ten_bad_ticks).ekf_check_state.fail_count = 10 ∧
      (run init (ten_bad_ticks ++ [disarmed_sample 1100])).ekf_check_state.fail_count = 0 ∧
      (run init (ten_bad_ticks ++ [disarmed_sample 1100])).ekf_check_state.bad_variance
        = false :=
  have h := C19_disarm_override ten_bad_ticks (disarmed_sample 1100)
    ten_bad_then_disarmed_latched rfl
  have h10 : (run init ten_bad_ticks).ekf_check_state.fail_count = 10 := by
    have h := run_ten_bad init
      [bad_sample 100, bad_sample 200, bad_sample 300, bad_sample 400, bad_sample 500,
        bad_sample 600, bad_sample 700, bad_sample 800, bad_sample 900]
      (bad_sample 1000) rfl rfl ten_bad_ticks_active rfl
    show (run init ([bad_sample 100, bad_sample 200, bad_sample 300, bad_sample 400,
      bad_sample 500, bad_sample 600, bad_sample 700, bad_sample 800, bad_sample 900]
      ++ [bad_sample 1000])).ekf_check_state.fail_count = 10
    rw [h.1]
  ⟨ten_bad_then_disarmed_latched, rfl, h10, h.1, h.2⟩

end Rover

namespace Rover

/-- C21. Edge-triggered logging and alerting: in every run from the initial
state, a tick writes an event-log entry or sends an operator alert only if it
changes bad_variance; a tick that leaves bad_variance unchanged writes no log
entry and sends no alert (it produces no effect at all). -/
theorem C21_edge_triggered (envs : List TickEnv) (env : TickEnv) :
    ((∃ e ∈ (ekf_check env (run init envs)).2,
          Effect.is_log e = true ∨ Effect.is_alert e = true) →
        (ekf_check env (run init envs)).1.ekf_check_state.bad_variance ≠
          (run init envs).ekf_check_state.bad_variance) ∧
      ((ekf_check env (run init envs)).1.ekf_check_state.bad_variance =
          (run init envs).ekf_check_state.bad_variance →
        (ekf_check env (run init envs)).2 = []) := by
  have hinv := reach_inv_run envs init reach_inv_init
  refine ⟨?_, quiet_of_unchanged env _ hinv⟩
  rintro ⟨e, he, _⟩ hsame
  rw [quiet_of_unchanged env _ hinv hsame] at he
  simp at he

/-- Witness for C21: the first bad tick of a run leaves the flag clear and
produces nothing; the tenth sets the flag and writes the trip entry. -/
theorem C21_edge_triggered_witness :
    (ekf_check (bad_sample 100) (run init [])).1.ekf_check_state.bad_variance =
        (run init []).ekf_check_state.bad_variance ∧
      (ekf_check (bad_sample 100) (run init [])).2 = [] ∧
      (∃ e ∈ (ekf_check (bad_sample 1000) (run init (List.replicate 9 (bad_sample 100)))).2,
        Effect.is_log e = true ∨ Effect.is_alert e = true) ∧
      (ekf_check (bad_sample 1000)
          (run init (List.replicate 9 (bad_sample 100)))).1.ekf_check_state.bad_variance ≠
        (run init (List.replicate 9 (bad_sample 100))).ekf_check_state.bad_variance :=
  have h0 : (ekf_check (bad_sample 100) (run init [])).1.ekf_check_state.bad_variance =
      (run init []).ekf_check_state.bad_variance := by
    rw [show run init [] = init from rfl,
      ekf_check_bad_below (bad_sample 100) init (bad_sample_active 100) rfl (by decide)]
  have h9 := run_bad_below (List.replicate 9 (bad_sample 100)) init rfl
    (fun env he => by rw [List.eq_of_mem_replicate he]; exact bad_sample_active 100)
    (by decide)
  have hex : ∃ e ∈ (ekf_check (bad_sample 1000)
      (run init (List.replicate 9 (bad_sample 100)))).2,
      Effect.is_log e = true ∨ Effect.is_alert e = true := by
    rw [ekf_check_bad_trip (bad_sample 1000) _ (bad_sample_active 1000)
      (by rw [h9.1]; rfl) (by rw [h9.1]; rfl)]
    exact ⟨Effect.Log_Write_Error ErrorSubsystem.EKFCHECK ErrorCode.EKFCHECK_BAD_VARIANCE,
      by simp, Or.inl rfl⟩
  ⟨h0, (C21_edge_triggered [] (bad_sample 100)).2 h0, hex,
    (C21_edge_triggered (List.replicate 9 (bad_sample 100)) (bad_sample 1000)).1 hex⟩

/-- C26. Counter frozen on bad ticks while tripped: with an origin, armed and a
positive threshold, a bad tick in a state with bad_variance = true leaves
fail_count, bad_variance and last_warn_time as they were; consequently, from
the state right after a trip (fail_count = 10), over good and bad ticks in any
order, bad_variance is still true with fail_count = 10 minus the number of
good ticks while at most nine good ticks have come, and it is cleared by the
tick that is the tenth good one. -/
theorem C26_frozen_while_tripped (s : State)
    (hb : s.ekf_check_state.bad_variance = true) :
    (∀ env, active_tick true env →
        (ekf_check env s).1.ekf_check_state = s.ekf_check_state) ∧
      (s.ekf_check_state.fail_count = 10 →
        ∀ envs : List TickEnv,
          (∀ env ∈ envs, active_tick true env ∨ active_tick false env) →
          (good_count envs ≤ 9 →
            (run s envs).ekf_check_state.bad_variance = true ∧
            (run s envs).ekf_check_state.fail_count = 10 - good_count envs) ∧
          (∀ last, active_tick false last → good_count envs = 9 →
            (run s envs).ekf_check_state.bad_variance = true ∧
            (run s (envs ++ [last])).ekf_check_state.bad_variance = false ∧
            (run s (envs ++ [last])).ekf_check_state.fail_count = 0)) := by
  constructor
  · intro env henv
    rw [ekf_check_bad_frozen env s henv hb]
  · intro hc envs hall
    have hbelow : good_count envs ≤ 9 →
        (run s envs).ekf_check_state.bad_variance = true ∧
        (run s envs).ekf_check_state.fail_count = 10 - good_count envs := by
      intro hg
      have h := (run_mixed_above envs s hb hall (by omega)).1
      rw [h]
      exact ⟨hb, by simp only; rw [hc]⟩
    refine ⟨hbelow, ?_⟩
    intro last hlast hg
    have h9 := hbelow (by omega)
    have hstep := ekf_check_good_clear last (run s envs) hlast h9.1 (by rw [h9.2, hg])
    refine ⟨h9.1, ?_, ?_⟩ <;> rw [run_append] <;> simp only [run, hstep]

/-- Witness for C26: after a trip, a good tick, a bad tick and a good tick leave
the flag set with the counter at 8. -/
theorem C26_frozen_while_tripped_witness :
    (tripped 0).ekf_check_state.bad_variance = true ∧
      active_tick true (bad_sample 0) ∧
      (ekf_check (bad_sample 0) (tripped 0)).1.ekf_check_state =
        (tripped 0).ekf_check_state ∧
      good_count [good_sample 0, bad_sample 0, good_sample 0] ≤ 9 ∧
      (run (tripped 0) [good_sample 0, bad_sample 0, good_sample 0]).ekf_check_state.bad_variance
        = true ∧
      (run (tripped 0) [good_sample 0, bad_sample 0, good_sample 0]).ekf_check_state.fail_count
        = 10 - good_count [good_sample 0, bad_sample 0, good_sample 0] ∧
      good_count [good_sample 0, bad_sample 0, good_sample 0] = 2 :=
  have hg : good_count [good_sample 0, bad_sample 0, good_sample 0] = 2 := by
    simp [good_count, List.countP_cons, bad_over, good_over]
  have hall : ∀ env ∈ [good_sample 0, bad_sample 0, good_sample 0],
      active_tick true env ∨ active_tick false env := by
    intro env he
    simp only [List.mem_cons, List.mem_singleton, List.not_mem_nil, or_false] at he
    rcases he with h | h | h <;> rw [h]
    · exact Or.inr (good_sample_active 0)
    · exact Or.inl (bad_sample_active 0)
    · exact Or.inr (good_sample_active 0)
  have h := C26_frozen_while_tripped (tripped 0) rfl
  have h2 := ((h.2 rfl [good_sample 0, bad_sample 0, good_sample 0] hall).1
    (by rw [hg]; decide))
  ⟨rfl, bad_sample_active 0, h.1 (bad_sample 0) (bad_sample_active 0),
    by rw [hg]; decide, h2.1, h2.2, hg⟩

/-- C27. No mode request after the trip tick: a tick requests a mode change
only if it changes bad_variance from false to true, in every state and so in
every run from the initial state; on a tick that starts with bad_variance =
true no mode change is requested, whatever the current mode requires. -/
theorem C27_mode_request_only_on_trip (envs : List TickEnv) (env : TickEnv) :
    (Effect.set_mode_hold ∈ (ekf_check env (run init envs)).2 →
        (run init envs).ekf_check_state.bad_variance = false ∧
        (ekf_check env (run init envs)).1.ekf_check_state.bad_variance = true) ∧
      (∀ s : State, s.ekf_check_state.bad_variance = true →
        ∀ e ∈ (ekf_check env s).2, Effect.is_mode_request e = false) := by
  refine ⟨mode_request_only_on_trip env _, ?_⟩
  intro s hb e he
  cases e with
  | Log_Write_Error sub code => rfl
  | send_text text => rfl
  | set_mode_hold =>
    have := (mode_request_only_on_trip env s he).1
    rw [hb] at this
    exact absurd this (by decide)

/-- Witness for C27: the trip tick of a mode that requires position requests
the hold mode and turns the flag from false to true; a bad tick of the same
mode on a tripped state requests nothing. -/
theorem C27_mode_request_only_on_trip_witness :
    Effect.set_mode_hold ∈
        (ekf_check (position_mode_sample 1000)
          (run init (List.replicate 9 (bad_sample 100)))).2 ∧
      (ekf_check (position_mode_sample 1000)
          (run init (List.replicate 9 (bad_sample 100)))).1.ekf_check_state.bad_variance
        = true ∧
      (tripped 0).ekf_check_state.bad_variance = true ∧
      ∀ e ∈ (ekf_check (position_mode_sample 2000) (tripped 0)).2,
        Effect.is_mode_request e = false :=
  have h9 := run_bad_below (List.replicate 9 (bad_sample 100)) init rfl
    (fun env he => by rw [List.eq_of_mem_replicate he]; exact bad_sample_active 100)
    (by decide)
  have hreq : Effect.set_mode_hold ∈
      (ekf_check (position_mode_sample 1000)
        (run init (List.replicate 9 (bad_sample 100)))).2 := by
    rw [ekf_check_bad_trip (position_mode_sample 1000) _ (position_mode_sample_active 1000)
      (by rw [h9.1]; rfl) (by rw [h9.1]; rfl), h9.2.1]
    simp [position_mode_sample, init]
  ⟨hreq,
    ((C27_mode_request_only_on_trip (List.replicate 9 (bad_sample 100))
      (position_mode_sample 1000)).1 hreq).2,
    rfl,
    (C27_mode_request_only_on_trip [] (position_mode_sample 2000)).2 (tripped 0) rfl⟩

end Rover

/-! ## Claims: MicroStrain7 health -/

namespace AP_ExternalAHRS_MicroStrain7

/-- C6. Health predicate: healthy returns true if and only if
now - last_ins_pkt < 40, now - last_gps_pkt < 500 and now - last_filter_pkt < 500
(differences of unsigned 32-bit milliseconds) and the filter state is GQ7_AHRS
(0x03) or GQ7_FULL_NAV (0x04); in particular an inertial packet aged 41 ms makes
it false whatever the rest, and three fresh packets with the attitude-only
state make it true. -/
theorem C6_healthy_iff (now : Nat) (b : Backend) :
    (healthy now b = true ↔
        (u32_sub now b.last_ins_pkt < 40 ∧ u32_sub now b.last_gps_pkt < 500 ∧
          u32_sub now b.last_filter_pkt < 500 ∧
          (b.filter_status_state = 0x03 ∨ b.filter_status_state = 0x04))) ∧
      GQ7_AHRS = 0x03 ∧ GQ7_FULL_NAV = 0x04 ∧
      (u32_sub now b.last_ins_pkt = 41 → healthy now b = false) ∧
      (u32_sub now b.last_ins_pkt < 40 → u32_sub now b.last_gps_pkt < 500 →
        u32_sub now b.last_filter_pkt < 500 → b.filter_status_state = GQ7_AHRS →
        healthy now b = true) := by
  have hiff : healthy now b = true ↔
      (u32_sub now b.last_ins_pkt < 40 ∧ u32_sub now b.last_gps_pkt < 500 ∧
        u32_sub now b.last_filter_pkt < 500 ∧
        (b.filter_status_state = 0x03 ∨ b.filter_status_state = 0x04)) := by
    simp only [healthy, GQ7_AHRS, GQ7_FULL_NAV, Bool.and_eq_true, Bool.or_eq_true,
      decide_eq_true_eq, beq_iff_eq]
    tauto
  refine ⟨hiff, rfl, rfl, ?_, ?_⟩
  · intro h41
    cases hh : healthy now b
    · rfl
    · have := (hiff.mp hh).1
      omega
  · intro h1 h2 h3 h4
    exact hiff.mpr ⟨h1, h2, h3, Or.inl h4⟩

/-- Witness for C6: at clock 1041 an inertial packet stamped 1000 (aged 41 ms)
with fresh GPS and filter packets and the full-nav state is unhealthy; stamped
1040 with the attitude-only state it is healthy; the ages are taken modulo
2^32, so a packet stamped 4294967290 is 16 ms old at clock 10. -/
theorem C6_healthy_iff_witness :
    u32_sub 1041 (sample_backend 1000 1041 1041 0x04 3).last_ins_pkt = 41 ∧
      healthy 1041 (sample_backend 1000 1041 1041 0x04 3) = false ∧
      healthy 1041 (sample_backend 1040 1000 1000 0x03 3) = true ∧
      healthy 10 (sample_backend 4294967290 4294967290 4294967290 0x03 3) = true :=
  have h41 : u32_sub 1041 (sample_backend 1000 1041 1041 0x04 3).last_ins_pkt = 41 := by
    decide
  ⟨h41,
    (C6_healthy_iff 1041 (sample_backend 1000 1041 1041 0x04 3)).2.2.2.1 h41,
    (C6_healthy_iff 1041 (sample_backend 1040 1000 1000 0x03 3)).2.2.2.2
      (by decide) (by decide) (by decide) rfl,
    (C6_healthy_iff 10 (sample_backend 4294967290 4294967290 4294967290 0x03 3)).2.2.2.2
      (by decide) (by decide) (by decide) rfl⟩

/-- C7 (failing input). A backend that is healthy (fresh packets, filter state
GQ7_AHRS), whose primary GNSS instance has a 3D fix and whose filter state is
at least GQ7_VERT_GYRO, is rejected by pre_arm_check with the message
filter not running: the final test compares the state with 0x02 only. -/
theorem C7_pre_arm_check_rejects_ready :
    healthy 1010 (sample_backend 1000 1000 1000 GQ7_AHRS 3) = true ∧
      ((sample_backend 1000 1000 1000 GQ7_AHRS 3).gnss_data 0).fix_type ≥ 3 ∧
      (sample_backend 1000 1000 1000 GQ7_AHRS 3).filter_status_state ≥ GQ7_VERT_GYRO ∧
      pre_arm_check 1010 (sample_backend 1000 1000 1000 GQ7_AHRS 3) =
        (false, some "MicroStrain7 filter not running") := by
  refine ⟨by decide, by decide, by decide, ?_⟩
  have hh : healthy 1010 (sample_backend 1000 1000 1000 GQ7_AHRS 3) = true := by decide
  simp only [pre_arm_check, hh]
  simp [sample_backend, GQ7_AHRS]

end AP_ExternalAHRS_MicroStrain7

/-! ## Auxiliary lemmas: the ingestion path -/

namespace AP_ExternalAHRS_MicroStrain7

/-- The loop of `post_filter` keeps an origin that is already set. -/
theorem post_filter_loop_keeps_origin (f : filter_data_t) (gnss : Nat → gnss_data_t)
    (count inst : Nat) (st : state_t) (h : st.have_origin = true) :
    (post_filter_loop f gnss count inst st).1.have_origin = true ∧
      (post_filter_loop f gnss count inst st).1.origin = st.origin := by
  induction count generalizing inst st with
  | zero => exact ⟨h, rfl⟩
  | succ n ih =>
    have hstep : (post_filter_instance f gnss inst st).1 = st := by
      simp [post_filter_instance, h]
    simp only [post_filter_loop, hstep]
    exact ih (inst + 1) st h

/-- The `switch` keeps an origin that is already set, and never touches the
port or the base-class part. -/
theorem dispatch_keeps_origin {σ : Type} (cfg : Config) (D : Decoder σ)
    (d : DescriptorSet) (drv : Driver σ) (h : drv.state.have_origin = true) :
    (dispatch cfg D d drv).1.state.have_origin = true ∧
      (dispatch cfg D d drv).1.state.origin = drv.state.origin := by
  cases d <;> simp only [dispatch, post_imu, post_filter, h, and_self]
  exact post_filter_loop_keeps_origin _ _ _ _ _ rfl

theorem dispatch_uart {σ : Type} (cfg : Config) (D : Decoder σ)
    (d : DescriptorSet) (drv : Driver σ) :
    (dispatch cfg D d drv).1.uart = drv.uart ∧
      (dispatch cfg D d drv).1.base = drv.base ∧
      (dispatch cfg D d drv).1.port_open = drv.port_open := by
  cases d <;> simp [dispatch, post_imu, post_filter]

theorem feed_byte_keeps_origin {σ : Type} (cfg : Config) (D : Decoder σ)
    (b : Nat) (drv : Driver σ) (h : drv.state.have_origin = true) :
    (feed_byte cfg D b drv).1.state.have_origin = true ∧
      (feed_byte cfg D b drv).1.state.origin = drv.state.origin := by
  simp only [feed_byte]
  cases hd : (D.handle_byte drv.base b).2 with
  | none => exact ⟨h, rfl⟩
  | some d =>
    exact dispatch_keeps_origin cfg D d { drv with base := (D.handle_byte drv.base b).1 } h

theorem feed_byte_uart {σ : Type} (cfg : Config) (D : Decoder σ)
    (b : Nat) (drv : Driver σ) :
    (feed_byte cfg D b drv).1.uart = drv.uart ∧
      (feed_byte cfg D b drv).1.port_open = drv.port_open := by
  simp only [feed_byte]
  cases hd : (D.handle_byte drv.base b).2 with
  | none => exact ⟨rfl, rfl⟩
  | some d =>
    have h := dispatch_uart cfg D d { drv with base := (D.handle_byte drv.base b).1 }
    exact ⟨h.1, h.2.2⟩

theorem feed_all_keeps_origin {σ : Type} (cfg : Config) (D : Decoder σ)
    (bytes : List Nat) (drv : Driver σ) (h : drv.state.have_origin = true) :
    (feed_all cfg D bytes drv).1.state.have_origin = true ∧
      (feed_all cfg D bytes drv).1.state.origin = drv.state.origin := by
  induction bytes generalizing drv with
  | nil => exact ⟨h, rfl⟩
  | cons b bytes ih =>
    have h1 := feed_byte_keeps_origin cfg D b drv h
    have h2 := ih (feed_byte cfg D b drv).1 h1.1
    simp only [feed_all]
    exact ⟨h2.1, h2.2.trans h1.2⟩

theorem feed_all_uart {σ : Type} (cfg : Config) (D : Decoder σ)
    (bytes : List Nat) (drv : Driver σ) :
    (feed_all cfg D bytes drv).1.uart = drv.uart ∧
      (feed_all cfg D bytes drv).1.port_open = drv.port_open := by
  induction bytes generalizing drv with
  | nil => exact ⟨rfl, rfl⟩
  | cons b bytes ih =>
    have h1 := feed_byte_uart cfg D b drv
    have h2 := ih (feed_byte cfg D b drv).1
    simp only [feed_all]
    exact ⟨h2.1.trans h1.1, h2.2.trans h1.2⟩

/-- Feeding a concatenation is feeding the first part, then the second from
where the first left the object. -/
theorem feed_all_append {σ : Type} (cfg : Config) (D : Decoder σ)
    (a b : List Nat) (drv : Driver σ) :
    feed_all cfg D (a ++ b) drv =
      ((feed_all cfg D b (feed_all cfg D a drv).1).1,
        (feed_all cfg D a drv).2.1 ++ (feed_all cfg D b (feed_all cfg D a drv).1).2.1,
        (feed_all cfg D a drv).2.2 ++ (feed_all cfg D b (feed_all cfg D a drv).1).2.2) := by
  induction a generalizing drv with
  | nil => simp [feed_all]
  | cons x a ih => simp [feed_all, ih, List.append_assoc]

/-- The loop of `build_packet` feeds the first `nbytes` bytes of the receive
buffer, in order, and leaves the rest in the buffer. -/
theorem build_packet_loop_eq {σ : Type} (cfg : Config) (D : Decoder σ)
    (nbytes : Nat) (rx : List Nat) (drv : Driver σ) :
    build_packet_loop cfg D nbytes rx drv =
      (rx.drop nbytes, feed_all cfg D (rx.take nbytes) drv) := by
  induction nbytes generalizing rx drv with
  | zero => simp [build_packet_loop, feed_all]
  | succ n ih =>
    cases rx with
    | nil => simp [build_packet_loop, feed_all]
    | cons b rx => simp [build_packet_loop, feed_all, ih]

end AP_ExternalAHRS_MicroStrain7

namespace AP_ExternalAHRS_MicroStrain7

theorem agree_refl {σ : Type} (d : Driver σ) : agree d d :=
  ⟨rfl, rfl⟩

theorem agree_trans {σ : Type} {d1 d2 d3 : Driver σ} (h1 : agree d1 d2) (h2 : agree d2 d3) :
    agree d1 d3 :=
  ⟨h1.1.trans h2.1, h1.2.trans h2.2⟩

/-- The `switch` reads only the base-class part and the navigation state. -/
theorem dispatch_congr {σ : Type} (cfg : Config) (D : Decoder σ) (d : DescriptorSet)
    (d1 d2 : Driver σ) (h : agree d1 d2) :
    agree (dispatch cfg D d d1).1 (dispatch cfg D d d2).1 ∧
      (dispatch cfg D d d1).2 = (dispatch cfg D d d2).2 := by
  obtain ⟨hb, hs⟩ := h
  cases d <;> simp [dispatch, post_imu, post_filter, agree, hb, hs]

theorem feed_byte_congr {σ : Type} (cfg : Config) (D : Decoder σ) (b : Nat)
    (d1 d2 : Driver σ) (h : agree d1 d2) :
    agree (feed_byte cfg D b d1).1 (feed_byte cfg D b d2).1 ∧
      (feed_byte cfg D b d1).2 = (feed_byte cfg D b d2).2 := by
  obtain ⟨hb, hs⟩ := h
  simp only [feed_byte, hb]
  cases hd : (D.handle_byte d2.base b).2 with
  | none => exact ⟨⟨rfl, hs⟩, rfl⟩
  | some d =>
    have h := dispatch_congr cfg D d { d1 with base := (D.handle_byte d2.base b).1 }
      { d2 with base := (D.handle_byte d2.base b).1 } ⟨rfl, hs⟩
    exact ⟨h.1, by simp only [h.2]⟩

theorem feed_all_congr {σ : Type} (cfg : Config) (D : Decoder σ) (bytes : List Nat)
    (d1 d2 : Driver σ) (h : agree d1 d2) :
    agree (feed_all cfg D bytes d1).1 (feed_all cfg D bytes d2).1 ∧
      (feed_all cfg D bytes d1).2 = (feed_all cfg D bytes d2).2 := by
  induction bytes generalizing d1 d2 with
  | nil => exact ⟨h, rfl⟩
  | cons b bytes ih =>
    have h1 := feed_byte_congr cfg D b d1 d2 h
    have h2 := ih _ _ h1.1
    simp only [feed_all]
    refine ⟨h2.1, ?_⟩
    have e1 : (feed_byte cfg D b d1).2.1 = (feed_byte cfg D b d2).2.1 := by rw [h1.2]
    have e2 : (feed_byte cfg D b d1).2.2 = (feed_byte cfg D b d2).2.2 := by rw [h1.2]
    have e3 := congrArg Prod.fst h2.2
    have e4 := congrArg Prod.snd h2.2
    rw [e1, e2, e3, e4]

/-- One pass of `build_packet` on an object with a port: it feeds the first
`min(available, 2048)` bytes of the receive buffer and leaves the rest. -/
theorem build_packet_eq {σ : Type} (cfg : Config) (D : Decoder σ) (drv : Driver σ)
    (rx : List Nat) (hu : drv.uart = some rx) :
    build_packet cfg D drv =
      ({ (feed_all cfg D (rx.take (min (rx.length % 4294967296) 2048)) drv).1 with
          uart := some (rx.drop (min (rx.length % 4294967296) 2048)) },
        (feed_all cfg D (rx.take (min (rx.length % 4294967296) 2048)) drv).2) := by
  simp only [build_packet, hu, build_packet_loop_eq]

/-- One pass of `build_packet` on an object without port does nothing. -/
theorem build_packet_no_uart {σ : Type} (cfg : Config) (D : Decoder σ) (drv : Driver σ)
    (hu : drv.uart = none) : build_packet cfg D drv = (drv, [], []) := by
  simp only [build_packet, hu]

theorem passes_no_uart {σ : Type} (cfg : Config) (D : Decoder σ)
    (chunks : List (List Nat)) (drv : Driver σ) (hu : drv.uart = none) :
    passes cfg D chunks drv = (drv, [], []) := by
  induction chunks with
  | nil => rfl
  | cons c cs ih =>
    have hr : receive c drv = drv := by simp [receive, hu]
    simp only [passes, hr, build_packet_no_uart cfg D drv hu, ih, List.append_nil]

theorem passes_append {σ : Type} (cfg : Config) (D : Decoder σ)
    (a b : List (List Nat)) (drv : Driver σ) :
    passes cfg D (a ++ b) drv =
      ((passes cfg D b (passes cfg D a drv).1).1,
        (passes cfg D a drv).2.1 ++ (passes cfg D b (passes cfg D a drv).1).2.1,
        (passes cfg D a drv).2.2 ++ (passes cfg D b (passes cfg D a drv).1).2.2) := by
  induction a generalizing drv with
  | nil => simp [passes]
  | cons x a ih => simp [passes, ih, List.append_assoc]

end AP_ExternalAHRS_MicroStrain7

namespace AP_ExternalAHRS_MicroStrain7

theorem receive_uart {σ : Type} (chunk : List Nat) (drv : Driver σ) (rx : List Nat)
    (hu : drv.uart = some rx) :
    (receive chunk drv).uart = some (rx ++ chunk) ∧ agree (receive chunk drv) drv ∧
      (receive chunk drv).port_open = drv.port_open := by
  simp [receive, hu, agree]

/-- What a session has done after its passes: it has fed some first part of
the bytes received so far (those in the buffer at the start and the chunks, in
order) exactly as one uninterrupted feed would, and the rest is still in the
receive buffer. -/
theorem passes_spec {σ : Type} (cfg : Config) (D : Decoder σ)
    (chunks : List (List Nat)) (drv : Driver σ) (rx0 : List Nat)
    (hu : drv.uart = some rx0) :
    ∃ k, k ≤ (rx0 ++ chunks.flatten).length ∧
      (passes cfg D chunks drv).1.uart = some ((rx0 ++ chunks.flatten).drop k) ∧
      (passes cfg D chunks drv).1.port_open = drv.port_open ∧
      agree (passes cfg D chunks drv).1
        (feed_all cfg D ((rx0 ++ chunks.flatten).take k) drv).1 ∧
      (passes cfg D chunks drv).2 =
        (feed_all cfg D ((rx0 ++ chunks.flatten).take k) drv).2 := by
  induction chunks generalizing drv rx0 with
  | nil =>
    refine ⟨0, Nat.zero_le _, ?_, rfl, ?_, ?_⟩
    · simp [passes, hu]
    · simp only [passes, List.take_zero, feed_all]
      exact agree_refl drv
    · simp only [passes, List.take_zero, feed_all]
  | cons c cs ih =>
    obtain ⟨hu1, hag1, hpo1⟩ := receive_uart c drv rx0 hu
    have hbp := build_packet_eq cfg D (receive c drv) (rx0 ++ c) hu1
    generalize hn : min ((rx0 ++ c).length % 4294967296) 2048 = n at hbp
    have hnle : n ≤ (rx0 ++ c).length := by
      rw [← hn]
      exact le_trans (Nat.min_le_left _ _) (Nat.mod_le _ _)
    obtain ⟨k, hk, hku, hkp, hka, hko⟩ := ih (build_packet cfg D (receive c drv)).1
      ((rx0 ++ c).drop n) (by rw [hbp])
    have hall : rx0 ++ (c :: cs).flatten = (rx0 ++ c) ++ cs.flatten := by
      simp [List.flatten]
    have hdrop : (rx0 ++ (c :: cs).flatten).drop (n + k) =
        ((rx0 ++ c).drop n ++ cs.flatten).drop k := by
      rw [hall, ← List.drop_drop, List.drop_append_of_le_length hnle]
    have htake : (rx0 ++ (c :: cs).flatten).take (n + k) =
        (rx0 ++ c).take n ++ ((rx0 ++ c).drop n ++ cs.flatten).take k := by
      rw [hall, List.take_add, List.take_append_of_le_length hnle,
        List.drop_append_of_le_length hnle]
    -- the first pass, seen from the object before the chunk arrived
    have hfirst := feed_all_congr cfg D ((rx0 ++ c).take n) (receive c drv) drv hag1
    have hag2 : agree (build_packet cfg D (receive c drv)).1
        (feed_all cfg D ((rx0 ++ c).take n) drv).1 := by
      rw [hbp]
      exact ⟨hfirst.1.1, hfirst.1.2⟩
    have hrest := feed_all_congr cfg D (((rx0 ++ c).drop n ++ cs.flatten).take k)
      (build_packet cfg D (receive c drv)).1 (feed_all cfg D ((rx0 ++ c).take n) drv).1 hag2
    have hout1 : (build_packet cfg D (receive c drv)).2 =
        (feed_all cfg D ((rx0 ++ c).take n) drv).2 := by
      rw [hbp]
      exact hfirst.2
    refine ⟨n + k, ?_, ?_, ?_, ?_, ?_⟩
    · have h1 : ((rx0 ++ c).drop n ++ cs.flatten).length + n =
          (rx0 ++ (c :: cs).flatten).length := by
        rw [hall]
        simp only [List.length_append, List.length_drop] at hnle ⊢
        omega
      omega
    · simp only [passes]
      rw [hku, hdrop]
    · simp only [passes]
      rw [hkp, hbp]
      simp only
      rw [(feed_all_uart cfg D _ _).2, hpo1]
    · simp only [passes]
      rw [htake, feed_all_append]
      exact agree_trans hka hrest.1
    · simp only [passes]
      rw [htake, feed_all_append, hko, hrest.2, hout1]

/-- A session whose chunks each fit in one pass, started with an empty receive
buffer, ends with an empty receive buffer. -/
theorem passes_drains {σ : Type} (cfg : Config) (D : Decoder σ)
    (chunks : List (List Nat)) (drv : Driver σ) (hu : drv.uart = some [])
    (hfit : ∀ c ∈ chunks, c.length ≤ 2048) :
    (passes cfg D chunks drv).1.uart = some [] := by
  induction chunks generalizing drv with
  | nil => exact hu
  | cons c cs ih =>
    have hc := hfit c (List.mem_cons_self _ _)
    obtain ⟨hu1, _, _⟩ := receive_uart c drv [] hu
    have hbp := build_packet_eq cfg D (receive c drv) ([] ++ c) hu1
    have hn : min (([] ++ c).length % 4294967296) 2048 = c.length := by
      simp only [List.nil_append]
      omega
    simp only [passes]
    apply ih _ _ (fun x hx => hfit x (List.mem_cons_of_mem _ hx))
    rw [hbp, hn]
    simp

end AP_ExternalAHRS_MicroStrain7

namespace AP_ExternalAHRS_MicroStrain7

theorem driver_ext {σ : Type} (d1 d2 : Driver σ) (hu : d1.uart = d2.uart)
    (hp : d1.port_open = d2.port_open) (h : agree d1 d2) : d1 = d2 := by
  cases d1
  cases d2
  obtain ⟨hb, hs⟩ := h
  simp only at hu hp hb hs
  simp [hu, hp, hb, hs]

/-- A session that has emptied the receive buffer has done exactly what one
uninterrupted feed of all its bytes does. -/
theorem passes_drained_eq {σ : Type} (cfg : Config) (D : Decoder σ)
    (chunks : List (List Nat)) (drv : Driver σ) (hu : drv.uart = some [])
    (hdrain : (passes cfg D chunks drv).1.uart = some []) :
    passes cfg D chunks drv = feed_all cfg D chunks.flatten drv := by
  obtain ⟨k, hk, hku, hkp, hka, hko⟩ := passes_spec cfg D chunks drv [] hu
  simp only [List.nil_append] at hk hku hka hko
  have hd : chunks.flatten.drop k = [] := by
    rw [hku] at hdrain
    exact Option.some.inj hdrain
  have hk2 : chunks.flatten.length ≤ k := List.drop_eq_nil_iff.mp hd
  have ht : chunks.flatten.take k = chunks.flatten := List.take_of_length_le hk2
  rw [ht] at hka hko
  have hfu := feed_all_uart cfg D chunks.flatten drv
  have h1 : (passes cfg D chunks drv).1 = (feed_all cfg D chunks.flatten drv).1 :=
    driver_ext _ _ (by rw [hdrain, hfu.1, hu]) (by rw [hkp, hfu.2]) hka
  exact Prod.ext h1 hko

end AP_ExternalAHRS_MicroStrain7

/-! ## Claims: the MicroStrain7 ingestion path and readiness -/

namespace AP_ExternalAHRS_MicroStrain7

/-- C15. Initialised predicate: initialised returns true if and only if each
of last_ins_pkt, last_gps_pkt and last_filter_pkt is non-zero and the filter
state is GQ7_AHRS (0x03) or GQ7_FULL_NAV (0x04); the function reads no clock,
so its value is the same at every time. -/
theorem C15_initialised_iff (b : Backend) :
    (initialised b = true ↔
        (b.last_ins_pkt ≠ 0 ∧ b.last_gps_pkt ≠ 0 ∧ b.last_filter_pkt ≠ 0 ∧
          (b.filter_status_state = GQ7_AHRS ∨ b.filter_status_state = GQ7_FULL_NAV))) ∧
      GQ7_AHRS = 0x03 ∧ GQ7_FULL_NAV = 0x04 := by
  refine ⟨?_, rfl, rfl⟩
  simp only [initialised, GQ7_AHRS, GQ7_FULL_NAV, Bool.and_eq_true, Bool.or_eq_true,
    bne_iff_ne, beq_iff_eq, ne_eq]
  tauto

/-- C16. Pre-arm failure reason: if healthy is false the result is false with
the message MicroStrain7 unhealthy, whatever the fix type and filter state; if
healthy and gnss_data[0].fix_type < 3 it is false with MicroStrain7 no GPS
lock; otherwise, whenever the result is false, the message is MicroStrain7
filter not running; and no message is written exactly when the result is
true. -/
theorem C16_pre_arm_failure_reason (now : Nat) (b : Backend) :
    (healthy now b = false →
        pre_arm_check now b = (false, some "MicroStrain7 unhealthy")) ∧
      (healthy now b = true → (b.gnss_data 0).fix_type < 3 →
        pre_arm_check now b = (false, some "MicroStrain7 no GPS lock")) ∧
      (healthy now b = true → 3 ≤ (b.gnss_data 0).fix_type →
        (pre_arm_check now b).1 = false →
        pre_arm_check now b = (false, some "MicroStrain7 filter not running")) ∧
      ((pre_arm_check now b).2 = none ↔ (pre_arm_check now b).1 = true) := by
  refine ⟨?_, ?_, ?_, ?_⟩
  · intro hh
    simp [pre_arm_check, hh]
  · intro hh hfix
    simp [pre_arm_check, hh, hfix]
  · intro hh hfix hres
    have hnot : ¬ ((b.gnss_data 0).fix_type < 3) := by omega
    by_cases hs : b.filter_status_state = 2
    · simp [pre_arm_check, hh, hnot, hs] at hres
    · simp [pre_arm_check, hh, hnot, hs]
  · cases hh : healthy now b
    · simp [pre_arm_check, hh]
    · by_cases hfix : (b.gnss_data 0).fix_type < 3
      · simp [pre_arm_check, hh, hfix]
      · by_cases hs : b.filter_status_state = 2
        · simp [pre_arm_check, hh, hfix, hs]
        · simp [pre_arm_check, hh, hfix, hs]

/-- Witness for C16: a stale backend, a healthy one without 3D fix, and a
healthy one with a 3D fix. -/
theorem C16_pre_arm_failure_reason_witness :
    healthy 5000 (sample_backend 1000 1000 1000 GQ7_FULL_NAV 3) = false ∧
      pre_arm_check 5000 (sample_backend 1000 1000 1000 GQ7_FULL_NAV 3) =
        (false, some "MicroStrain7 unhealthy") ∧
      healthy 1010 (sample_backend 1000 1000 1000 GQ7_FULL_NAV 2) = true ∧
      pre_arm_check 1010 (sample_backend 1000 1000 1000 GQ7_FULL_NAV 2) =
        (false, some "MicroStrain7 no GPS lock") ∧
      healthy 1010 (sample_backend 1000 1000 1000 GQ7_FULL_NAV 3) = true ∧
      (pre_arm_check 1010 (sample_backend 1000 1000 1000 GQ7_FULL_NAV 3)).1 = false ∧
      pre_arm_check 1010 (sample_backend 1000 1000 1000 GQ7_FULL_NAV 3) =
        (false, some "MicroStrain7 filter not running") :=
  have h1 : healthy 5000 (sample_backend 1000 1000 1000 GQ7_FULL_NAV 3) = false := by decide
  have h2 : healthy 1010 (sample_backend 1000 1000 1000 GQ7_FULL_NAV 2) = true := by decide
  have h3 : healthy 1010 (sample_backend 1000 1000 1000 GQ7_FULL_NAV 3) = true := by decide
  have h4 : (pre_arm_check 1010 (sample_backend 1000 1000 1000 GQ7_FULL_NAV 3)).1 = false := by
    simp only [pre_arm_check, h3]
    simp [sample_backend, GQ7_FULL_NAV]
  ⟨h1, (C16_pre_arm_failure_reason 5000 _).1 h1,
    h2, (C16_pre_arm_failure_reason 1010 _).2.1 h2 (by decide),
    h3, h4, (C16_pre_arm_failure_reason 1010 _).2.2.1 h3 (by decide) h4⟩

end AP_ExternalAHRS_MicroStrain7

namespace AP_ExternalAHRS_MicroStrain7

/-- C17. Unavailable subsystem: when no serial port is found at construction
(uart is null) the constructor starts no ingestion thread; every call of
build_packet then returns at once, reading no byte and dispatching nothing, so
the object never changes; and, the health members being unset before the first
packet, healthy (at every clock value) and initialised return false after any
number of passes. -/
theorem C17_unavailable {σ : Type} (cfg : Config) (D : Decoder σ) (thread_ok : Bool)
    (base0 : σ) (state0 : state_t) (h0 : unset_members (D.members base0)) :
    InitEffect.thread_create ∉ (construct none thread_ok base0 state0).2 ∧
      (construct none thread_ok base0 state0).1.uart = none ∧
      build_packet cfg D (construct none thread_ok base0 state0).1 =
        ((construct none thread_ok base0 state0).1, [], []) ∧
      ∀ (chunks : List (List Nat)) (now : Nat),
        passes cfg D chunks (construct none thread_ok base0 state0).1 =
          ((construct none thread_ok base0 state0).1, [], []) ∧
        healthy now (D.members
          (passes cfg D chunks (construct none thread_ok base0 state0).1).1.base) = false ∧
        initialised (D.members
          (passes cfg D chunks (construct none thread_ok base0 state0).1).1.base) = false := by
  have hu : (construct none thread_ok base0 state0).1.uart = none := rfl
  refine ⟨by simp [construct], hu, build_packet_no_uart cfg D _ hu, ?_⟩
  intro chunks now
  have hp := passes_no_uart cfg D chunks _ hu
  obtain ⟨_, _, _, hs⟩ := h0
  rw [hp]
  refine ⟨rfl, ?_, ?_⟩
  · simp [healthy, construct, hs, GQ7_AHRS, GQ7_FULL_NAV]
  · simp [initialised, construct, hs, GQ7_AHRS, GQ7_FULL_NAV]

/-- Witness for C17: a construction without port, then two chunks of bytes
that would carry a frame; nothing is dispatched and the backend is unhealthy
at clock 10 and not initialised. -/
theorem C17_unavailable_witness :
    unset_members ((pair_decoder 0 0).members false) ∧
      InitEffect.thread_create ∉ (construct none true false zero_state).2 ∧
      passes sample_config (pair_decoder 0 0) [[0x75], [0x80]]
          (construct none true false zero_state).1 =
        ((construct none true false zero_state).1, [], []) ∧
      healthy 10 ((pair_decoder 0 0).members
        (passes sample_config (pair_decoder 0 0) [[0x75], [0x80]]
          (construct none true false zero_state).1).1.base) = false :=
  have h0 : unset_members ((pair_decoder 0 0).members false) := ⟨rfl, rfl, rfl, rfl⟩
  have h := C17_unavailable sample_config (pair_decoder 0 0) true false zero_state h0
  ⟨h0, h.1, (h.2.2.2 [[0x75], [0x80]] 10).1, (h.2.2.2 [[0x75], [0x80]] 10).2.1⟩

/-- C18. Origin latch: once state.have_origin is true, the dispatch of any
decoded frame (post_imu, post_filter with any fix types and any position, or an
ignored descriptor) leaves state.origin unchanged and have_origin true; hence
over a session, once have_origin is true after some pass it is true with the
same origin after every later pass, so it goes from false to true at most
once. -/
theorem C18_origin_latch {σ : Type} (cfg : Config) (D : Decoder σ) (drv : Driver σ) :
    (∀ d : DescriptorSet, drv.state.have_origin = true →
        (dispatch cfg D d drv).1.state.origin = drv.state.origin ∧
        (dispatch cfg D d drv).1.state.have_origin = true) ∧
      (∀ pre post : List (List Nat),
        (passes cfg D pre drv).1.state.have_origin = true →
        (passes cfg D (pre ++ post) drv).1.state.have_origin = true ∧
        (passes cfg D (pre ++ post) drv).1.state.origin =
          (passes cfg D pre drv).1.state.origin) := by
  constructor
  · intro d h
    exact ⟨(dispatch_keeps_origin cfg D d drv h).2, (dispatch_keeps_origin cfg D d drv h).1⟩
  · intro pre post h
    rw [passes_append]
    simp only
    generalize (passes cfg D pre drv).1 = mid at h
    cases hu : mid.uart with
    | none =>
      rw [passes_no_uart cfg D post mid hu]
      exact ⟨h, rfl⟩
    | some rx0 =>
      obtain ⟨k, _, _, _, hka, _⟩ := passes_spec cfg D post mid rx0 hu
      have hf := feed_all_keeps_origin cfg D ((rx0 ++ post.flatten).take k) mid h
      rw [hka.2]
      exact hf

/-- Witness for C18: with the origin set at (1, 2, 3), a filter frame carrying
a 3D fix at the different position (50, 60, 12300) leaves the origin as it
was. -/
theorem C18_origin_latch_witness :
    sample_driver_with_origin.state.have_origin = true ∧
      (dispatch sample_config (pair_decoder 50 60) DescriptorSet.FilterData
          sample_driver_with_origin).1.state.origin =
        { lat := 1, lng := 2, alt := 3, frame := AltFrame.ABSOLUTE } ∧
      (dispatch sample_config (pair_decoder 50 60) DescriptorSet.FilterData
          sample_driver_with_origin).1.state.location =
        { lat := 50, lng := 60, alt := 12300, frame := AltFrame.ABSOLUTE } :=
  ⟨rfl,
    ((C18_origin_latch sample_config (pair_decoder 50 60) sample_driver_with_origin).1
      DescriptorSet.FilterData rfl).1,
    rfl⟩

/-- C20. Decoder reentrancy under fragmentation: the decoder is fed one byte
at a time and keeps its state in the object between passes, so for a byte
sequence split at arbitrary boundaries into chunks that arrive before
successive passes of build_packet, once the passes have read all the bytes the
frames dispatched, the publisher calls and the object are exactly those of
feeding the whole sequence without interruption; this is the case when every
chunk fits in one pass (at most 2048 bytes), in particular for the unsplit
sequence read in one pass. -/
theorem C20_decoder_reentrancy {σ : Type} (cfg : Config) (D : Decoder σ)
    (drv : Driver σ) (bytes : List Nat) (chunks : List (List Nat))
    (hu : drv.uart = some []) (hsplit : chunks.flatten = bytes) :
    ((passes cfg D chunks drv).1.uart = some [] →
        passes cfg D chunks drv = feed_all cfg D bytes drv) ∧
      ((∀ c ∈ chunks, c.length ≤ 2048) →
        passes cfg D chunks drv = feed_all cfg D bytes drv) ∧
      (bytes.length ≤ 2048 →
        passes cfg D [bytes] drv = feed_all cfg D bytes drv) ∧
      ((∀ c ∈ chunks, c.length ≤ 2048) → bytes.length ≤ 2048 →
        passes cfg D chunks drv = passes cfg D [bytes] drv) := by
  have hA : (passes cfg D chunks drv).1.uart = some [] →
      passes cfg D chunks drv = feed_all cfg D bytes drv := by
    intro hd
    rw [← hsplit]
    exact passes_drained_eq cfg D chunks drv hu hd
  have hB : (∀ c ∈ chunks, c.length ≤ 2048) →
      passes cfg D chunks drv = feed_all cfg D bytes drv :=
    fun hfit => hA (passes_drains cfg D chunks drv hu hfit)
  have hC : bytes.length ≤ 2048 → passes cfg D [bytes] drv = feed_all cfg D bytes drv := by
    intro hlen
    have hfit : ∀ c ∈ [bytes], c.length ≤ 2048 := by
      intro c hc
      rw [List.mem_singleton.mp hc]
      exact hlen
    have h := passes_drained_eq cfg D [bytes] drv hu (passes_drains cfg D [bytes] drv hu hfit)
    simpa using h
  exact ⟨hA, hB, hC, fun hfit hlen => (hB hfit).trans (hC hlen).symm⟩

/-- Witness for C20: the two frames 75 80 and 75 82 (hexadecimal) split in the
middle of each frame over three passes dispatch the same two frames as the
unsplit sequence read in one pass. -/
theorem C20_decoder_reentrancy_witness :
    sample_driver.uart = some [] ∧
      [[0x75], [0x80, 0x75], [0x82]].flatten = [0x75, 0x80, 0x75, 0x82] ∧
      passes sample_config (pair_decoder 50 60) [[0x75], [0x80, 0x75], [0x82]] sample_driver =
        passes sample_config (pair_decoder 50 60) [[0x75, 0x80, 0x75, 0x82]] sample_driver ∧
      (passes sample_config (pair_decoder 50 60) [[0x75, 0x80, 0x75, 0x82]]
          sample_driver).2.1 =
        [DescriptorSet.IMUData, DescriptorSet.FilterData] :=
  ⟨rfl, rfl,
    (C20_decoder_reentrancy sample_config (pair_decoder 50 60) sample_driver
      [0x75, 0x80, 0x75, 0x82] [[0x75], [0x80, 0x75], [0x82]] rfl rfl).2.2.2
      (by decide) (by decide),
    by decide⟩

end AP_ExternalAHRS_MicroStrain7

/-! ## Auxiliary lemmas: `post_filter` -/

namespace AP_ExternalAHRS_MicroStrain7

/-- The loop of `post_filter` entered without origin: the origin is taken from
the first instance, in index order, whose fix type (as the `uint8_t` put in the
GPS message) is at least 3, and nothing changes if there is none. -/
theorem post_filter_loop_first_fix (f : filter_data_t) (gnss : Nat → gnss_data_t)
    (count inst : Nat) (st : state_t) (h : st.have_origin = false) :
    (∀ i, inst ≤ i → i < inst + count → 3 ≤ (gnss i).fix_type % 256 →
        (∀ j, inst ≤ j → j < i → (gnss j).fix_type % 256 < 3) →
        (post_filter_loop f gnss count inst st).1 =
          { st with
            origin := { lat := f.lat, lng := f.lon, alt := (gnss i).msl_altitude,
                        frame := AltFrame.ABSOLUTE },
            have_origin := true }) ∧
      ((∀ j, inst ≤ j → j < inst + count → (gnss j).fix_type % 256 < 3) →
        (post_filter_loop f gnss count inst st).1 = st) := by
  induction count generalizing inst st with
  | zero =>
    refine ⟨?_, fun _ => rfl⟩
    intro i h1 h2
    omega
  | succ n ih =>
    by_cases hfix : 3 ≤ (gnss inst).fix_type % 256
    · have hstep : (post_filter_instance f gnss inst st).1 =
          { st with
            origin := { lat := f.lat, lng := f.lon, alt := (gnss inst).msl_altitude,
                        frame := AltFrame.ABSOLUTE },
            have_origin := true } := by
        simp [post_filter_instance, gps_message, h, hfix]
      have hkeep := post_filter_loop_keeps_origin f gnss n (inst + 1)
        (post_filter_instance f gnss inst st).1 (by rw [hstep])
      have hrest : ∀ (k m : Nat) (s : state_t), s.have_origin = true →
          (post_filter_loop f gnss k m s).1 = s := by
        intro k
        induction k with
        | zero => intro m s _; rfl
        | succ k ihk =>
          intro m s hs
          have h1 : (post_filter_instance f gnss m s).1 = s := by
            simp [post_filter_instance, hs]
          simp only [post_filter_loop, h1]
          exact ihk (m + 1) s hs
      constructor
      · intro i h1 h2 h3 h4
        have hi : i = inst := by
          by_contra hne
          have := h4 inst (le_refl _) (by omega)
          omega
        subst hi
        simp only [post_filter_loop]
        rw [hrest n (i + 1) _ (by rw [hstep]), hstep]
      · intro hnone
        have := hnone inst (le_refl _) (by omega)
        omega
    · have hstep : (post_filter_instance f gnss inst st).1 = st := by
        simp [post_filter_instance, gps_message, hfix]
      have ih1 := ih (inst + 1) st h
      constructor
      · intro i h1 h2 h3 h4
        have hi : inst + 1 ≤ i := by
          by_contra hlt
          have hi2 : i = inst := by omega
          rw [hi2] at h3
          exact hfix h3
        simp only [post_filter_loop, hstep]
        exact ih1.1 i hi (by omega) h3 (fun j hj1 hj2 => h4 j (by omega) hj2)
      · intro hnone
        simp only [post_filter_loop, hstep]
        exact ih1.2 (fun j hj1 hj2 => hnone j (by omega) (by omega))

/-- The loop of `post_filter` calls the GNSS publisher once per instance, in
index order, with the message built for that instance. -/
theorem post_filter_loop_publishes (f : filter_data_t) (gnss : Nat → gnss_data_t)
    (count inst : Nat) (st : state_t) :
    (post_filter_loop f gnss count inst st).2 =
      (List.range' inst count).map
        (fun i => Publish.gps_handle_external (gps_message f (gnss i)) i) := by
  induction count generalizing inst st with
  | zero => rfl
  | succ n ih =>
    simp only [post_filter_loop, List.range'_succ, List.map_cons]
    rw [ih]
    simp [post_filter_instance]

/-- Among the instances below a bound, if one has a fix type of at least 3
there is a lowest such instance. -/
theorem lowest_fix (fix : Nat → Nat) (n : Nat) (h : ∃ i, i < n ∧ 3 ≤ fix i) :
    ∃ i, i < n ∧ 3 ≤ fix i ∧ ∀ j, j < i → fix j < 3 := by
  induction n with
  | zero =>
    obtain ⟨i, hi, _⟩ := h
    omega
  | succ n ih =>
    by_cases hlow : ∃ i, i < n ∧ 3 ≤ fix i
    · obtain ⟨i, hi, h3, hmin⟩ := ih hlow
      exact ⟨i, by omega, h3, hmin⟩
    · obtain ⟨i, hi, h3⟩ := h
      have hin : i = n := by
        by_contra hne
        exact hlow ⟨i, by omega, h3⟩
      subst hin
      refine ⟨i, by omega, h3, ?_⟩
      intro j hj
      by_contra hge
      exact hlow ⟨j, hj, by omega⟩

end AP_ExternalAHRS_MicroStrain7

/-! ## Claims: `post_filter`, the dispatch and the pre-arm check -/

namespace AP_ExternalAHRS_MicroStrain7

/-- C22. First-valid-fix-wins origin: when post_filter runs with
state.have_origin false (fix types being 8-bit values), if some GNSS instance
has fix_type >= 3 then afterwards have_origin is true and origin is (filter
latitude, filter longitude, MSL altitude of the lowest-index instance whose
fix_type >= 3, absolute frame), a later instance with a 3D fix not overwriting
it; if no instance has fix_type >= 3, origin and have_origin are unchanged. -/
theorem C22_first_valid_fix_wins {σ : Type} (cfg : Config) (D : Decoder σ)
    (drv : Driver σ) (h : drv.state.have_origin = false)
    (hfix : ∀ i, i < cfg.NUM_GNSS_INSTANCES →
      ((D.members drv.base).gnss_data i).fix_type < 256) :
    (∀ i, i < cfg.NUM_GNSS_INSTANCES →
        3 ≤ ((D.members drv.base).gnss_data i).fix_type →
        (∀ j, j < i → ((D.members drv.base).gnss_data j).fix_type < 3) →
        (post_filter cfg D drv).1.state.have_origin = true ∧
        (post_filter cfg D drv).1.state.origin =
          { lat := (D.filter_data drv.base).lat, lng := (D.filter_data drv.base).lon,
            alt := ((D.members drv.base).gnss_data i).msl_altitude,
            frame := AltFrame.ABSOLUTE }) ∧
      ((∃ i, i < cfg.NUM_GNSS_INSTANCES ∧
          3 ≤ ((D.members drv.base).gnss_data i).fix_type) →
        (post_filter cfg D drv).1.state.have_origin = true) ∧
      ((∀ j, j < cfg.NUM_GNSS_INSTANCES →
          ((D.members drv.base).gnss_data j).fix_type < 3) →
        (post_filter cfg D drv).1.state.have_origin = false ∧
        (post_filter cfg D drv).1.state.origin = drv.state.origin) := by
  have hfirst : ∀ i, i < cfg.NUM_GNSS_INSTANCES →
      3 ≤ ((D.members drv.base).gnss_data i).fix_type →
      (∀ j, j < i → ((D.members drv.base).gnss_data j).fix_type < 3) →
      (post_filter cfg D drv).1.state.have_origin = true ∧
      (post_filter cfg D drv).1.state.origin =
        { lat := (D.filter_data drv.base).lat, lng := (D.filter_data drv.base).lon,
          alt := ((D.members drv.base).gnss_data i).msl_altitude,
          frame := AltFrame.ABSOLUTE } := by
    intro i hi h3 hmin
    have hl := (post_filter_loop_first_fix (D.filter_data drv.base)
      (D.members drv.base).gnss_data cfg.NUM_GNSS_INSTANCES 0
      { drv.state with
        velocity := { x := (D.filter_data drv.base).ned_velocity_north,
                      y := (D.filter_data drv.base).ned_velocity_east,
                      z := (D.filter_data drv.base).ned_velocity_down },
        have_velocity := true,
        location := { lat := (D.filter_data drv.base).lat,
                      lng := (D.filter_data drv.base).lon,
                      alt := ((D.members drv.base).gnss_data 0).msl_altitude,
                      frame := AltFrame.ABSOLUTE },
        have_location := true } h).1 i (Nat.zero_le _) (by omega)
      (by rw [Nat.mod_eq_of_lt (hfix i hi)]; exact h3)
      (fun j _ hj => by
        rw [Nat.mod_eq_of_lt (hfix j (by omega))]
        exact hmin j hj)
    simp only [post_filter]
    rw [hl]
    exact ⟨rfl, rfl⟩
  refine ⟨hfirst, ?_, ?_⟩
  · intro hex
    obtain ⟨i, hi, h3, hmin⟩ := lowest_fix
      (fun i => ((D.members drv.base).gnss_data i).fix_type) cfg.NUM_GNSS_INSTANCES hex
    exact (hfirst i hi h3 hmin).1
  · intro hnone
    have hl := (post_filter_loop_first_fix (D.filter_data drv.base)
      (D.members drv.base).gnss_data cfg.NUM_GNSS_INSTANCES 0
      { drv.state with
        velocity := { x := (D.filter_data drv.base).ned_velocity_north,
                      y := (D.filter_data drv.base).ned_velocity_east,
                      z := (D.filter_data drv.base).ned_velocity_down },
        have_velocity := true,
        location := { lat := (D.filter_data drv.base).lat,
                      lng := (D.filter_data drv.base).lon,
                      alt := ((D.members drv.base).gnss_data 0).msl_altitude,
                      frame := AltFrame.ABSOLUTE },
        have_location := true } h).2
      (fun j _ hj => by
        have hj2 : j < cfg.NUM_GNSS_INSTANCES := by omega
        rw [Nat.mod_eq_of_lt (hfix j hj2)]
        exact hnone j hj2)
    simp only [post_filter]
    rw [hl]
    exact ⟨h, rfl⟩

end AP_ExternalAHRS_MicroStrain7

namespace AP_ExternalAHRS_MicroStrain7

theorem gnss_decoder_fix_small (fix0 fix1 : Nat) (h0 : fix0 < 256) (h1 : fix1 < 256) :
    ∀ i, i < sample_config.NUM_GNSS_INSTANCES →
      (((gnss_decoder fix0 fix1).members sample_driver.base).gnss_data i).fix_type < 256 := by
  intro i _
  simp only [gnss_decoder]
  split <;> assumption

/-- Witness for C22: with a 2D fix on instance 0 and a 3D fix on instance 1 the
origin takes the altitude of instance 1; with 3D fixes on both it takes that
of instance 0; with 2D fixes on both nothing is set. -/
theorem C22_first_valid_fix_wins_witness :
    sample_driver.state.have_origin = false ∧
      (post_filter sample_config (gnss_decoder 2 3) sample_driver).1.state.origin =
        { lat := 50, lng := 60, alt := 200, frame := AltFrame.ABSOLUTE } ∧
      (post_filter sample_config (gnss_decoder 3 3) sample_driver).1.state.origin =
        { lat := 50, lng := 60, alt := 100, frame := AltFrame.ABSOLUTE } ∧
      (post_filter sample_config (gnss_decoder 3 3) sample_driver).1.state.have_origin
        = true ∧
      (post_filter sample_config (gnss_decoder 2 2) sample_driver).1.state.have_origin
        = false :=
  have h23 := (C22_first_valid_fix_wins sample_config (gnss_decoder 2 3) sample_driver rfl
    (gnss_decoder_fix_small 2 3 (by decide) (by decide))).1 1 (by decide) (by decide)
    (fun j hj => by
      have hj0 : j = 0 := by omega
      subst hj0
      decide)
  have h33 := (C22_first_valid_fix_wins sample_config (gnss_decoder 3 3) sample_driver rfl
    (gnss_decoder_fix_small 3 3 (by decide) (by decide))).1 0 (by decide) (by decide)
    (fun j hj => by omega)
  have h22 := (C22_first_valid_fix_wins sample_config (gnss_decoder 2 2) sample_driver rfl
    (gnss_decoder_fix_small 2 2 (by decide) (by decide))).2.2
    (fun j _ => by
      simp only [gnss_decoder]
      split <;> decide)
  ⟨rfl, h23.2, h33.2, h33.1, h22.1⟩

/-- C23 (amended). GNSS sample dispatch: for a decoded frame whose descriptor
is a GNSS sample (GNSSData, GNSSRecv1, GNSSRecv2) the dispatch of build_packet
calls no publisher and changes nothing; the samples are forwarded to the GNSS
publisher interface by the dispatch of a FilterData frame, one call per
receiver instance in index order, and that dispatch sets the origin when none
is set and some instance has a fix type of at least 3. -/
theorem C23_gnss_dispatch {σ : Type} (cfg : Config) (D : Decoder σ) (drv : Driver σ) :
    dispatch cfg D DescriptorSet.GNSSData drv = (drv, []) ∧
      dispatch cfg D DescriptorSet.GNSSRecv1 drv = (drv, []) ∧
      dispatch cfg D DescriptorSet.GNSSRecv2 drv = (drv, []) ∧
      (dispatch cfg D DescriptorSet.FilterData drv).2 =
        (List.range cfg.NUM_GNSS_INSTANCES).map
          (fun i => Publish.gps_handle_external
            (gps_message (D.filter_data drv.base) ((D.members drv.base).gnss_data i)) i) ∧
      (drv.state.have_origin = false →
        (∃ i, i < cfg.NUM_GNSS_INSTANCES ∧
          3 ≤ ((D.members drv.base).gnss_data i).fix_type % 256) →
        (dispatch cfg D DescriptorSet.FilterData drv).1.state.have_origin = true) := by
  refine ⟨rfl, rfl, rfl, ?_, ?_⟩
  · simp only [dispatch, post_filter, post_filter_loop_publishes, List.range_eq_range']
  · intro h hex
    obtain ⟨i, hi, h3, hmin⟩ := lowest_fix
      (fun i => ((D.members drv.base).gnss_data i).fix_type % 256)
      cfg.NUM_GNSS_INSTANCES hex
    have hl := (post_filter_loop_first_fix (D.filter_data drv.base)
      (D.members drv.base).gnss_data cfg.NUM_GNSS_INSTANCES 0
      { drv.state with
        velocity := { x := (D.filter_data drv.base).ned_velocity_north,
                      y := (D.filter_data drv.base).ned_velocity_east,
                      z := (D.filter_data drv.base).ned_velocity_down },
        have_velocity := true,
        location := { lat := (D.filter_data drv.base).lat,
                      lng := (D.filter_data drv.base).lon,
                      alt := ((D.members drv.base).gnss_data 0).msl_altitude,
                      frame := AltFrame.ABSOLUTE },
        have_location := true } h).1 i (Nat.zero_le _) (by omega) h3
      (fun j _ hj => hmin j hj)
    simp only [dispatch, post_filter]
    rw [hl]

/-- Witness for C23 (amended): a filter frame with 3D fixes and no origin set
publishes two GNSS samples and sets the origin. -/
theorem C23_gnss_dispatch_witness :
    sample_driver.state.have_origin = false ∧
      (∃ i, i < sample_config.NUM_GNSS_INSTANCES ∧
        3 ≤ (((pair_decoder 50 60).members sample_driver.base).gnss_data i).fix_type % 256) ∧
      (dispatch sample_config (pair_decoder 50 60) DescriptorSet.FilterData
        sample_driver).1.state.have_origin = true ∧
      ((dispatch sample_config (pair_decoder 50 60) DescriptorSet.FilterData
        sample_driver).2).length = 2 :=
  have hex : ∃ i, i < sample_config.NUM_GNSS_INSTANCES ∧
      3 ≤ (((pair_decoder 50 60).members sample_driver.base).gnss_data i).fix_type % 256 :=
    ⟨0, by decide, by decide⟩
  have h := C23_gnss_dispatch sample_config (pair_decoder 50 60) sample_driver
  ⟨rfl, hex, h.2.2.2.2 rfl hex, by rw [h.2.2.2.1]; rfl⟩

/-- C23 (counterexample). With no origin set and a 3D fix on every GNSS
instance, the dispatch of a GNSSData frame (and likewise of a GNSSRecv1 or
GNSSRecv2 frame) calls no publisher and leaves have_origin false: it neither
forwards a sample nor sets the origin. -/
theorem C23_counterexample :
    sample_driver.state.have_origin = false ∧
      (((pair_decoder 50 60).members sample_driver.base).gnss_data 0).fix_type = 3 ∧
      (dispatch sample_config (pair_decoder 50 60) DescriptorSet.GNSSData sample_driver).2
        = [] ∧
      (dispatch sample_config (pair_decoder 50 60) DescriptorSet.GNSSData
        sample_driver).1.state.have_origin = false ∧
      (dispatch sample_config (pair_decoder 50 60) DescriptorSet.GNSSRecv1 sample_driver).2
        = [] ∧
      (dispatch sample_config (pair_decoder 50 60) DescriptorSet.GNSSRecv2 sample_driver).2
        = [] :=
  ⟨rfl, rfl, rfl, rfl, rfl, rfl⟩

/-- C24. Ignored descriptors have no side effects: for a decoded frame whose
descriptor is a command or acknowledgement class (BaseCommand, DMCommand,
SystemCommand) or is not one the switch handles (a value outside the
enumeration), the dispatch of build_packet returns the object unchanged, so no
field of the shared navigation state changes, and calls no publisher. -/
theorem C24_ignored_descriptors {σ : Type} (cfg : Config) (D : Decoder σ)
    (drv : Driver σ) (raw : Nat) :
    dispatch cfg D DescriptorSet.BaseCommand drv = (drv, []) ∧
      dispatch cfg D DescriptorSet.DMCommand drv = (drv, []) ∧
      dispatch cfg D DescriptorSet.SystemCommand drv = (drv, []) ∧
      dispatch cfg D (DescriptorSet.unlisted raw) drv = (drv, []) ∧
      (dispatch cfg D DescriptorSet.BaseCommand drv).1.state = drv.state ∧
      (dispatch cfg D DescriptorSet.DMCommand drv).1.state = drv.state ∧
      (dispatch cfg D DescriptorSet.SystemCommand drv).1.state = drv.state ∧
      (dispatch cfg D (DescriptorSet.unlisted raw) drv).1.state = drv.state :=
  ⟨rfl, rfl, rfl, rfl, rfl, rfl, rfl, rfl⟩

/-- C25. The pre-arm check can never pass: for every backend state and every
clock value pre_arm_check returns false, because its last test requires the
filter state to equal 0x02 while healthy, tested first, requires it to be 0x03
or 0x04. -/
theorem C25_pre_arm_never_passes (now : Nat) (b : Backend) :
    (pre_arm_check now b).1 = false ∧
      (healthy now b = true →
        b.filter_status_state = 0x03 ∨ b.filter_status_state = 0x04) ∧
      (b.filter_status_state ≠ 0x02 → (pre_arm_check now b).1 = false) := by
  have hh : healthy now b = true →
      b.filter_status_state = 0x03 ∨ b.filter_status_state = 0x04 := by
    intro h
    simp only [healthy, GQ7_AHRS, GQ7_FULL_NAV, Bool.and_eq_true, Bool.or_eq_true,
      beq_iff_eq] at h
    tauto
  have hfalse : (pre_arm_check now b).1 = false := by
    cases hhe : healthy now b
    · simp [pre_arm_check, hhe]
    · by_cases hfix : (b.gnss_data 0).fix_type < 3
      · simp [pre_arm_check, hhe, hfix]
      · have hs : ¬ (b.filter_status_state = 2) := by
          rcases hh hhe with h3 | h4 <;> omega
        simp [pre_arm_check, hhe, hfix, hs]
  exact ⟨hfalse, hh, fun _ => hfalse⟩

/-- Witness for C25: a healthy backend with a 3D fix and the full-navigation
filter state is refused. -/
theorem C25_pre_arm_never_passes_witness :
    healthy 1010 (sample_backend 1000 1000 1000 GQ7_FULL_NAV 3) = true ∧
      ((sample_backend 1000 1000 1000 GQ7_FULL_NAV 3).filter_status_state = 0x03 ∨
        (sample_backend 1000 1000 1000 GQ7_FULL_NAV 3).filter_status_state = 0x04) ∧
      (pre_arm_check 1010 (sample_backend 1000 1000 1000 GQ7_FULL_NAV 3)).1 = false :=
  have hh : healthy 1010 (sample_backend 1000 1000 1000 GQ7_FULL_NAV 3) = true := by decide
  ⟨hh, (C25_pre_arm_never_passes 1010 _).2.1 hh, (C25_pre_arm_never_passes 1010 _).1⟩

end AP_ExternalAHRS_MicroStrain7

/-! ## Auxiliary lemmas: remote logging -/

namespace DataFlash_MAVLink

theorem u16_sub_of_le (a b : Nat) (hba : b ≤ a) (ha : a < 65536) : u16_sub a b = a - b := by
  unfold u16_sub
  omega

theorem completed_append (a b : List Event) :
    completed (a ++ b) = completed a ++ completed b := by
  induction a with
  | nil => rfl
  | cons e a ih => cases e <;> simp [completed, ih]

theorem completed_send_log_block (p : Params) (txspace address : Nat) (s : State) :
    completed (send_log_block p txspace address s) = [] := by
  unfold send_log_block
  split <;> rfl

/-- The loop is over once everything has been copied. -/
theorem WriteBlock_loop_done (p : Params) (txspace : Nat → Nat) (pBuffer : List Nat)
    (size fuel copied sends : Nat) (s : State) (h : ¬ copied < size) :
    WriteBlock_loop p txspace pBuffer size fuel copied sends s = some (s, []) := by
  cases fuel <;> simp [WriteBlock_loop, h]

/-- The copy of one iteration, when the block has room and bytes remain: it
copies the smaller of the bytes remaining and the room left. -/
theorem copy_step_eq (p : Params) (pBuffer : List Nat) (size copied : Nat) (s : State)
    (hsize : size < 65536) (hmax : p.block_max_size < 65536)
    (hc : copied < size) (hlen : s._latest_block_len < p.block_max_size) :
    copy_step p pBuffer size copied s =
      (copied + min (size - copied) (p.block_max_size - s._latest_block_len),
        { s with
          _buf := copy_in s._buf s._cur_block_address s._latest_block_len pBuffer copied
            (min (size - copied) (p.block_max_size - s._latest_block_len)),
          _latest_block_len :=
            s._latest_block_len +
              min (size - copied) (p.block_max_size - s._latest_block_len) }) := by
  have h1 : u16_sub size copied = size - copied := u16_sub_of_le _ _ (by omega) hsize
  have h2 : u16_sub p.block_max_size s._latest_block_len =
      p.block_max_size - s._latest_block_len := u16_sub_of_le _ _ (by omega) hmax
  have h3 : (if size - copied > p.block_max_size - s._latest_block_len
      then p.block_max_size - s._latest_block_len else size - copied) =
      min (size - copied) (p.block_max_size - s._latest_block_len) := by
    split <;> omega
  simp only [copy_step, h1, h2, h3]
  have h4 : (copied + min (size - copied) (p.block_max_size - s._latest_block_len)) % 65536 =
      copied + min (size - copied) (p.block_max_size - s._latest_block_len) := by
    apply Nat.mod_eq_of_lt
    omega
  have h5 : (s._latest_block_len +
      min (size - copied) (p.block_max_size - s._latest_block_len)) % 65536 =
      s._latest_block_len + min (size - copied) (p.block_max_size - s._latest_block_len) := by
    apply Nat.mod_eq_of_lt
    omega
  rw [h4, h5]

/-- Completing a block stores the current block number in the current slot,
advances the number, empties the length, and records the completed block. -/
theorem complete_block_fields (p : Params) (txspace : Nat) (s : State) :
    (complete_block p txspace s).1._latest_block_len = 0 ∧
      (complete_block p txspace s).1._latest_block_num =
        (s._latest_block_num + 1) % 4294967296 ∧
      (complete_block p txspace s).1._block_num =
        (fun a => if a = s._cur_block_address then s._latest_block_num else s._block_num a) ∧
      (complete_block p txspace s).1._buf = s._buf ∧
      (complete_block p txspace s).1._initialised = s._initialised ∧
      (complete_block p txspace s).1._sending_to_client = s._sending_to_client ∧
      (complete_block p txspace s).1._writes_enabled = s._writes_enabled ∧
      completed (complete_block p txspace s).2 =
        [(s._cur_block_address, s._latest_block_num)] := by
  simp only [complete_block, next_block_address, completed, completed_send_log_block]
  split_ifs <;> simp

end DataFlash_MAVLink

namespace DataFlash_MAVLink

/-- The bookkeeping of the loop of `WriteBlock`: with enough iterations allowed
it ends, having completed as many blocks as the bytes in hand fill, numbered
consecutively from the current block number, and leaving the remainder as the
length of the block in progress. -/
theorem WriteBlock_loop_spec (p : Params) (txspace : Nat → Nat) (pBuffer : List Nat)
    (size : Nat) (hmax0 : 0 < p.block_max_size) (hmax : p.block_max_size < 65536)
    (hsize : size < 65536) :
    ∀ (fuel copied sends : Nat) (s : State), copied ≤ size →
      s._latest_block_len < p.block_max_size → s._latest_block_num < 4294967296 →
      size - copied ≤ fuel →
      ∃ s' evs, WriteBlock_loop p txspace pBuffer size fuel copied sends s = some (s', evs) ∧
        (completed evs).map Prod.snd =
          (List.range ((s._latest_block_len + (size - copied)) / p.block_max_size)).map
            (fun i => (s._latest_block_num + i) % 4294967296) ∧
        s'._latest_block_len =
          (s._latest_block_len + (size - copied)) % p.block_max_size := by
  intro fuel
  induction fuel with
  | zero =>
    intro copied sends s hc hlen _ hfuel
    have hdone : ¬ copied < size := by omega
    have hz : size - copied = 0 := by omega
    refine ⟨s, [], WriteBlock_loop_done p txspace pBuffer size 0 copied sends s hdone, ?_, ?_⟩
    · rw [hz, Nat.add_zero, Nat.div_eq_of_lt hlen]
      rfl
    · rw [hz, Nat.add_zero, Nat.mod_eq_of_lt hlen]
  | succ fuel ih =>
    intro copied sends s hc hlen hnum hfuel
    by_cases hlt : copied < size
    · have hstep := copy_step_eq p pBuffer size copied s hsize hmax hlt hlen
      by_cases hfull : size - copied ≥ p.block_max_size - s._latest_block_len
      · -- the block in progress is filled
        have hmin : min (size - copied) (p.block_max_size - s._latest_block_len) =
            p.block_max_size - s._latest_block_len := by omega
        rw [hmin] at hstep
        have hlen2 : s._latest_block_len + (p.block_max_size - s._latest_block_len) =
            p.block_max_size := by omega
        have hf := complete_block_fields p (txspace sends) (copy_step p pBuffer size copied s).2
        obtain ⟨s', evs, hrun, hst, hl⟩ := ih
          (copy_step p pBuffer size copied s).1 (sends + 1)
          (complete_block p (txspace sends) (copy_step p pBuffer size copied s).2).1
          (by rw [hstep]; simp only; omega)
          (by rw [hf.1]; exact hmax0)
          (by rw [hf.2.1]; exact Nat.mod_lt _ (by decide))
          (by rw [hstep]; simp only; omega)
        refine ⟨s', (complete_block p (txspace sends)
          (copy_step p pBuffer size copied s).2).2 ++ evs, ?_, ?_, ?_⟩
        · rw [WriteBlock_loop]
          simp only [hlt, if_true]
          have hcond : ((copy_step p pBuffer size copied s).2._latest_block_len ==
              p.block_max_size) = true := by
            rw [hstep]
            simp only [hlen2, beq_self_eq_true]
          simp only [hcond, if_true, hrun]
        · rw [completed_append, List.map_append, hf.2.2.2.2.2.2.2, hst, hf.1, hf.2.1]
          have hnum2 : (copy_step p pBuffer size copied s).2._latest_block_num =
              s._latest_block_num := by rw [hstep]
          have hcop : size - (copy_step p pBuffer size copied s).1 =
              size - copied - (p.block_max_size - s._latest_block_len) := by
            rw [hstep]
            simp only
            omega
          rw [hnum2, hcop]
          have hsum : s._latest_block_len + (size - copied) =
              (size - copied - (p.block_max_size - s._latest_block_len)) + p.block_max_size := by
            omega
          rw [hsum, Nat.add_div_right _ hmax0, Nat.zero_add, List.range_succ_eq_map]
          simp only [List.map_cons, List.map_map, List.map_nil, List.singleton_append,
            Nat.add_zero, Nat.mod_eq_of_lt hnum]
          congr 1
          apply List.map_congr_left
          intro i _
          simp only [Function.comp, Nat.succ_eq_add_one]
          omega
        · rw [hl, hf.1]
          have hcop : size - (copy_step p pBuffer size copied s).1 =
              size - copied - (p.block_max_size - s._latest_block_len) := by
            rw [hstep]
            simp only
            omega
          have hsum : s._latest_block_len + (size - copied) =
              (size - copied - (p.block_max_size - s._latest_block_len)) + p.block_max_size := by
            omega
          rw [hcop, hsum, Nat.zero_add, Nat.add_mod_right]
      · -- the bytes in hand do not fill the block
        have hmin : min (size - copied) (p.block_max_size - s._latest_block_len) =
            size - copied := by omega
        rw [hmin] at hstep
        have hsmall : s._latest_block_len + (size - copied) < p.block_max_size := by omega
        have hcond : ((copy_step p pBuffer size copied s).2._latest_block_len ==
            p.block_max_size) = false := by
          rw [hstep]
          simp only [beq_eq_false_iff_ne, ne_eq]
          omega
        have hdone : ¬ (copy_step p pBuffer size copied s).1 < size := by
          rw [hstep]
          simp only
          omega
        refine ⟨(copy_step p pBuffer size copied s).2, [], ?_, ?_, ?_⟩
        · rw [WriteBlock_loop]
          simp only [hlt, if_true, hcond]
          exact WriteBlock_loop_done p txspace pBuffer size fuel _ sends _ hdone
        · rw [Nat.div_eq_of_lt hsmall]
          rfl
        · rw [Nat.mod_eq_of_lt hsmall, hstep]
    · have hz : size - copied = 0 := by omega
      refine ⟨s, [], WriteBlock_loop_done p txspace pBuffer size _ copied sends s hlt, ?_, ?_⟩
      · rw [hz, Nat.add_zero, Nat.div_eq_of_lt hlen]
        rfl
      · rw [hz, Nat.add_zero, Nat.mod_eq_of_lt hlen]

end DataFlash_MAVLink

namespace DataFlash_MAVLink

/-- The scan of `next_block_address`: started on a slot that is the lowest
minimum of the slots already seen, it ends on the lowest minimum of all the
slots it covers. -/
theorem oldest_scan_spec (num : Nat → Nat) :
    ∀ (count block oldest : Nat),
      (oldest < block ∨ (block = 0 ∧ oldest = 0)) →
      (∀ j, j < block → num oldest ≤ num j) →
      (∀ j, j < oldest → num oldest < num j) →
      (oldest_scan num count block oldest < block + count ∨
          oldest_scan num count block oldest = oldest) ∧
        (∀ j, j < block + count → num (oldest_scan num count block oldest) ≤ num j) ∧
        (∀ j, j < oldest_scan num count block oldest →
          num (oldest_scan num count block oldest) < num j) := by
  intro count
  induction count with
  | zero =>
    intro block oldest _ h2 h3
    exact ⟨Or.inr rfl, fun j hj => h2 j (by omega), h3⟩
  | succ n ih =>
    intro block oldest h1 h2 h3
    by_cases hgt : num oldest > num block
    · by_cases hz : num block = 0
      · have hr : oldest_scan num (n + 1) block oldest = block := by
          rw [oldest_scan, if_pos hgt]
          simp [hz]
        rw [hr]
        refine ⟨Or.inl (by omega), fun j _ => by omega, fun j hj => ?_⟩
        have := h2 j hj
        omega
      · have hr : oldest_scan num (n + 1) block oldest = oldest_scan num n (block + 1) block := by
          rw [oldest_scan, if_pos hgt]
          simp [hz]
        rw [hr]
        have h := ih (block + 1) block (Or.inl (by omega))
          (fun j hj => by
            by_cases hjb : j = block
            · rw [hjb]
            · have := h2 j (by omega)
              omega)
          (fun j hj => by
            have := h2 j hj
            omega)
        refine ⟨?_, fun j hj => h.2.1 j (by omega), h.2.2⟩
        rcases h.1 with h | h
        · exact Or.inl (by omega)
        · exact Or.inl (by omega)
    · have hr : oldest_scan num (n + 1) block oldest = oldest_scan num n (block + 1) oldest := by
        rw [oldest_scan, if_neg hgt]
      rw [hr]
      have h := ih (block + 1) oldest (Or.inl (by omega))
        (fun j hj => by
          by_cases hjb : j = block
          · rw [hjb]
            omega
          · exact h2 j (by omega))
        h3
      refine ⟨?_, fun j hj => h.2.1 j (by omega), h.2.2⟩
      rcases h.1 with h | h
      · exact Or.inl (by omega)
      · exact Or.inr h

/-- With every slot free the scan stays where it started. -/
theorem oldest_scan_all_zero (num : Nat → Nat) (h : ∀ j, num j = 0) :
    ∀ (count block oldest : Nat), oldest_scan num count block oldest = oldest := by
  intro count
  induction count with
  | zero => intro _ _; rfl
  | succ n ih =>
    intro block oldest
    simp [oldest_scan, h, ih]

theorem to_int8_small (n : Nat) (h : n < 128) : to_int8 n = (n : Int) := by
  unfold to_int8
  have h1 : n % 256 = n := Nat.mod_eq_of_lt (by omega)
  simp [h1, h]

theorem to_uint8_to_int8_small (n : Nat) (h : n < 128) : to_uint8 (to_int8 n) = n := by
  rw [to_int8_small n h]
  unfold to_uint8
  omega

end DataFlash_MAVLink

/-! ## Claims: remote logging -/

namespace DataFlash_MAVLink

/-- C28. WriteBlock bookkeeping: when the backend is initialised, sending to a
client and writes are enabled, with 0 < _block_max_size and _latest_block_len <
_block_max_size (all 16-bit values, the block number a 32-bit value),
WriteBlock of size bytes terminates (size iterations of its loop suffice),
completes exactly floor((_latest_block_len + size) / _block_max_size) blocks,
stamps them with consecutive block numbers starting at the old
_latest_block_num, and leaves _latest_block_len = (_latest_block_len + size) mod
_block_max_size, which is again below _block_max_size. -/
theorem C28_WriteBlock_bookkeeping (p : Params) (txspace : Nat → Nat) (fuel : Nat)
    (pBuffer : List Nat) (size : Nat) (s : State)
    (hi : s._initialised = true) (hs : s._sending_to_client = true)
    (hw : s._writes_enabled = true)
    (hmax0 : 0 < p.block_max_size) (hlen : s._latest_block_len < p.block_max_size)
    (hmax : p.block_max_size < 65536) (hsize : size < 65536)
    (hnum : s._latest_block_num < 4294967296) (hfuel : size ≤ fuel) :
    ∃ s' evs, WriteBlock p txspace fuel pBuffer size s = some (s', evs) ∧
      (completed evs).length = (s._latest_block_len + size) / p.block_max_size ∧
      (completed evs).map Prod.snd =
        (List.range ((s._latest_block_len + size) / p.block_max_size)).map
          (fun i => (s._latest_block_num + i) % 4294967296) ∧
      s'._latest_block_len = (s._latest_block_len + size) % p.block_max_size ∧
      s'._latest_block_len < p.block_max_size := by
  obtain ⟨s', evs, hrun, hst, hl⟩ := WriteBlock_loop_spec p txspace pBuffer size hmax0 hmax
    hsize fuel 0 0 s (Nat.zero_le _) hlen hnum (by omega)
  simp only [Nat.sub_zero] at hst hl
  refine ⟨s', evs, ?_, ?_, hst, hl, ?_⟩
  · simp only [WriteBlock, hi, hs, hw, Bool.not_true, Bool.or_self, Bool.false_eq_true,
      if_false]
    exact hrun
  · have := congrArg List.length hst
    simpa using this
  · rw [hl]
    exact Nat.mod_lt _ hmax0

end DataFlash_MAVLink

namespace DataFlash_MAVLink

/-- Witness for C28: with blocks of 4 bytes, 1 byte already in the block in
progress and the next block number 6, writing 10 bytes completes 2 blocks
numbered 6 and 7 and leaves 3 bytes in the block in progress. -/
theorem C28_WriteBlock_bookkeeping_witness :
    ∃ s' evs,
      WriteBlock sample_params (fun _ => 255) 10 (List.range 10) 10
          (logging_state 1 6 busy_slots) = some (s', evs) ∧
        (completed evs).length = 2 ∧
        (completed evs).map Prod.snd = [6, 7] ∧
        s'._latest_block_len = 3 ∧
        s'._latest_block_len < 4 :=
  C28_WriteBlock_bookkeeping sample_params (fun _ => 255) 10 (List.range 10) 10
    (logging_state 1 6 busy_slots) rfl rfl rfl (by decide) (by decide) (by decide)
    (by decide) (by decide) (by decide)

/-- C29. Selection by next_block_address: for 1 <= _total_blocks <= 128 it
returns the lowest index i < _total_blocks whose _block_num[i] is the minimum
over all slots; so it returns a free slot (block number 0) whenever there is
one, without counting an overrun, and otherwise the slot holding the
smallest-numbered block, counting one overrun; it changes no slot and nothing
else of the object. -/
theorem C29_next_block_address (p : Params) (s : State)
    (h1 : 1 ≤ p.total_blocks) (h128 : p.total_blocks ≤ 128) :
    ∃ i : Nat, (next_block_address p s).1 = (i : Int) ∧ i < p.total_blocks ∧
      (∀ j, j < p.total_blocks → s._block_num i ≤ s._block_num j) ∧
      (∀ j, j < i → s._block_num i < s._block_num j) ∧
      ((∃ j, j < p.total_blocks ∧ s._block_num j = 0) →
        s._block_num i = 0 ∧ (next_block_address p s).2.overruns = s.overruns) ∧
      ((∀ j, j < p.total_blocks → s._block_num j ≠ 0) →
        (next_block_address p s).2.overruns = s.overruns + 1) ∧
      (next_block_address p s).2._block_num = s._block_num ∧
      (next_block_address p s).2._buf = s._buf ∧
      (next_block_address p s).2._latest_block_num = s._latest_block_num ∧
      (next_block_address p s).2._latest_block_len = s._latest_block_len ∧
      (next_block_address p s).2._cur_block_address = s._cur_block_address := by
  have hspec := oldest_scan_spec s._block_num p.total_blocks 0 0 (Or.inr ⟨rfl, rfl⟩)
    (fun j hj => by omega) (fun j hj => by omega)
  simp only [Nat.zero_add] at hspec
  have hlt : oldest_scan s._block_num p.total_blocks 0 0 < p.total_blocks := by
    rcases hspec.1 with h | h
    · exact h
    · rw [h]
      omega
  refine ⟨oldest_scan s._block_num p.total_blocks 0 0, ?_, hlt, hspec.2.1, hspec.2.2, ?_, ?_,
    ?_, ?_, ?_, ?_, ?_⟩
  · simp only [next_block_address]
    exact to_int8_small _ (by omega)
  · rintro ⟨j, hj, hz⟩
    have hmin := hspec.2.1 j hj
    have h0 : s._block_num (oldest_scan s._block_num p.total_blocks 0 0) = 0 := by omega
    simp [next_block_address, h0]
  · intro hnone
    have hne := hnone _ hlt
    simp [next_block_address, hne]
  all_goals
    simp only [next_block_address]
    split <;> rfl

/-- Witness for C29: with block numbers 7, 5, 9 in three slots it returns slot
1 and counts an overrun; with 7, 0, 0 it returns slot 1 and counts none. -/
theorem C29_next_block_address_witness :
    (1 ≤ sample_params.total_blocks ∧ sample_params.total_blocks ≤ 128) ∧
      (next_block_address sample_params (logging_state 0 10 busy_slots)).1 = 1 ∧
      (next_block_address sample_params (logging_state 0 10 busy_slots)).2.overruns = 1 ∧
      (next_block_address sample_params (logging_state 0 10 free_slots)).1 = 1 ∧
      (next_block_address sample_params (logging_state 0 10 free_slots)).2.overruns = 0 ∧
      ∃ i : Nat, (next_block_address sample_params (logging_state 0 10 busy_slots)).1 = (i : Int) ∧
        i < sample_params.total_blocks ∧
        ∀ j, j < sample_params.total_blocks →
          (logging_state 0 10 busy_slots)._block_num i ≤
            (logging_state 0 10 busy_slots)._block_num j :=
  have h := C29_next_block_address sample_params (logging_state 0 10 busy_slots)
    (by decide) (by decide)
  ⟨⟨by decide, by decide⟩, by decide, by decide, by decide, by decide,
    h.elim (fun i hi => ⟨i, hi.1, hi.2.1, hi.2.2.1⟩)⟩

end DataFlash_MAVLink

namespace DataFlash_MAVLink

/-- Writing exactly one block's worth of bytes when the block in progress is
empty: one iteration copies them all into the current slot and completes the
block. -/
theorem full_block_write (p : Params) (txspace : Nat → Nat) (fuel : Nat)
    (pBuffer : List Nat) (s : State)
    (hi : s._initialised = true) (hs : s._sending_to_client = true)
    (hw : s._writes_enabled = true) (hlen : s._latest_block_len = 0)
    (hmax0 : 0 < p.block_max_size) (hmax : p.block_max_size < 65536) :
    WriteBlock p txspace (fuel + 1) pBuffer p.block_max_size s =
      some (complete_block p (txspace 0)
        { s with
          _buf := copy_in s._buf s._cur_block_address 0 pBuffer 0 p.block_max_size,
          _latest_block_len := p.block_max_size }) := by
  have hstep := copy_step_eq p pBuffer p.block_max_size 0 s hmax hmax hmax0
    (by rw [hlen]; exact hmax0)
  simp only [hlen, Nat.sub_zero, Nat.min_self, Nat.zero_add] at hstep
  simp only [WriteBlock, hi, hs, hw, Bool.not_true, Bool.or_self, Bool.false_eq_true,
    if_false]
  rw [WriteBlock_loop]
  simp only [hmax0, if_true, hstep, beq_self_eq_true]
  rw [WriteBlock_loop_done p txspace pBuffer p.block_max_size fuel _ _ _ (by omega)]
  simp [hi, hs, hw]

/-- When every slot is free and the block number is 0, completing a block
leaves every slot marked free and chooses slot 0 again. -/
theorem complete_block_free (p : Params) (txspace : Nat) (s : State)
    (hfree : ∀ a, s._block_num a = 0) (hnum : s._latest_block_num = 0) :
    (∀ a, (complete_block p txspace s).1._block_num a = 0) ∧
      (complete_block p txspace s).1._cur_block_address = 0 := by
  have hf := complete_block_fields p txspace s
  have hall : ∀ a, (fun a => if a = s._cur_block_address then s._latest_block_num
      else s._block_num a) a = 0 := by
    intro a
    simp only
    split
    · exact hnum
    · exact hfree a
  constructor
  · intro a
    rw [hf.2.2.1]
    exact hall a
  · simp only [complete_block, next_block_address]
    rw [oldest_scan_all_zero _ hall]
    rfl

/-- C30. First block collides with the free marker: after a START
acknowledgement has reset the log (_latest_block_num = 0, every _block_num = 0,
_cur_block_address = 0), the first block completed by WriteBlock is stored in
slot 0 with _block_num = 0, the value that marks a free slot, so
next_block_address returns slot 0 again, and the next block's data is written
over it (and numbered 1) although no acknowledgement has been handled. -/
theorem C30_first_block_collides (p : Params) (tx1 tx2 : Nat → Nat) (fuel1 fuel2 chan : Nat)
    (s0 : State) (A B : List Nat)
    (hi : s0._initialised = true) (hs : s0._sending_to_client = false)
    (hw : s0._writes_enabled = true) (hss : p.BLOCK_START ≠ p.BLOCK_STOP)
    (hmax0 : 0 < p.block_max_size) (hmax : p.block_max_size < 65536) :
    (handle_ack p chan p.BLOCK_START s0).1._latest_block_num = 0 ∧
      (∀ a, (handle_ack p chan p.BLOCK_START s0).1._block_num a = 0) ∧
      (handle_ack p chan p.BLOCK_START s0).1._cur_block_address = 0 ∧
      ∃ s2 ev2,
        WriteBlock p tx1 (fuel1 + 1) A p.block_max_size
          (handle_ack p chan p.BLOCK_START s0).1 = some (s2, ev2) ∧
        completed ev2 = [(0, 0)] ∧
        (∀ a, s2._block_num a = 0) ∧
        s2._cur_block_address = 0 ∧
        (next_block_address p s2).1 = 0 ∧
        (∀ o, o < p.block_max_size → s2._buf 0 o = A.getD o 0) ∧
        ∃ s3 ev3,
          WriteBlock p tx2 (fuel2 + 1) B p.block_max_size s2 = some (s3, ev3) ∧
          completed ev3 = [(0, 1)] ∧
          s3._block_num 0 = 1 ∧
          (∀ o, o < p.block_max_size → s3._buf 0 o = B.getD o 0) := by
  have hack : handle_ack p chan p.BLOCK_START s0 =
      ({ s0 with
          _sending_to_client := true,
          _block_num := fun _ => 0,
          _chan := chan,
          _latest_block_num := 0,
          _cur_block_address := 0,
          _latest_block_len := 0 },
        [Event.StartNewLog]) := by
    simp [handle_ack, hi, hs, hss]
  rw [hack]
  refine ⟨rfl, fun _ => rfl, rfl, ?_⟩
  have hw1 := full_block_write p tx1 fuel1 A
    { s0 with
      _sending_to_client := true,
      _block_num := fun _ => 0,
      _chan := chan,
      _latest_block_num := 0,
      _cur_block_address := 0,
      _latest_block_len := 0 } hi rfl hw rfl hmax0 hmax
  simp only at hw1
  generalize hmid : ({ s0 with
      _sending_to_client := true,
      _block_num := fun _ => 0,
      _chan := chan,
      _latest_block_num := 0,
      _cur_block_address := 0,
      _latest_block_len := p.block_max_size,
      _buf := copy_in s0._buf 0 0 A 0 p.block_max_size } : State) = mid at hw1
  have hmid_num : ∀ a, mid._block_num a = 0 := by intro a; rw [← hmid]
  have hmid_latest : mid._latest_block_num = 0 := by rw [← hmid]
  have hmid_cur : mid._cur_block_address = 0 := by rw [← hmid]
  have hmid_buf : mid._buf = copy_in s0._buf 0 0 A 0 p.block_max_size := by rw [← hmid]
  have hmid_flags : mid._initialised = true ∧ mid._sending_to_client = true ∧
      mid._writes_enabled = true := by
    rw [← hmid]
    exact ⟨hi, rfl, hw⟩
  have hf1 := complete_block_fields p (tx1 0) mid
  have hfree1 := complete_block_free p (tx1 0) mid hmid_num hmid_latest
  refine ⟨(complete_block p (tx1 0) mid).1, (complete_block p (tx1 0) mid).2, hw1, ?_,
    hfree1.1, hfree1.2, ?_, ?_, ?_⟩
  · rw [hf1.2.2.2.2.2.2.2, hmid_cur, hmid_latest]
  · simp only [next_block_address]
    rw [oldest_scan_all_zero _ hfree1.1]
    rfl
  · intro o ho
    rw [hf1.2.2.2.1, hmid_buf]
    simp [copy_in, ho]
  · generalize (complete_block p (tx1 0) mid).1 = c1 at hf1 hfree1 ⊢
    have hw2 := full_block_write p tx2 fuel2 B c1
      (by rw [hf1.2.2.2.2.1]; exact hmid_flags.1)
      (by rw [hf1.2.2.2.2.2.1]; exact hmid_flags.2.1)
      (by rw [hf1.2.2.2.2.2.2.1]; exact hmid_flags.2.2)
      hf1.1 hmax0 hmax
    obtain ⟨mid2, hmid2⟩ : ∃ m : State, m =
        { c1 with
          _buf := copy_in c1._buf c1._cur_block_address 0 B 0 p.block_max_size,
          _latest_block_len := p.block_max_size } := ⟨_, rfl⟩
    rw [← hmid2] at hw2
    have hf2 := complete_block_fields p (tx2 0) mid2
    have hm_cur : mid2._cur_block_address = 0 := by rw [hmid2]; exact hfree1.2
    have hm_latest : mid2._latest_block_num = 1 := by
      rw [hmid2]
      simp only [hf1.2.1, hmid_latest]
    have hm_buf : mid2._buf = copy_in c1._buf 0 0 B 0 p.block_max_size := by
      rw [hmid2]
      simp only [hfree1.2]
    refine ⟨(complete_block p (tx2 0) mid2).1, (complete_block p (tx2 0) mid2).2, hw2,
      ?_, ?_, ?_⟩
    · rw [hf2.2.2.2.2.2.2.2, hm_cur, hm_latest]
    · rw [hf2.2.2.1]
      simp only [hm_cur, hm_latest, if_true]
    · intro o ho
      rw [hf2.2.2.2.1, hm_buf]
      simp [copy_in, ho]

end DataFlash_MAVLink

namespace DataFlash_MAVLink

/-- Witness for C30: with three slots of four bytes, after the START
acknowledgement the block 1 2 3 4 is stored in slot 0 under number 0, slot 0 is
chosen again, and the block 5 6 7 8 is written over it under number 1. -/
theorem C30_first_block_collides_witness :
    (handle_ack sample_params 0 sample_params.BLOCK_START idle_state).1._latest_block_num = 0 ∧
      (∀ a, (handle_ack sample_params 0 sample_params.BLOCK_START idle_state).1._block_num a
        = 0) ∧
      (handle_ack sample_params 0 sample_params.BLOCK_START idle_state).1._cur_block_address
        = 0 ∧
      ∃ s2 ev2,
        WriteBlock sample_params (fun _ => 255) (0 + 1) [1, 2, 3, 4]
          sample_params.block_max_size
          (handle_ack sample_params 0 sample_params.BLOCK_START idle_state).1 = some (s2, ev2) ∧
        completed ev2 = [(0, 0)] ∧
        (∀ a, s2._block_num a = 0) ∧
        s2._cur_block_address = 0 ∧
        (next_block_address sample_params s2).1 = 0 ∧
        (∀ o, o < sample_params.block_max_size → s2._buf 0 o = [1, 2, 3, 4].getD o 0) ∧
        ∃ s3 ev3,
          WriteBlock sample_params (fun _ => 255) (0 + 1) [5, 6, 7, 8]
            sample_params.block_max_size s2 = some (s3, ev3) ∧
          completed ev3 = [(0, 1)] ∧
          s3._block_num 0 = 1 ∧
          (∀ o, o < sample_params.block_max_size → s3._buf 0 o = [5, 6, 7, 8].getD o 0) :=
  C30_first_block_collides sample_params (fun _ => 255) (fun _ => 255) 0 0 0 idle_state
    [1, 2, 3, 4] [5, 6, 7, 8] rfl rfl rfl (by decide) (by decide) (by decide)

end DataFlash_MAVLink

namespace DataFlash_MAVLink

/-- C31. Writes are discarded until a client connects: while the backend is
uninitialised, or not sending to a client, or writes are disabled, WriteBlock
with any buffer and size returns at once with the object unchanged (block
buffers, _block_num, _latest_block_num, _latest_block_len and
_cur_block_address included) and sends nothing.  That is the case after Init
until a START acknowledgement (Init leaves _sending_to_client as it was, and
no other acknowledgement sets it), and again after a STOP acknowledgement. -/
theorem C31_writes_discarded (p : Params) (txspace : Nat → Nat) (fuel : Nat)
    (pBuffer : List Nat) (size : Nat) (s : State) :
    ((s._initialised = false ∨ s._sending_to_client = false ∨ s._writes_enabled = false) →
        WriteBlock p txspace fuel pBuffer size s = some (s, [])) ∧
      (s._sending_to_client = false →
        (Init s).1._initialised = true ∧
        (Init s).1._sending_to_client = false ∧
        WriteBlock p txspace fuel pBuffer size (Init s).1 = some ((Init s).1, [])) ∧
      (∀ chan block_num : Nat, s._sending_to_client = false →
        block_num ≠ p.BLOCK_START →
        (handle_ack p chan block_num s).1._sending_to_client = false ∧
        WriteBlock p txspace fuel pBuffer size (handle_ack p chan block_num s).1 =
          some ((handle_ack p chan block_num s).1, [])) ∧
      (∀ chan : Nat, s._initialised = true →
        (handle_ack p chan p.BLOCK_STOP s).1._sending_to_client = false ∧
        WriteBlock p txspace fuel pBuffer size (handle_ack p chan p.BLOCK_STOP s).1 =
          some ((handle_ack p chan p.BLOCK_STOP s).1, [])) := by
  have hguard : ∀ t : State,
      (t._initialised = false ∨ t._sending_to_client = false ∨ t._writes_enabled = false) →
      WriteBlock p txspace fuel pBuffer size t = some (t, []) := by
    intro t h
    rcases h with h | h | h <;> simp [WriteBlock, h]
  refine ⟨hguard s, ?_, ?_, ?_⟩
  · intro hs
    have h2 : (Init s).1._sending_to_client = false := hs
    exact ⟨rfl, h2, hguard _ (Or.inr (Or.inl h2))⟩
  · intro chan block_num hs hne
    have h2 : (handle_ack p chan block_num s).1._sending_to_client = false := by
      unfold handle_ack
      split_ifs with h1 h2 h3
      · exact hs
      · rfl
      · simp only [Bool.and_eq_true, beq_iff_eq] at h3
        exact absurd h3.1 hne
      · exact hs
    exact ⟨h2, hguard _ (Or.inr (Or.inl h2))⟩
  · intro chan hi
    have h2 : (handle_ack p chan p.BLOCK_STOP s).1._sending_to_client = false := by
      simp [handle_ack, hi]
    exact ⟨h2, hguard _ (Or.inr (Or.inl h2))⟩

/-- Witness for C31: a write of four bytes after Init with no client, and one
after a STOP acknowledgement on a backend that was sending, change nothing and
send nothing. -/
theorem C31_writes_discarded_witness :
    idle_state._sending_to_client = false ∧
      WriteBlock sample_params (fun _ => 255) 4 [1, 2, 3, 4] 4 idle_state =
        some (idle_state, []) ∧
      WriteBlock sample_params (fun _ => 255) 4 [1, 2, 3, 4] 4 (Init idle_state).1 =
        some ((Init idle_state).1, []) ∧
      (logging_state 1 6 busy_slots)._initialised = true ∧
      WriteBlock sample_params (fun _ => 255) 4 [1, 2, 3, 4] 4
          (handle_ack sample_params 0 sample_params.BLOCK_STOP
            (logging_state 1 6 busy_slots)).1 =
        some ((handle_ack sample_params 0 sample_params.BLOCK_STOP
          (logging_state 1 6 busy_slots)).1, []) :=
  have h := C31_writes_discarded sample_params (fun _ => 255) 4 [1, 2, 3, 4] 4 idle_state
  have h2 := C31_writes_discarded sample_params (fun _ => 255) 4 [1, 2, 3, 4] 4
    (logging_state 1 6 busy_slots)
  ⟨rfl, h.1 (Or.inr (Or.inl rfl)), (h.2.1 rfl).2.2, rfl, (h2.2.2.2 0 rfl).2⟩

end DataFlash_MAVLink
